import Mathlib

/-! # voxelands: terrain and biome generation, map blocks, colour strings

A shallow embedding of `src/mapgen/mapgen_util.cpp`, of the node accessors and
modification state of `src/mapblock.h` and of the colour-string parsers of
`src/tile.cpp`, and the properties their specification states about them.

Conventions of the embedding

* `s16` values are integers; every place where the C++ narrows an `int` to
  `s16` (the constructors and operators of `v2s16` / `v3s16`) applies `s16`,
  the two's complement wrap to 16 bits.
* `uint64_t` seeds are natural numbers; `seed + k` is taken modulo `2^64`.
* `float` and `double` values are rational numbers (no NaN, no infinities).
  An arithmetic operation on them gives the exact result rounded to the
  format, as in IEEE 754 arithmetic with its default rounding (`roundDouble`,
  `roundFloat`); a decimal literal is the `double` nearest to it; the
  conversions `s16 -> float`, `s16 -> double` and `int -> double` are exact.
  Three values are given without their last roundings, because they leave
  the module as floating values: the quotient of
  `get_sector_average_ground_level` (the sum it divides is exact, and the
  rounding of the quotient does not change its integer part, which is all
  that `calc_biome` reads of it: `sector_average_integer_part`), and the
  amounts that `debris_amount_2d` and `largestone_amount_2d` compute from
  their noise value.
* The literal arguments of the calls to the noise engine and to `pow`
  (octaves, persistence, exponent) are passed on as they are written.
* The noise engine (`noise.h`) and `pow` (`<cmath>`) are external to the
  module: they are the fields of `NoiseEngine`, and every statement holds for
  every engine.
* The build-time constants (`constants.h`, `mapgen.h`) are the fields of
  `Constants`.
-/

namespace mapgen

/-! ## Machine numbers -/

/-- Narrowing of an `int` to `s16`: the value modulo `2^16`, taken in
`[-32768, 32767]`. -/
def s16 (x : Int) : Int := (x + 32768) % 65536 - 32768

/-- Arithmetic on `uint64_t`: the value modulo `2^64`. -/
def u64 (n : Nat) : Nat := n % 18446744073709551616

/-- Arithmetic on `uint32_t`: the value modulo `2^32`. -/
def u32 (n : Nat) : Nat := n % 4294967296

/-- Conversion of a floating value to an integer type discards the fractional
part (truncation toward zero). -/
def truncate (q : ℚ) : Int := if 0 ≤ q then ⌊q⌋ else ⌈q⌉

/-- The conversion `double -> int16_t`: truncation toward zero. When the
integer part does not fit 16 bits the conversion is undefined in C++; the
definition then follows the x86-64 code the compilers emit for it: a
conversion to a 32-bit `int`, which gives `INT_MIN` when the integer part does
not fit 32 bits, of which the low 16 bits are kept. -/
def toS16 (q : ℚ) : Int :=
  s16 (if -2147483648 ≤ truncate q ∧ truncate q ≤ 2147483647 then truncate q
    else -2147483648)

/-- The conversion `double -> uint32_t`: truncation toward zero. When the
integer part does not fit 32 bits the conversion is undefined in C++; the
definition then follows the x86-64 code the compilers emit for it: a
conversion to a 64-bit integer, which gives its least value when the integer
part does not fit 64 bits, of which the low 32 bits are kept. -/
def toU32 (q : ℚ) : Nat :=
  ((if -9223372036854775808 ≤ truncate q ∧ truncate q ≤ 9223372036854775807 then truncate q
    else -9223372036854775808) % 4294967296).toNat

/-! ## Floating-point rounding (IEEE 754 binary formats, round to nearest) -/

/-- Rounding of a rational to the nearest integer, a tie going to the even
neighbour. -/
def roundHalfEven (t : ℚ) : Int :=
  if t - ⌊t⌋ < 1 / 2 then ⌊t⌋
  else if 1 / 2 < t - ⌊t⌋ then ⌊t⌋ + 1
  else if ⌊t⌋ % 2 = 0 then ⌊t⌋ else ⌊t⌋ + 1

/-- The exponent of the unit in the last place of `q` in a binary format with
`p` significant bits whose smallest positive value is `2^emin`: with
`2^e <= |q| < 2^(e+1)` it is `e - (p - 1)`, and `emin` in the subnormal range. -/
def ulpExponent (p : Nat) (emin : Int) (q : ℚ) : Int :=
  max (Int.log 2 |q| - ((p : Int) - 1)) emin

/-- Rounding to the nearest value of the binary floating-point format with `p`
significant bits and smallest positive value `2^emin`, ties to even (the
default rounding of IEEE 754 arithmetic). The exponent range is not bounded
above: a value beyond the largest finite number stays a large number instead
of becoming an infinity. -/
def roundBinary (p : Nat) (emin : Int) (q : ℚ) : ℚ :=
  (roundHalfEven (q / 2 ^ ulpExponent p emin q) : ℚ) * 2 ^ ulpExponent p emin q

/-- The result of an arithmetic operation on `double` operands, and the value
of a `double` literal: the exact value rounded to binary64 (53 significant
bits, smallest positive value `2^-1074`). -/
def roundDouble (q : ℚ) : ℚ := roundBinary 53 (-1074) q

/-- The result of an arithmetic operation on `float` operands, and the
conversion of a `double` to `float`: the exact value rounded to binary32 (24
significant bits, smallest positive value `2^-149`). -/
def roundFloat (q : ℚ) : ℚ := roundBinary 24 (-149) q

/-! ## Vectors (`common_irrlicht.h`: `core::vector2d<s16>`, `core::vector3d<s16>`) -/

/-- A 2D vector of `s16`; for a column, `Y` holds the world Z coordinate. -/
structure v2s16 where
  X : Int
  Y : Int
deriving DecidableEq, Repr

/-- A 3D vector of `s16`. -/
structure v3s16 where
  X : Int
  Y : Int
  Z : Int
deriving DecidableEq, Repr

/-- The constructor `v2s16(x, y)` called with `int` arguments. -/
def v2s16.ofInts (x y : Int) : v2s16 := ⟨s16 x, s16 y⟩

/-- The operator `vector2d<s16>::operator+(const vector2d<s16>&)`. -/
def v2s16.add (a b : v2s16) : v2s16 := ⟨s16 (a.X + b.X), s16 (a.Y + b.Y)⟩

/-- The operator `vector2d<s16>::operator-(const vector2d<s16>&)`. -/
def v2s16.sub (a b : v2s16) : v2s16 := ⟨s16 (a.X - b.X), s16 (a.Y - b.Y)⟩

/-- The operator `vector2d<s16>::operator*(const s16 v)`. -/
def v2s16.mul (a : v2s16) (v : Int) : v2s16 := ⟨s16 (a.X * s16 v), s16 (a.Y * s16 v)⟩

/-- The operator `vector3d<s16>::operator+(const vector3d<s16>&)`. -/
def v3s16.add (a b : v3s16) : v3s16 :=
  ⟨s16 (a.X + b.X), s16 (a.Y + b.Y), s16 (a.Z + b.Z)⟩

/-- The operator `vector3d<s16>::operator-(const vector3d<s16>&)`. -/
def v3s16.sub (a b : v3s16) : v3s16 :=
  ⟨s16 (a.X - b.X), s16 (a.Y - b.Y), s16 (a.Z - b.Z)⟩

/-- The operator `vector3d<s16>::operator*(const s16 v)`. -/
def v3s16.mul (a : v3s16) (v : Int) : v3s16 :=
  ⟨s16 (a.X * s16 v), s16 (a.Y * s16 v), s16 (a.Z * s16 v)⟩

/-! ## Declarations the module takes from headers that are not among the sources -/

/-- The build-time constants the module reads (`constants.h`, `mapgen.h`);
their values are not among the sources, so they are parameters. -/
structure Constants where
  MAP_BLOCKSIZE : Int
  WATER_LEVEL : Int
  CAVE_NOISE_SCALE : ℚ
  CAVE_NOISE_THRESHOLD : ℚ

/-- The noise kinds of `noise.h` that the module names. -/
inductive NoiseType where
  | NOISE_PERLIN
  | NOISE_PERLIN_CONTOUR
  | NOISE_PERLIN_CONTOUR_FLIP_YZ
deriving DecidableEq, Repr

/-- Modelled from the spec: `NoiseParams` of `noise.h`, the record
{kind, seed, octaves, persistence, scale, amplitude}, built by the constructor
call `NoiseParams(type, seed, octaves, persistence, pos_scale, noise_scale)`. -/
structure NoiseParams where
  type : NoiseType
  seed : Nat
  octaves : Int
  persistence : ℚ
  pos_scale : ℚ
  noise_scale : ℚ
deriving DecidableEq, Repr

/-- The numeric functions the module calls and does not define:
`noise2d_perlin(x, y, seed, octaves, persistence)` and
`noise3d_param(params, x, y, z)` of `noise.h`, and `pow` of `<cmath>`. -/
structure NoiseEngine where
  noise2d_perlin : ℚ → ℚ → Nat → Int → ℚ → ℚ
  noise3d_param : NoiseParams → ℚ → ℚ → ℚ → ℚ
  pow : ℚ → ℚ → ℚ

/-- Modelled from the spec: the biome tags of `mapgen.h`, one of
{Space, Sky, TheDeep, Ocean, SnowCap, Beach, Lake, WoodLands, Forest, Jungle,
Desert, Plains}. -/
inductive Biome where
  | BIOME_SPACE
  | BIOME_SKY
  | BIOME_THEDEEP
  | BIOME_OCEAN
  | BIOME_SNOWCAP
  | BIOME_BEACH
  | BIOME_LAKE
  | BIOME_WOODLANDS
  | BIOME_FOREST
  | BIOME_JUNGLE
  | BIOME_DESERT
  | BIOME_PLAINS
deriving DecidableEq, Repr

/-- Modelled from the spec: `BlockMakeData` of `mapgen.h`, {seed, blockpos,
biome}. `biome` is the output field of `calc_biome`; it is `none` as long as
no tag has been written. -/
structure BlockMakeData where
  seed : Nat
  blockpos : v3s16
  biome : Option Biome
deriving DecidableEq, Repr

/-! ## Noise parameter catalog -/

/-- Source: `get_cave_noise1_params`. -/
def get_cave_noise1_params (c : Constants) (seed : Nat) : NoiseParams :=
  ⟨.NOISE_PERLIN_CONTOUR, u64 (seed + 52534), 4, 1 / 2, 50, c.CAVE_NOISE_SCALE⟩

/-- Source: `get_cave_noise2_params`. -/
def get_cave_noise2_params (c : Constants) (seed : Nat) : NoiseParams :=
  ⟨.NOISE_PERLIN_CONTOUR_FLIP_YZ, u64 (seed + 10325), 4, 1 / 2, 50, c.CAVE_NOISE_SCALE⟩

/-- Source: `get_ground_noise1_params`. -/
def get_ground_noise1_params (seed : Nat) : NoiseParams :=
  ⟨.NOISE_PERLIN, u64 (seed + 983240), 4, 55 / 100, 80, 40⟩

/-- Source: `get_ground_crumbleness_params`. -/
def get_ground_crumbleness_params (seed : Nat) : NoiseParams :=
  ⟨.NOISE_PERLIN, u64 (seed + 34413), 3, 13 / 10, 20, 1⟩

/-- Source: `get_ground_wetness_params`. -/
def get_ground_wetness_params (seed : Nat) : NoiseParams :=
  ⟨.NOISE_PERLIN, u64 (seed + 32474), 4, 11 / 10, 40, 1⟩

/-! ## Height and moisture fields -/

/-- Source: `get_humidity`. The function computes in `double` and returns a
`float`: the value it returns in the last branch is narrowed. -/
def get_humidity (eng : NoiseEngine) (seed : Nat) (p : v2s16) : ℚ :=
  let noise := eng.noise2d_perlin (roundDouble ((p.X : ℚ) / 500))
    (roundDouble ((p.Y : ℚ) / 500)) (u64 (seed + 72384)) 4 (1 / 2)
  let noise := roundDouble (roundDouble (noise + 1) / 2)
  if noise < 0 then 0
  else if noise > 1 then 1
  else roundFloat noise

/-- Source: `get_ground_height`. -/
def get_ground_height (c : Constants) (eng : NoiseEngine) (seed : Nat) (p : v2s16) : Int :=
  let e := eng.noise2d_perlin (roundDouble ((p.X : ℚ) / 200))
    (roundDouble ((p.Y : ℚ) / 200)) seed 4 (1 / 2)
  let e := if e > 0 then eng.pow e (19 / 10) else e
  toS16 (roundDouble (((c.WATER_LEVEL + 1 : Int) : ℚ) + roundDouble (25 * e)))

/-- Source: `is_cave`. -/
def is_cave (c : Constants) (eng : NoiseEngine) (seed : Nat) (p : v3s16) : Bool :=
  let d1 := eng.noise3d_param (get_cave_noise1_params c seed) p.X p.Y p.Z
  let d2 := eng.noise3d_param (get_cave_noise2_params c seed) p.X p.Y p.Z
  decide (roundDouble (d1 * d2) > c.CAVE_NOISE_THRESHOLD)

/-! ## Density functions -/

/-- Source: `get_tree_density`. -/
def get_tree_density (c : Constants) (eng : NoiseEngine) (data : BlockMakeData) (p : v2s16) :
    Nat :=
  let zeroval : ℚ := roundDouble (-39 / 100)
  let r : Nat := 0
  let noise := eng.noise2d_perlin (roundDouble (1 / 2 + roundFloat ((p.X : ℚ) / 125)))
    (roundDouble (1 / 2 + roundFloat ((p.Y : ℚ) / 125))) (u64 (data.seed + 2)) 4 (66 / 100)
  let r :=
    if noise ≥ zeroval then
      let density := roundDouble (roundDouble (roundDouble (4 / 100)
        * roundDouble (noise - zeroval)) / roundDouble (1 - zeroval))
      toU32 (roundDouble (density * ((c.MAP_BLOCKSIZE * c.MAP_BLOCKSIZE : Int) : ℚ)))
    else r
  if data.biome = some .BIOME_JUNGLE ∨ data.biome = some .BIOME_FOREST then
    if r < 1 then 20 else u32 (r * 5)
  else if data.biome = some .BIOME_LAKE ∨ data.biome = some .BIOME_SNOWCAP
      ∨ data.biome = some .BIOME_WOODLANDS then
    if r < 1 then 5 else r
  else if data.biome = some .BIOME_PLAINS then
    if r ≠ 0 then r / 5 else r
  else r

/-- Source: `get_grass_density`. -/
def get_grass_density (c : Constants) (eng : NoiseEngine) (data : BlockMakeData) (p : v2s16) :
    Nat :=
  let zeroval : ℚ := roundDouble (-39 / 100)
  let r : Nat := 0
  if data.biome = some .BIOME_DESERT ∨ data.biome = some .BIOME_SNOWCAP
      ∨ data.biome = some .BIOME_OCEAN then 0
  else
    let noise := eng.noise2d_perlin (roundDouble (1 / 2 + roundFloat ((p.X : ℚ) / 125)))
      (roundDouble (1 / 2 + roundFloat ((p.Y : ℚ) / 125))) (u64 (data.seed + 2)) 4 (66 / 100)
    let r :=
      if noise ≥ zeroval then
        let density := roundDouble (roundDouble (roundDouble (4 / 100)
          * roundDouble (noise - zeroval)) / roundDouble (1 - zeroval))
        toU32 (roundDouble (density * ((c.MAP_BLOCKSIZE * c.MAP_BLOCKSIZE : Int) : ℚ)))
      else r
    if data.biome = some .BIOME_JUNGLE ∨ data.biome = some .BIOME_PLAINS then
      if r < 1 then 50 else u32 (r * 15)
    else if data.biome = some .BIOME_LAKE ∨ data.biome = some .BIOME_WOODLANDS then
      if r < 1 then 5 else r
    else r

/-- Source: `debris_amount_2d`. The amount is the exact value of the returned
expression (see the conventions). -/
def debris_amount_2d (eng : NoiseEngine) (seed : Nat) (p : v2s16) : ℚ :=
  let noise := eng.noise2d_perlin (roundDouble (1 / 2 + roundFloat ((p.X : ℚ) / 125)))
    (roundDouble (1 / 2 + roundFloat ((p.Y : ℚ) / 125))) (u64 (seed + 2)) 4 (7 / 10)
  let zeroval : ℚ := -41 / 100
  if noise < zeroval then 0
  else 37 / 1000 * (noise - zeroval) / (1 - zeroval)

/-- Source: `largestone_amount_2d`. The amount is the exact value of the
returned expression (see the conventions). -/
def largestone_amount_2d (eng : NoiseEngine) (seed : Nat) (p : v2s16) : ℚ :=
  let noise := eng.noise2d_perlin (roundDouble (1 / 2 + roundFloat ((p.X : ℚ) / 250)))
    (roundDouble (1 / 2 + roundFloat ((p.Y : ℚ) / 250))) (u64 (seed + 14143242)) 5 (66 / 100)
  let zeroval : ℚ := 3 / 10
  if noise < zeroval then 0
  else 5 / 1000 * (noise - zeroval) / (1 - zeroval)

/-- Source: `find_ground_level_from_noise`. -/
def find_ground_level_from_noise (c : Constants) (eng : NoiseEngine) (data : BlockMakeData)
    (p2d : v2s16) (_precision : Int) : Int :=
  get_ground_height c eng data.seed p2d

/-! ## Sector statistics -/

/-- Source: `get_sector_average_ground_level`. The sum of the five `s16`
heights is exact in `double`; the quotient is the exact quotient (see the
conventions). -/
def get_sector_average_ground_level (c : Constants) (eng : NoiseEngine)
    (data : BlockMakeData) (sectorpos : v2s16) : ℚ :=
  let node_min := sectorpos.mul c.MAP_BLOCKSIZE
  let node_max := ((sectorpos.add ⟨1, 1⟩).mul c.MAP_BLOCKSIZE).sub ⟨1, 1⟩
  let a : ℚ := 0
  let a := a + get_ground_height c eng data.seed (v2s16.ofInts node_min.X node_min.Y)
  let a := a + get_ground_height c eng data.seed (v2s16.ofInts node_min.X node_max.Y)
  let a := a + get_ground_height c eng data.seed (v2s16.ofInts node_max.X node_max.Y)
  let a := a + get_ground_height c eng data.seed (v2s16.ofInts node_max.X node_min.Y)
  let a := a + get_ground_height c eng data.seed
    (v2s16.ofInts (node_min.X + c.MAP_BLOCKSIZE.tdiv 2) (node_min.Y + c.MAP_BLOCKSIZE.tdiv 2))
  a / 5

/-- Modelled from the spec: the macro `MYMAX` (its header is not among the
sources), with which the maximum aggregate folds: the greater of two values. -/
def MYMAX (a b : ℚ) : ℚ := max a b

/-- Modelled from the spec: the macro `MYMIN` (its header is not among the
sources), with which the minimum aggregate folds: the lesser of two values. -/
def MYMIN (a b : ℚ) : ℚ := min a b

/-- Source: `get_sector_maximum_ground_level`. -/
def get_sector_maximum_ground_level (c : Constants) (eng : NoiseEngine)
    (data : BlockMakeData) (sectorpos : v2s16) : ℚ :=
  let node_min := sectorpos.mul c.MAP_BLOCKSIZE
  let node_max := ((sectorpos.add ⟨1, 1⟩).mul c.MAP_BLOCKSIZE).sub ⟨1, 1⟩
  let a : ℚ := -31000
  let a := MYMAX a (get_ground_height c eng data.seed (v2s16.ofInts node_min.X node_min.Y))
  let a := MYMAX a (get_ground_height c eng data.seed (v2s16.ofInts node_min.X node_max.Y))
  let a := MYMAX a (get_ground_height c eng data.seed (v2s16.ofInts node_max.X node_max.Y))
  let a := MYMAX a (get_ground_height c eng data.seed (v2s16.ofInts node_min.X node_min.Y))
  let a := MYMAX a (get_ground_height c eng data.seed
    (v2s16.ofInts (node_min.X + c.MAP_BLOCKSIZE.tdiv 2) (node_min.Y + c.MAP_BLOCKSIZE.tdiv 2)))
  let a := MYMAX a (get_ground_height c eng data.seed
    (v2s16.ofInts (node_min.X + c.MAP_BLOCKSIZE.tdiv 2) node_min.Y))
  let a := MYMAX a (get_ground_height c eng data.seed
    (v2s16.ofInts (node_min.X + c.MAP_BLOCKSIZE.tdiv 2) node_max.Y))
  let a := MYMAX a (get_ground_height c eng data.seed
    (v2s16.ofInts node_min.X (node_min.Y + c.MAP_BLOCKSIZE.tdiv 2)))
  let a := MYMAX a (get_ground_height c eng data.seed
    (v2s16.ofInts node_max.X (node_min.Y + c.MAP_BLOCKSIZE.tdiv 2)))
  a

/-- Source: `get_sector_minimum_ground_level`. -/
def get_sector_minimum_ground_level (c : Constants) (eng : NoiseEngine)
    (data : BlockMakeData) (sectorpos : v2s16) : ℚ :=
  let node_min := sectorpos.mul c.MAP_BLOCKSIZE
  let node_max := ((sectorpos.add ⟨1, 1⟩).mul c.MAP_BLOCKSIZE).sub ⟨1, 1⟩
  let a : ℚ := 31000
  let a := MYMIN a (get_ground_height c eng data.seed (v2s16.ofInts node_min.X node_min.Y))
  let a := MYMIN a (get_ground_height c eng data.seed (v2s16.ofInts node_min.X node_max.Y))
  let a := MYMIN a (get_ground_height c eng data.seed (v2s16.ofInts node_max.X node_max.Y))
  let a := MYMIN a (get_ground_height c eng data.seed (v2s16.ofInts node_min.X node_min.Y))
  let a := MYMIN a (get_ground_height c eng data.seed
    (v2s16.ofInts (node_min.X + c.MAP_BLOCKSIZE.tdiv 2) (node_min.Y + c.MAP_BLOCKSIZE.tdiv 2)))
  let a := MYMIN a (get_ground_height c eng data.seed
    (v2s16.ofInts (node_min.X + c.MAP_BLOCKSIZE.tdiv 2) node_min.Y))
  let a := MYMIN a (get_ground_height c eng data.seed
    (v2s16.ofInts (node_min.X + c.MAP_BLOCKSIZE.tdiv 2) node_max.Y))
  let a := MYMIN a (get_ground_height c eng data.seed
    (v2s16.ofInts node_min.X (node_min.Y + c.MAP_BLOCKSIZE.tdiv 2)))
  let a := MYMIN a (get_ground_height c eng data.seed
    (v2s16.ofInts node_max.X (node_min.Y + c.MAP_BLOCKSIZE.tdiv 2)))
  a

/-- Source: `block_is_underground`. The left side of the comparison is `int`
arithmetic on the promoted `s16` component, so it is not narrowed. -/
def block_is_underground (c : Constants) (eng : NoiseEngine) (data : BlockMakeData)
    (blockpos : v3s16) : Bool :=
  let minimum_groundlevel :=
    toS16 (get_sector_minimum_ground_level c eng data ⟨blockpos.X, blockpos.Z⟩)
  if blockpos.Y * c.MAP_BLOCKSIZE + c.MAP_BLOCKSIZE ≤ minimum_groundlevel then true
  else false

/-- Source: `get_have_sand`. -/
def get_have_sand (eng : NoiseEngine) (seed : Nat) (p2d : v2s16) : Bool :=
  let sandnoise := eng.noise2d_perlin (roundDouble (1 / 2 + roundFloat ((p2d.X : ℚ) / 500)))
    (roundDouble (1 / 2 + roundFloat ((p2d.Y : ℚ) / 500))) (u64 (seed + 59420)) 3 (1 / 2)
  decide (sandnoise > roundDouble (-15 / 100))

/-! ## Biome classifier -/

/-- Source: `calc_biome`. The returned record is `*data` after the call. -/
def calc_biome (c : Constants) (eng : NoiseEngine) (data : BlockMakeData) : BlockMakeData :=
  let node_min := data.blockpos.mul c.MAP_BLOCKSIZE
  let node_max := ((data.blockpos.add ⟨1, 1, 1⟩).mul c.MAP_BLOCKSIZE).sub ⟨1, 1, 1⟩
  let p2d_center := v2s16.ofInts (node_min.X + c.MAP_BLOCKSIZE.tdiv 2)
    (node_min.Z + c.MAP_BLOCKSIZE.tdiv 2)
  let p2d : v2s16 := ⟨data.blockpos.X, data.blockpos.Z⟩
  if node_min.Y ≥ 1024 then { data with biome := some .BIOME_SPACE }
  else if node_min.Y ≥ 256 then { data with biome := some .BIOME_SKY }
  else if node_max.Y ≤ -128 then { data with biome := some .BIOME_THEDEEP }
  else
    let average_ground_height := toS16 (get_sector_average_ground_level c eng data p2d)
    if average_ground_height ≤ -10 then { data with biome := some .BIOME_OCEAN }
    else if average_ground_height ≥ 40 then { data with biome := some .BIOME_SNOWCAP }
    else
      let surface_humidity := get_humidity eng data.seed p2d_center
      if average_ground_height ≤ 2 then
        if surface_humidity < 1 / 2 then { data with biome := some .BIOME_BEACH }
        else { data with biome := some .BIOME_LAKE }
      else if average_ground_height > 30 then
        if surface_humidity < 1 / 4 then { data with biome := some .BIOME_WOODLANDS }
        else if surface_humidity < 1 / 2 then { data with biome := some .BIOME_FOREST }
        else { data with biome := some .BIOME_JUNGLE }
      else if average_ground_height > 10 then
        if surface_humidity < 1 / 4 then { data with biome := some .BIOME_DESERT }
        else if surface_humidity < 1 / 2 then { data with biome := some .BIOME_WOODLANDS }
        else if surface_humidity < 3 / 4 then { data with biome := some .BIOME_FOREST }
        else { data with biome := some .BIOME_JUNGLE }
      else if surface_humidity < 1 / 4 then { data with biome := some .BIOME_PLAINS }
      else if surface_humidity < 3 / 4 then { data with biome := some .BIOME_WOODLANDS }
      else { data with biome := some .BIOME_FOREST }

/-! ## Sample environments

Concrete constants and engines on which the statements below are evaluated. -/

/-- Constants with `MAP_BLOCKSIZE = 16`, the block edge the engine is built
with, and water level 0. -/
def sampleConstants : Constants := ⟨16, 0, 12, 1 / 8⟩

/-- Values of `pow(e, 1.9)` rounded to three decimals at the ten sample points
the engines below return; other entries are not used. -/
def samplePow (e _x : ℚ) : ℚ :=
  if e = 1 / 5 then 47 / 1000
  else if e = 3 / 10 then 102 / 1000
  else if e = 1 / 2 then 268 / 1000
  else if e = 3 / 5 then 379 / 1000
  else if e = 63 / 100 then 416 / 1000
  else if e = 4 / 5 then 654 / 1000
  else if e = 109 / 100 then 1178 / 1000
  else if e = 111 / 100 then 1219 / 1000
  else if e = 118 / 100 then 1370 / 1000
  else if e = 127 / 100 then 1575 / 1000
  else e

/-- An engine for world seed 42: the ground-height layer (seed 42) returns
`eCentre` at the sample point of the centre column `(8, 8)` of sector
`(0, 0)`, which is the `double` nearest to `1/25` in both coordinates, and
`eCorner` elsewhere; every other layer returns `n`. -/
def sampleEngine (eCorner eCentre n : ℚ) : NoiseEngine where
  noise2d_perlin := fun x y seed _ _ =>
    if seed = 42 then
      (if x = roundDouble (1 / 25) ∧ y = roundDouble (1 / 25) then eCentre else eCorner)
    else n
  noise3d_param := fun _ _ _ _ => n
  pow := samplePow

/-- The block context for world seed 42 at block position `(0, y, 0)`, with no
biome written yet. -/
def sampleData (y : Int) : BlockMakeData := ⟨42, ⟨0, y, 0⟩, none⟩

/-- The ground height the sample environment gives a column whose noise value
is `e`. -/
def sampleHeight (e : ℚ) : Int :=
  toS16 (roundDouble (1 + roundDouble (25 * (if e > 0 then samplePow e (19 / 10) else e))))

/-- What `get_humidity` makes of the raw noise value `n`: `(n+1)/2` in
`double`, clamped, and narrowed to `float`. -/
def humidity_of_noise (n : ℚ) : ℚ :=
  if roundDouble (roundDouble (n + 1) / 2) < 0 then 0
  else if roundDouble (roundDouble (n + 1) / 2) > 1 then 1
  else roundFloat (roundDouble (roundDouble (n + 1) / 2))

/-! ## The decision rule of `calc_biome` on its four inputs -/

/-- The twelve biome tags. -/
def allBiomes : List Biome :=
  [.BIOME_SPACE, .BIOME_SKY, .BIOME_THEDEEP, .BIOME_OCEAN, .BIOME_SNOWCAP, .BIOME_BEACH,
   .BIOME_LAKE, .BIOME_WOODLANDS, .BIOME_FOREST, .BIOME_JUNGLE, .BIOME_DESERT, .BIOME_PLAINS]

/-- The tag `calc_biome` writes, read off its branches, as a function of the
four values the branches test: `node_min.Y`, `node_max.Y`, the `int16_t`
variable `average_ground_height` and `surface_humidity`. It is shown equal to
what `calc_biome` writes in `calc_biome_eq`. -/
def biome_rule (ymin ymax T : Int) (H : ℚ) : Biome :=
  if ymin ≥ 1024 then .BIOME_SPACE
  else if ymin ≥ 256 then .BIOME_SKY
  else if ymax ≤ -128 then .BIOME_THEDEEP
  else if T ≤ -10 then .BIOME_OCEAN
  else if T ≥ 40 then .BIOME_SNOWCAP
  else if T ≤ 2 then (if H < 1 / 2 then .BIOME_BEACH else .BIOME_LAKE)
  else if T > 30 then
    (if H < 1 / 4 then .BIOME_WOODLANDS else if H < 1 / 2 then .BIOME_FOREST
      else .BIOME_JUNGLE)
  else if T > 10 then
    (if H < 1 / 4 then .BIOME_DESERT else if H < 1 / 2 then .BIOME_WOODLANDS
      else if H < 3 / 4 then .BIOME_FOREST else .BIOME_JUNGLE)
  else if H < 1 / 4 then .BIOME_PLAINS
  else if H < 3 / 4 then .BIOME_WOODLANDS
  else .BIOME_FOREST

/-- The column `p2d_center` of `calc_biome`: the centre column of the block's
sector, `(node_min.X + MAP_BLOCKSIZE/2, node_min.Z + MAP_BLOCKSIZE/2)`. -/
def centre_column (c : Constants) (blockpos : v3s16) : v2s16 :=
  v2s16.ofInts ((blockpos.mul c.MAP_BLOCKSIZE).X + c.MAP_BLOCKSIZE.tdiv 2)
    ((blockpos.mul c.MAP_BLOCKSIZE).Z + c.MAP_BLOCKSIZE.tdiv 2)

/-- The value `node_min.Y` of `calc_biome`: the lowest node Y of the block. -/
def node_min_y (c : Constants) (blockpos : v3s16) : Int :=
  (blockpos.mul c.MAP_BLOCKSIZE).Y

/-- The value `node_max.Y` of `calc_biome`: the highest node Y of the block. -/
def node_max_y (c : Constants) (blockpos : v3s16) : Int :=
  (((blockpos.add ⟨1, 1, 1⟩).mul c.MAP_BLOCKSIZE).sub ⟨1, 1, 1⟩).Y

/-- The sector-average ground height `calc_biome` asks for: that of sector
`(blockpos.X, blockpos.Z)`, before its conversion to `int16_t`. -/
def sector_average (c : Constants) (eng : NoiseEngine) (data : BlockMakeData) : ℚ :=
  get_sector_average_ground_level c eng data ⟨data.blockpos.X, data.blockpos.Z⟩

/-- The humidity `calc_biome` asks for: that of the sector's centre column. -/
def centre_humidity (c : Constants) (eng : NoiseEngine) (data : BlockMakeData) : ℚ :=
  get_humidity eng data.seed (centre_column c data.blockpos)

/-! ## Stencils and rules for the sector statistics and the density functions -/

/-- The five columns the specification's average is taken over: the four
corners `(min.X,min.Y)`, `(min.X,max.Y)`, `(max.X,max.Y)`, `(max.X,min.Y)` of
the sector's node box and its centre, with `node_min = s*MAP_BLOCKSIZE` and
`node_max = node_min + MAP_BLOCKSIZE - 1`. -/
def five_point_stencil (c : Constants) (s : v2s16) : List v2s16 :=
  let node_min := s.mul c.MAP_BLOCKSIZE
  let node_max := v2s16.ofInts (node_min.X + c.MAP_BLOCKSIZE - 1)
    (node_min.Y + c.MAP_BLOCKSIZE - 1)
  [⟨node_min.X, node_min.Y⟩, ⟨node_min.X, node_max.Y⟩, ⟨node_max.X, node_max.Y⟩,
   ⟨node_max.X, node_min.Y⟩,
   v2s16.ofInts (node_min.X + c.MAP_BLOCKSIZE.tdiv 2) (node_min.Y + c.MAP_BLOCKSIZE.tdiv 2)]

/-- The nine columns of the specification's full stencil: the five of
`five_point_stencil` and the four edge midpoints of the sector's node box. -/
def nine_point_stencil (c : Constants) (s : v2s16) : List v2s16 :=
  let node_min := s.mul c.MAP_BLOCKSIZE
  let node_max := v2s16.ofInts (node_min.X + c.MAP_BLOCKSIZE - 1)
    (node_min.Y + c.MAP_BLOCKSIZE - 1)
  five_point_stencil c s ++
  [v2s16.ofInts (node_min.X + c.MAP_BLOCKSIZE.tdiv 2) node_min.Y,
   v2s16.ofInts (node_min.X + c.MAP_BLOCKSIZE.tdiv 2) node_max.Y,
   v2s16.ofInts node_min.X (node_min.Y + c.MAP_BLOCKSIZE.tdiv 2),
   v2s16.ofInts node_max.X (node_min.Y + c.MAP_BLOCKSIZE.tdiv 2)]

/-- An engine whose 2D noise is `eAt` at the sample point nearest to
`(px, py)` (both coordinates rounded to `double`) and `eElse` at every other
sample point, for every layer. -/
def pointEngine (px py eAt eElse : ℚ) : NoiseEngine where
  noise2d_perlin := fun x y _ _ _ =>
    if x = roundDouble px ∧ y = roundDouble py then eAt else eElse
  noise3d_param := fun _ _ _ _ => 0
  pow := samplePow

/-- An engine whose 3D noise is `d1` for the contour kind (cave-noise-1) and
`d2` for every other kind. -/
def caveEngine (d1 d2 : ℚ) : NoiseEngine where
  noise2d_perlin := fun _ _ _ _ _ => 0
  noise3d_param := fun params _ _ _ =>
    if params.type = .NOISE_PERLIN_CONTOUR then d1 else d2
  pow := samplePow

/-- The base count `r` that `get_tree_density` and `get_grass_density` derive
from their raw noise value before the biome rules, in the `double` arithmetic
of the two functions. -/
def base_count (c : Constants) (noise : ℚ) : Nat :=
  if noise ≥ roundDouble (-39 / 100) then
    toU32 (roundDouble (roundDouble (roundDouble (roundDouble (4 / 100)
        * roundDouble (noise - roundDouble (-39 / 100)))
      / roundDouble (1 - roundDouble (-39 / 100)))
      * ((c.MAP_BLOCKSIZE * c.MAP_BLOCKSIZE : Int) : ℚ)))
  else 0

/-- What `get_tree_density` returns, read off its branches, as a function of
the biome and of the raw noise value. -/
def tree_rule (c : Constants) (biome : Option Biome) (noise : ℚ) : Nat :=
  if biome = some .BIOME_JUNGLE ∨ biome = some .BIOME_FOREST then
    if base_count c noise < 1 then 20 else u32 (base_count c noise * 5)
  else if biome = some .BIOME_LAKE ∨ biome = some .BIOME_SNOWCAP
      ∨ biome = some .BIOME_WOODLANDS then
    if base_count c noise < 1 then 5 else base_count c noise
  else if biome = some .BIOME_PLAINS then
    if base_count c noise ≠ 0 then base_count c noise / 5 else base_count c noise
  else base_count c noise

/-- What `get_grass_density` returns, read off its branches, as a function of
the biome and of the raw noise value. -/
def grass_rule (c : Constants) (biome : Option Biome) (noise : ℚ) : Nat :=
  if biome = some .BIOME_DESERT ∨ biome = some .BIOME_SNOWCAP
      ∨ biome = some .BIOME_OCEAN then 0
  else if biome = some .BIOME_JUNGLE ∨ biome = some .BIOME_PLAINS then
    if base_count c noise < 1 then 50 else u32 (base_count c noise * 15)
  else if biome = some .BIOME_LAKE ∨ biome = some .BIOME_WOODLANDS then
    if base_count c noise < 1 then 5 else base_count c noise
  else base_count c noise

/-- What `debris_amount_2d` returns as a function of the raw noise value. -/
def debris_rule (noise : ℚ) : ℚ :=
  if noise < -41 / 100 then 0 else 37 / 1000 * (noise - -41 / 100) / (1 - -41 / 100)

/-- What `largestone_amount_2d` returns as a function of the raw noise value. -/
def largestone_rule (noise : ℚ) : ℚ :=
  if noise < 3 / 10 then 0 else 5 / 1000 * (noise - 3 / 10) / (1 - 3 / 10)

/-- What `get_have_sand` returns as a function of the raw noise value. -/
def sand_rule (noise : ℚ) : Bool := decide (noise > roundDouble (-15 / 100))

/-- An engine whose 2D noise value is the first coordinate of the sample
point, for every layer. -/
def coordEngine : NoiseEngine where
  noise2d_perlin := fun x _ _ _ _ => x
  noise3d_param := fun _ _ _ _ => 0
  pow := samplePow

/-! ## The noise layers and their seeds -/

/-- The noise layers of the module: the five catalog entries and the six
fields that call `noise2d_perlin` inline (tree and grass density share the
vegetation call). -/
inductive NoiseLayer where
  | cave_noise1
  | cave_noise2
  | ground_noise1
  | ground_crumbleness
  | ground_wetness
  | humidity
  | ground_height
  | sand
  | vegetation
  | debris
  | largestone
deriving DecidableEq, Repr

/-- The seed each layer hands to the noise engine for world seed `s`, read off
the calls; `effective_seed_spec` ties every entry to its function. -/
def effective_seed (s : Nat) : NoiseLayer → Nat
  | .cave_noise1 => u64 (s + 52534)
  | .cave_noise2 => u64 (s + 10325)
  | .ground_noise1 => u64 (s + 983240)
  | .ground_crumbleness => u64 (s + 34413)
  | .ground_wetness => u64 (s + 32474)
  | .humidity => u64 (s + 72384)
  | .ground_height => s
  | .sand => u64 (s + 59420)
  | .vegetation => u64 (s + 2)
  | .debris => u64 (s + 2)
  | .largestone => u64 (s + 14143242)

end mapgen

/-! # Map blocks (`src/mapblock.h`)

The node accessors and the modification state of `class MapBlock`. `MapNode`
and `CONTENT_IGNORE` are declared in `mapnode.h`, which is not among the
sources: the node type is a parameter `Node`, and the node
`MapNode(CONTENT_IGNORE)` is passed to the accessors as `content_ignore`. -/

namespace mapblock

/-- The exception the checked accessors throw (`exceptions.h`). -/
inductive Exception where
  | InvalidPositionException
deriving DecidableEq, Repr

/-- Source: `enum ModifiedState`, `MOD_STATE_CLEAN`. -/
def MOD_STATE_CLEAN : Nat := 0

/-- Source: `enum ModifiedState`, `MOD_RESERVED1`. -/
def MOD_RESERVED1 : Nat := 1

/-- Source: `enum ModifiedState`, `MOD_STATE_WRITE_AT_UNLOAD`. -/
def MOD_STATE_WRITE_AT_UNLOAD : Nat := 2

/-- Source: `enum ModifiedState`, `MOD_RESERVED3`. -/
def MOD_RESERVED3 : Nat := 3

/-- Source: `enum ModifiedState`, `MOD_STATE_WRITE_NEEDED`. -/
def MOD_STATE_WRITE_NEEDED : Nat := 4

/-- Source: `enum ModifiedState`, `MOD_RESERVED5`. -/
def MOD_RESERVED5 : Nat := 5

/-- Modelled from the spec: the macro `MYMAX` (its header is not among the
sources) on `u32` operands: the greater of two values. -/
def MYMAX (a b : Nat) : Nat := max a b

/-- The members of `class MapBlock` that the accessors and the modification
state read or write. `data` is `none` for a dummy block (`data == NULL`) and
otherwise the node array, as a map from index to node. -/
structure MapBlock (Node : Type) where
  data : Option (Int → Node)
  m_modified : Nat
  is_underground : Bool
  m_lighting_expired : Bool
  m_generated : Bool
  m_timestamp : Nat

/-- Source: `MapBlock::isDummy`. -/
def MapBlock.isDummy {Node : Type} (b : MapBlock Node) : Bool := b.data.isNone

/-- Source: `MapBlock::raiseModified`. -/
def MapBlock.raiseModified {Node : Type} (b : MapBlock Node) (mod : Nat) : MapBlock Node :=
  { b with m_modified := MYMAX b.m_modified mod }

/-- Source: `MapBlock::getModified`. -/
def MapBlock.getModified {Node : Type} (b : MapBlock Node) : Nat := b.m_modified

/-- Source: `MapBlock::resetModified`. -/
def MapBlock.resetModified {Node : Type} (b : MapBlock Node) : MapBlock Node :=
  { b with m_modified := MOD_STATE_CLEAN }

/-- Source: `MapBlock::setChangedFlag`. -/
def MapBlock.setChangedFlag {Node : Type} (b : MapBlock Node) : MapBlock Node :=
  b.raiseModified MOD_STATE_WRITE_NEEDED

/-- Source: `MapBlock::resetChangedFlag`. -/
def MapBlock.resetChangedFlag {Node : Type} (b : MapBlock Node) : MapBlock Node :=
  b.resetModified

/-- Source: `MapBlock::getChangedFlag`. -/
def MapBlock.getChangedFlag {Node : Type} (b : MapBlock Node) : Bool :=
  if b.getModified = MOD_STATE_CLEAN then false else true

/-- Source: `MapBlock::setIsUnderground`. -/
def MapBlock.setIsUnderground {Node : Type} (b : MapBlock Node) (a_is_underground : Bool) :
    MapBlock Node :=
  ({ b with is_underground := a_is_underground }).raiseModified MOD_STATE_WRITE_NEEDED

/-- Source: `MapBlock::setLightingExpired`. -/
def MapBlock.setLightingExpired {Node : Type} (b : MapBlock Node) (expired : Bool) :
    MapBlock Node :=
  if expired ≠ b.m_lighting_expired then
    ({ b with m_lighting_expired := expired }).raiseModified MOD_STATE_WRITE_NEEDED
  else b

/-- Source: `MapBlock::setGenerated`. -/
def MapBlock.setGenerated {Node : Type} (b : MapBlock Node) (v : Bool) : MapBlock Node :=
  if v ≠ b.m_generated then
    { b.raiseModified MOD_STATE_WRITE_NEEDED with m_generated := v }
  else b

/-- Source: `MapBlock::setTimestamp`. -/
def MapBlock.setTimestamp {Node : Type} (b : MapBlock Node) (time : Nat) : MapBlock Node :=
  ({ b with m_timestamp := time }).raiseModified MOD_STATE_WRITE_AT_UNLOAD

/-- Source: `MapBlock::setTimestampNoChangedFlag`. -/
def MapBlock.setTimestampNoChangedFlag {Node : Type} (b : MapBlock Node) (time : Nat) :
    MapBlock Node :=
  { b with m_timestamp := time }

/-- Source: `MapBlock::isValidPosition`. -/
def MapBlock.isValidPosition {Node : Type} (c : mapgen.Constants) (b : MapBlock Node)
    (x y z : Int) : Bool :=
  if b.data.isNone then false
  else
    decide (x ≥ 0) && decide (x < c.MAP_BLOCKSIZE)
      && decide (y ≥ 0) && decide (y < c.MAP_BLOCKSIZE)
      && decide (z ≥ 0) && decide (z < c.MAP_BLOCKSIZE)

/-- The array index `z*MAP_BLOCKSIZE*MAP_BLOCKSIZE + y*MAP_BLOCKSIZE + x` of the
accessors (`int` arithmetic). -/
def node_index (c : mapgen.Constants) (x y z : Int) : Int :=
  z * c.MAP_BLOCKSIZE * c.MAP_BLOCKSIZE + y * c.MAP_BLOCKSIZE + x

/-- The read `data[i]`. The accessors reach it only when `data` is not NULL;
for a NULL `data` (undefined in C++) the model gives `dflt`. -/
def MapBlock.dataRead {Node : Type} (b : MapBlock Node) (dflt : Node) (i : Int) : Node :=
  match b.data with
  | some d => d i
  | none => dflt

/-- The write `data[i] = n`; nothing is written when `data` is NULL. -/
def MapBlock.dataWrite {Node : Type} (b : MapBlock Node) (i : Int) (n : Node) :
    MapBlock Node :=
  { b with data := b.data.map (fun d j => if j = i then n else d j) }

/-- Source: `MapBlock::getNode(s16 x, s16 y, s16 z, bool *valid_position)`; the
second component is `*valid_position` after the call. -/
def MapBlock.getNode {Node : Type} (c : mapgen.Constants) (content_ignore : Node)
    (b : MapBlock Node) (x y z : Int) : Node × Bool :=
  let valid_position := b.isValidPosition c x y z
  if !valid_position then (content_ignore, valid_position)
  else (b.dataRead content_ignore (node_index c x y z), valid_position)

/-- Source: `MapBlock::getNode(v3s16 p, bool *valid_position)`. -/
def MapBlock.getNode_v3s16 {Node : Type} (c : mapgen.Constants) (content_ignore : Node)
    (b : MapBlock Node) (p : mapgen.v3s16) : Node × Bool :=
  b.getNode c content_ignore p.X p.Y p.Z

/-- Source: `MapBlock::getNodeNoEx`. -/
def MapBlock.getNodeNoEx {Node : Type} (c : mapgen.Constants) (content_ignore : Node)
    (b : MapBlock Node) (p : mapgen.v3s16) : Node :=
  let r := b.getNode c content_ignore p.X p.Y p.Z
  let node := r.1
  let is_valid := r.2
  if !is_valid then content_ignore else node

/-- Source: `MapBlock::setNode(s16 x, s16 y, s16 z, MapNode & n)`; the first
component tells whether the call returned or threw, the second is the block
after the call. -/
def MapBlock.setNode {Node : Type} (c : mapgen.Constants) (b : MapBlock Node)
    (x y z : Int) (n : Node) : Except Exception Unit × MapBlock Node :=
  if !b.isValidPosition c x y z then (.error .InvalidPositionException, b)
  else (.ok (), (b.dataWrite (node_index c x y z) n).raiseModified MOD_STATE_WRITE_NEEDED)

/-- Source: `MapBlock::setNode(v3s16 p, MapNode & n)`. -/
def MapBlock.setNode_v3s16 {Node : Type} (c : mapgen.Constants) (b : MapBlock Node)
    (p : mapgen.v3s16) (n : Node) : Except Exception Unit × MapBlock Node :=
  b.setNode c p.X p.Y p.Z n

/-- Source: `MapBlock::setNodeNoCheck(s16 x, s16 y, s16 z, MapNode & n)`. -/
def MapBlock.setNodeNoCheck {Node : Type} (c : mapgen.Constants) (b : MapBlock Node)
    (x y z : Int) (n : Node) : Except Exception Unit × MapBlock Node :=
  if b.data.isNone then (.error .InvalidPositionException, b)
  else (.ok (), (b.dataWrite (node_index c x y z) n).raiseModified MOD_STATE_WRITE_NEEDED)

/-- A block of 16-node edge length whose node at index `i` is the number `i`,
in modification state `m`. -/
def sampleBlock (m : Nat) : MapBlock Int :=
  { data := some (fun i => i), m_modified := m, is_underground := false,
    m_lighting_expired := false, m_generated := true, m_timestamp := 0 }

/-- A dummy block (no node array) in modification state `m`. -/
def dummyBlock (m : Nat) : MapBlock Int :=
  { data := none, m_modified := m, is_underground := false,
    m_lighting_expired := false, m_generated := false, m_timestamp := 0 }

end mapblock

/-! # Colour strings (`src/tile.cpp`)

The colour-string parsers. A `std::string` is a list of characters, a
`video::SColor` is its `u32` value (alpha, red, green, blue from the top byte
down); the message `parseColorString` writes to the error stream is not
modelled. -/

namespace tile

/-- The string helpers the parsers call and that are not among the sources:
`lowercase(s)` and `hex_digit_decode(c, d)` (`none` when it returns false,
otherwise the digit it stores in `d`). -/
structure StringLib where
  lowercase : List Char → List Char
  hex_digit_decode : Char → Option Nat

/-- The call `value.find(c)` of `std::string`: the position of the first `c`,
`none` for `npos`. -/
def find (c : Char) : List Char → Option Nat
  | [] => none
  | x :: xs => if x = c then some 0 else (find c xs).map (fun k => k + 1)

/-- The setter `SColor::setAlpha`. -/
def setAlpha (color a : Nat) : Nat := ((a &&& 0xff) <<< 24) ||| (color &&& 0x00ffffff)

/-- The setter `SColor::setRed`. -/
def setRed (color r : Nat) : Nat := ((r &&& 0xff) <<< 16) ||| (color &&& 0xff00ffff)

/-- The setter `SColor::setGreen`. -/
def setGreen (color g : Nat) : Nat := ((g &&& 0xff) <<< 8) ||| (color &&& 0xffff00ff)

/-- The setter `SColor::setBlue`. -/
def setBlue (color b : Nat) : Nat := (b &&& 0xff) ||| (color &&& 0xffffff00)

/-- The loop of `parseHexColorString` in its short form (`#RGB`, `#RGBA`) over
the characters after the `#`: one component per digit, `none` as soon as a
digit fails to decode. -/
def shortComponents (lib : StringLib) : List Char → Option (List Nat)
  | [] => some []
  | ch :: rest =>
    match lib.hex_digit_decode ch with
    | none => none
    | some d =>
      match shortComponents lib rest with
      | none => none
      | some l => some ((((d &&& 0xf) <<< 4) ||| (d &&& 0xf)) :: l)

/-- The loop of `parseHexColorString` in its long form (`#RRGGBB`,
`#RRGGBBAA`) over the characters after the `#`: one component per pair of
digits, `none` as soon as a digit fails to decode. -/
def longComponents (lib : StringLib) : List Char → Option (List Nat)
  | [] => some []
  | [_] => none
  | c1 :: c2 :: rest =>
    match lib.hex_digit_decode c1, lib.hex_digit_decode c2 with
    | some d1, some d2 =>
      match longComponents lib rest with
      | none => none
      | some l => some ((((d1 &&& 0xf) <<< 4) ||| (d2 &&& 0xf)) :: l)
    | _, _ => none

/-- Source: `parseHexColorString`; the second component is `color` after the
call. -/
def parseHexColorString (lib : StringLib) (value : List Char) (color : Nat) : Bool × Nat :=
  if value.headD (Char.ofNat 0) ≠ '#' then (false, color)
  else
    let len := value.length
    let decoded : Option (Option (List Nat)) :=
      if len = 9 ∨ len = 7 then some (longComponents lib (value.drop 1))
      else if len = 5 ∨ len = 4 then some (shortComponents lib (value.drop 1))
      else none
    match decoded with
    | none => (false, color)
    | some none => (false, color)
    | some (some l) =>
      let components := l ++ ([0x00, 0x00, 0x00, 0xff] : List Nat).drop l.length
      (true, setAlpha (setBlue (setGreen (setRed color (components.getD 0 0))
        (components.getD 1 0)) (components.getD 2 0)) (components.getD 3 0))

/-- Source: `ColorContainer::ColorContainer`, the table `named_colors`. -/
def named_colors : List (List Char × Nat) :=
  [
   ("aliceblue".toList, 0xf0f8ff),
   ("antiquewhite".toList, 0xfaebd7),
   ("aqua".toList, 0x00ffff),
   ("aquamarine".toList, 0x7fffd4),
   ("azure".toList, 0xf0ffff),
   ("beige".toList, 0xf5f5dc),
   ("bisque".toList, 0xffe4c4),
   ("black".toList, 0x000000),
   ("blanchedalmond".toList, 0xffebcd),
   ("blue".toList, 0x0000ff),
   ("blueviolet".toList, 0x8a2be2),
   ("brown".toList, 0xa52a2a),
   ("burlywood".toList, 0xdeb887),
   ("cadetblue".toList, 0x5f9ea0),
   ("chartreuse".toList, 0x7fff00),
   ("chocolate".toList, 0xd2691e),
   ("coral".toList, 0xff7f50),
   ("cornflowerblue".toList, 0x6495ed),
   ("cornsilk".toList, 0xfff8dc),
   ("crimson".toList, 0xdc143c),
   ("cyan".toList, 0x00ffff),
   ("darkblue".toList, 0x00008b),
   ("darkcyan".toList, 0x008b8b),
   ("darkgoldenrod".toList, 0xb8860b),
   ("darkgray".toList, 0xa9a9a9),
   ("darkgreen".toList, 0x006400),
   ("darkkhaki".toList, 0xbdb76b),
   ("darkmagenta".toList, 0x8b008b),
   ("darkolivegreen".toList, 0x556b2f),
   ("darkorange".toList, 0xff8c00),
   ("darkorchid".toList, 0x9932cc),
   ("darkred".toList, 0x8b0000),
   ("darksalmon".toList, 0xe9967a),
   ("darkseagreen".toList, 0x8fbc8f),
   ("darkslateblue".toList, 0x483d8b),
   ("darkslategray".toList, 0x2f4f4f),
   ("darkturquoise".toList, 0x00ced1),
   ("darkviolet".toList, 0x9400d3),
   ("deeppink".toList, 0xff1493),
   ("deepskyblue".toList, 0x00bfff),
   ("dimgray".toList, 0x696969),
   ("dodgerblue".toList, 0x1e90ff),
   ("firebrick".toList, 0xb22222),
   ("floralwhite".toList, 0xfffaf0),
   ("forestgreen".toList, 0x228b22),
   ("fuchsia".toList, 0xff00ff),
   ("gainsboro".toList, 0xdcdcdc),
   ("ghostwhite".toList, 0xf8f8ff),
   ("gold".toList, 0xffd700),
   ("goldenrod".toList, 0xdaa520),
   ("gray".toList, 0x808080),
   ("green".toList, 0x008000),
   ("greenyellow".toList, 0xadff2f),
   ("honeydew".toList, 0xf0fff0),
   ("hotpink".toList, 0xff69b4),
   ("indianred ".toList, 0xcd5c5c),
   ("indigo ".toList, 0x4b0082),
   ("ivory".toList, 0xfffff0),
   ("khaki".toList, 0xf0e68c),
   ("lavender".toList, 0xe6e6fa),
   ("lavenderblush".toList, 0xfff0f5),
   ("lawngreen".toList, 0x7cfc00),
   ("lemonchiffon".toList, 0xfffacd),
   ("lightblue".toList, 0xadd8e6),
   ("lightcoral".toList, 0xf08080),
   ("lightcyan".toList, 0xe0ffff),
   ("lightgoldenrodyellow".toList, 0xfafad2),
   ("lightgray".toList, 0xd3d3d3),
   ("lightgreen".toList, 0x90ee90),
   ("lightpink".toList, 0xffb6c1),
   ("lightsalmon".toList, 0xffa07a),
   ("lightseagreen".toList, 0x20b2aa),
   ("lightskyblue".toList, 0x87cefa),
   ("lightslategray".toList, 0x778899),
   ("lightsteelblue".toList, 0xb0c4de),
   ("lightyellow".toList, 0xffffe0),
   ("lime".toList, 0x00ff00),
   ("limegreen".toList, 0x32cd32),
   ("linen".toList, 0xfaf0e6),
   ("magenta".toList, 0xff00ff),
   ("maroon".toList, 0x800000),
   ("mediumaquamarine".toList, 0x66cdaa),
   ("mediumblue".toList, 0x0000cd),
   ("mediumorchid".toList, 0xba55d3),
   ("mediumpurple".toList, 0x9370db),
   ("mediumseagreen".toList, 0x3cb371),
   ("mediumslateblue".toList, 0x7b68ee),
   ("mediumspringgreen".toList, 0x00fa9a),
   ("mediumturquoise".toList, 0x48d1cc),
   ("mediumvioletred".toList, 0xc71585),
   ("midnightblue".toList, 0x191970),
   ("mintcream".toList, 0xf5fffa),
   ("mistyrose".toList, 0xffe4e1),
   ("moccasin".toList, 0xffe4b5),
   ("navajowhite".toList, 0xffdead),
   ("navy".toList, 0x000080),
   ("oldlace".toList, 0xfdf5e6),
   ("olive".toList, 0x808000),
   ("olivedrab".toList, 0x6b8e23),
   ("orange".toList, 0xffa500),
   ("orangered".toList, 0xff4500),
   ("orchid".toList, 0xda70d6),
   ("palegoldenrod".toList, 0xeee8aa),
   ("palegreen".toList, 0x98fb98),
   ("paleturquoise".toList, 0xafeeee),
   ("palevioletred".toList, 0xdb7093),
   ("papayawhip".toList, 0xffefd5),
   ("peachpuff".toList, 0xffdab9),
   ("peru".toList, 0xcd853f),
   ("pink".toList, 0xffc0cb),
   ("plum".toList, 0xdda0dd),
   ("powderblue".toList, 0xb0e0e6),
   ("purple".toList, 0x800080),
   ("red".toList, 0xff0000),
   ("rosybrown".toList, 0xbc8f8f),
   ("royalblue".toList, 0x4169e1),
   ("saddlebrown".toList, 0x8b4513),
   ("salmon".toList, 0xfa8072),
   ("sandybrown".toList, 0xf4a460),
   ("seagreen".toList, 0x2e8b57),
   ("seashell".toList, 0xfff5ee),
   ("sienna".toList, 0xa0522d),
   ("silver".toList, 0xc0c0c0),
   ("skyblue".toList, 0x87ceeb),
   ("slateblue".toList, 0x6a5acd),
   ("slategray".toList, 0x708090),
   ("snow".toList, 0xfffafa),
   ("springgreen".toList, 0x00ff7f),
   ("steelblue".toList, 0x4682b4),
   ("tan".toList, 0xd2b48c),
   ("teal".toList, 0x008080),
   ("thistle".toList, 0xd8bfd8),
   ("tomato".toList, 0xff6347),
   ("turquoise".toList, 0x40e0d0),
   ("violet".toList, 0xee82ee),
   ("wheat".toList, 0xf5deb3),
   ("white".toList, 0xffffff),
   ("whitesmoke".toList, 0xf5f5f5),
   ("yellow".toList, 0xffff00),
   ("yellowgreen".toList, 0x9acd32)
  ]

/-- Source: `parseNamedColorString`; the second component is `color` after the
call. The name cut off before the `#` (`_color_name`) is overwritten by
`color_name = lowercase(value)` before it is read. -/
def parseNamedColorString (lib : StringLib) (value : List Char) (color : Nat) : Bool × Nat :=
  let alpha_pos := find '#' value
  let _color_name : List Char :=
    match alpha_pos with
    | some k => value.take k
    | none => value
  let alpha_string : List Char :=
    match alpha_pos with
    | some k => value.drop (k + 1)
    | none => []
  let color_name := lib.lowercase value
  match named_colors.lookup color_name with
  | none => (false, color)
  | some color_temp =>
    if alpha_string ≠ [] then
      if alpha_string.length ≠ 2 then (false, color)
      else
        match lib.hex_digit_decode (alpha_string.getD 0 (Char.ofNat 0)),
            lib.hex_digit_decode (alpha_string.getD 1 (Char.ofNat 0)) with
        | some d1, some d2 =>
          (true, (color_temp ||| ((((d1 &&& 0xf) <<< 4) ||| (d2 &&& 0xf)) <<< 24)) % 4294967296)
        | _, _ => (false, color)
    else (true, (color_temp ||| (0xff <<< 24)) % 4294967296)

/-- Source: `parseColorString`. -/
def parseColorString (lib : StringLib) (value : List Char) (color : Nat) (_quiet : Bool) :
    Bool × Nat :=
  if value.headD (Char.ofNat 0) = '#' then parseHexColorString lib value color
  else parseNamedColorString lib value color

/-- The usual ASCII helpers: `lowercase` maps `A`..`Z` to `a`..`z`,
`hex_digit_decode` accepts `0`..`9`, `a`..`f` and `A`..`F`. -/
def asciiLib : StringLib where
  lowercase := fun s => s.map Char.toLower
  hex_digit_decode := fun ch =>
    if 48 ≤ ch.toNat ∧ ch.toNat ≤ 57 then some (ch.toNat - 48)
    else if 97 ≤ ch.toNat ∧ ch.toNat ≤ 102 then some (ch.toNat - 87)
    else if 65 ≤ ch.toNat ∧ ch.toNat ≤ 70 then some (ch.toNat - 55)
    else none

end tile

namespace mapgen

/-! ## Machine-number lemmas -/

theorem s16_lower (x : Int) : -32768 ≤ s16 x := by
  unfold s16; omega

theorem s16_upper (x : Int) : s16 x ≤ 32767 := by
  unfold s16; omega

theorem s16_of_inRange {x : Int} (h1 : -32768 ≤ x) (h2 : x ≤ 32767) : s16 x = x := by
  unfold s16; omega

theorem s16_modEq (x : Int) : s16 x ≡ x [ZMOD 65536] := by
  unfold s16 Int.ModEq; omega

theorem s16_congr {x y : Int} (h : x ≡ y [ZMOD 65536]) : s16 x = s16 y := by
  unfold Int.ModEq at h
  unfold s16; omega

/-- The Y component of `node_min = blockpos*MAP_BLOCKSIZE` is the product
`blockpos.Y * MAP_BLOCKSIZE` narrowed to `s16`. -/
theorem node_min_Y (c : Constants) (bp : v3s16) :
    (bp.mul c.MAP_BLOCKSIZE).Y = s16 (bp.Y * c.MAP_BLOCKSIZE) := by
  show s16 (bp.Y * s16 c.MAP_BLOCKSIZE) = s16 (bp.Y * c.MAP_BLOCKSIZE)
  exact s16_congr ((Int.ModEq.refl _).mul (s16_modEq _))

/-- The Y component of `node_max = (blockpos+1)*MAP_BLOCKSIZE-1` is
`node_min.Y + MAP_BLOCKSIZE - 1` narrowed to `s16`. -/
theorem node_max_Y (c : Constants) (bp : v3s16) :
    (((bp.add ⟨1, 1, 1⟩).mul c.MAP_BLOCKSIZE).sub ⟨1, 1, 1⟩).Y
      = s16 ((bp.mul c.MAP_BLOCKSIZE).Y + c.MAP_BLOCKSIZE - 1) := by
  show s16 (s16 (s16 (bp.Y + 1) * s16 c.MAP_BLOCKSIZE) - 1)
      = s16 (s16 (bp.Y * s16 c.MAP_BLOCKSIZE) + c.MAP_BLOCKSIZE - 1)
  apply s16_congr
  have h1 : s16 (s16 (bp.Y + 1) * s16 c.MAP_BLOCKSIZE)
      ≡ (bp.Y + 1) * c.MAP_BLOCKSIZE [ZMOD 65536] :=
    (s16_modEq _).trans ((s16_modEq _).mul (s16_modEq _))
  have h2 : s16 (bp.Y * s16 c.MAP_BLOCKSIZE) ≡ bp.Y * c.MAP_BLOCKSIZE [ZMOD 65536] :=
    (s16_modEq _).trans ((Int.ModEq.refl _).mul (s16_modEq _))
  have h3 : s16 (bp.Y * s16 c.MAP_BLOCKSIZE) + c.MAP_BLOCKSIZE - 1
      ≡ bp.Y * c.MAP_BLOCKSIZE + c.MAP_BLOCKSIZE - 1 [ZMOD 65536] :=
    ((h2.add_right _).sub_right _)
  have h4 : (bp.Y + 1) * c.MAP_BLOCKSIZE - 1
      = bp.Y * c.MAP_BLOCKSIZE + c.MAP_BLOCKSIZE - 1 := by ring
  exact ((h1.sub_right 1).trans (h4 ▸ Int.ModEq.refl _)).trans h3.symm

theorem node_min_y_eq (c : Constants) (bp : v3s16) :
    node_min_y c bp = s16 (bp.Y * c.MAP_BLOCKSIZE) := node_min_Y c bp

theorem node_max_y_eq (c : Constants) (bp : v3s16) :
    node_max_y c bp = s16 (node_min_y c bp + c.MAP_BLOCKSIZE - 1) := node_max_Y c bp

/-! ## Truncation toward zero -/

theorem truncate_le_iff_of_neg (q : ℚ) {k : Int} (hk : k ≤ -1) :
    truncate q ≤ k ↔ q ≤ k := by
  have hk' : (k : ℚ) ≤ -1 := by exact_mod_cast hk
  unfold truncate
  split_ifs with h
  · constructor
    · intro h'
      have := Int.floor_nonneg.mpr h
      omega
    · intro h'
      linarith
  · exact Int.ceil_le

theorem le_truncate_iff_of_pos (q : ℚ) {k : Int} (hk : 1 ≤ k) :
    k ≤ truncate q ↔ (k : ℚ) ≤ q := by
  have hk' : (1 : ℚ) ≤ k := by exact_mod_cast hk
  unfold truncate
  split_ifs with h
  · exact Int.le_floor
  · have hq : q < 0 := not_le.mp h
    constructor
    · intro h'
      have : ⌈q⌉ ≤ 0 := Int.ceil_le.mpr (by simpa using hq.le)
      omega
    · intro h'
      linarith

theorem truncate_le_iff_of_nonneg (q : ℚ) {k : Int} (hk : 0 ≤ k) :
    truncate q ≤ k ↔ q < k + 1 := by
  have hk' : (0 : ℚ) ≤ k := by exact_mod_cast hk
  unfold truncate
  split_ifs with h
  · rw [← Int.lt_add_one_iff, Int.floor_lt]
    push_cast
    rfl
  · have hq : q < 0 := not_le.mp h
    constructor
    · intro _
      linarith
    · intro _
      have : ⌈q⌉ ≤ 0 := Int.ceil_le.mpr (by simpa using hq.le)
      omega

theorem le_truncate_iff_of_nonpos (q : ℚ) {k : Int} (hk : k ≤ 0) :
    k ≤ truncate q ↔ (k : ℚ) - 1 < q := by
  have hk' : (k : ℚ) ≤ 0 := by exact_mod_cast hk
  unfold truncate
  split_ifs with h
  · constructor
    · intro _
      linarith
    · intro _
      have := Int.floor_nonneg.mpr h
      omega
  · rw [← Int.sub_one_lt_iff, Int.lt_ceil]
    push_cast
    rfl

theorem truncate_inRange {q : ℚ} (h1 : -32768 ≤ q) (h2 : q ≤ 32767) :
    -32768 ≤ truncate q ∧ truncate q ≤ 32767 := by
  constructor
  · rw [le_truncate_iff_of_nonpos q (by norm_num)]
    push_cast
    linarith
  · rw [truncate_le_iff_of_nonneg q (by norm_num)]
    push_cast
    linarith

theorem toS16_of_truncate_inRange {q : ℚ} (a : -32768 ≤ truncate q) (b : truncate q ≤ 32767) :
    toS16 q = truncate q := by
  unfold toS16
  rw [if_pos ⟨by omega, by omega⟩]
  exact s16_of_inRange a b

theorem toS16_of_inRange {q : ℚ} (h1 : -32768 ≤ q) (h2 : q ≤ 32767) :
    toS16 q = truncate q := by
  obtain ⟨a, b⟩ := truncate_inRange h1 h2
  exact toS16_of_truncate_inRange a b

/-! ## Rounding lemmas -/

theorem roundHalfEven_le {t : ℚ} {k : Int} (h : t ≤ k) : roundHalfEven t ≤ k := by
  have hf : ⌊t⌋ ≤ k := by
    have : ((⌊t⌋ : Int) : ℚ) ≤ k := le_trans (Int.floor_le t) h
    exact_mod_cast this
  unfold roundHalfEven
  by_cases hk : ⌊t⌋ = k
  · have : t - ⌊t⌋ < 1 / 2 := by
      rw [hk]
      linarith
    rw [if_pos this, hk]
  · have hlt : ⌊t⌋ + 1 ≤ k := by omega
    split_ifs <;> omega

theorem le_roundHalfEven {t : ℚ} {k : Int} (h : (k : ℚ) ≤ t) : k ≤ roundHalfEven t := by
  have hf : k ≤ ⌊t⌋ := Int.le_floor.mpr h
  unfold roundHalfEven
  split_ifs <;> omega

theorem roundHalfEven_intCast (k : Int) : roundHalfEven (k : ℚ) = k :=
  le_antisymm (roundHalfEven_le (le_refl _)) (le_roundHalfEven (le_refl _))

/-- A value less than one half away from an integer is rounded to it. -/
theorem roundHalfEven_eq {t : ℚ} {N : Int} (h1 : (N : ℚ) - 1 / 2 < t) (h2 : t < N + 1 / 2) :
    roundHalfEven t = N := by
  have f1 : N - 1 ≤ ⌊t⌋ := Int.le_floor.mpr (by push_cast; linarith)
  have f2 : ⌊t⌋ ≤ N := by
    have : ⌊t⌋ < N + 1 := Int.floor_lt.mpr (by push_cast; linarith)
    omega
  unfold roundHalfEven
  by_cases hk : ⌊t⌋ = N
  · have : t - ⌊t⌋ < 1 / 2 := by
      rw [hk]
      linarith
    rw [if_pos this, hk]
  · have hk2 : ⌊t⌋ = N - 1 := by omega
    have a : ¬ t - ⌊t⌋ < 1 / 2 := by
      rw [hk2]
      push_cast
      linarith
    have b : 1 / 2 < t - ⌊t⌋ := by
      rw [hk2]
      push_cast
      linarith
    rw [if_neg a, if_pos b, hk2]
    ring

/-- A value halfway between two integers is rounded to the even one. -/
theorem roundHalfEven_tie (M : Int) :
    roundHalfEven ((M : ℚ) + 1 / 2) = if M % 2 = 0 then M else M + 1 := by
  have hf : ⌊(M : ℚ) + 1 / 2⌋ = M := by
    rw [Int.floor_eq_iff]
    constructor <;> linarith
  unfold roundHalfEven
  rw [hf, if_neg (by norm_num), if_neg (by norm_num)]

/-- The rounded integer is at most one half away. -/
theorem roundHalfEven_abs_sub_le (t : ℚ) : |(roundHalfEven t : ℚ) - t| ≤ 1 / 2 := by
  have h1 : ((⌊t⌋ : Int) : ℚ) ≤ t := Int.floor_le t
  have h2 : t < ⌊t⌋ + 1 := Int.lt_floor_add_one t
  unfold roundHalfEven
  rw [abs_le]
  split_ifs with a b c
  · constructor <;> linarith
  · push_cast
    constructor <;> linarith
  · constructor <;> linarith
  · push_cast
    constructor <;> linarith

theorem roundHalfEven_neg (t : ℚ) : roundHalfEven (-t) = -roundHalfEven t := by
  by_cases hint : ((⌊t⌋ : Int) : ℚ) = t
  · rw [← hint, ← Int.cast_neg, roundHalfEven_intCast, roundHalfEven_intCast]
  · have h1 : ((⌊t⌋ : Int) : ℚ) < t := lt_of_le_of_ne (Int.floor_le t) hint
    have h2 : t < ⌊t⌋ + 1 := Int.lt_floor_add_one t
    have hfl : ⌊-t⌋ = -⌊t⌋ - 1 := by
      rw [Int.floor_eq_iff]
      push_cast
      constructor <;> linarith
    unfold roundHalfEven
    rw [hfl]
    push_cast
    by_cases a : t - ⌊t⌋ < 1 / 2
    · have a2 : ¬ (-t - (-(⌊t⌋ : ℚ) - 1) < 1 / 2) := by linarith
      have a3 : 1 / 2 < -t - (-(⌊t⌋ : ℚ) - 1) := by linarith
      rw [if_pos a, if_neg a2, if_pos a3]
      ring
    · by_cases b : 1 / 2 < t - ⌊t⌋
      · have b2 : -t - (-(⌊t⌋ : ℚ) - 1) < 1 / 2 := by linarith
        rw [if_neg a, if_pos b, if_pos b2]
        ring
      · have a2 : ¬ (-t - (-(⌊t⌋ : ℚ) - 1) < 1 / 2) := by linarith
        have a3 : ¬ (1 / 2 < -t - (-(⌊t⌋ : ℚ) - 1)) := by linarith
        rw [if_neg a, if_neg b, if_neg a2, if_neg a3]
        by_cases c : ⌊t⌋ % 2 = 0
        · have c2 : ¬ ((-⌊t⌋ - 1) % 2 = 0) := by omega
          rw [if_pos c, if_neg c2]
          ring
        · have c2 : (-⌊t⌋ - 1) % 2 = 0 := by omega
          rw [if_neg c, if_pos c2]
          ring

theorem two_zpow_pos (n : Int) : (0 : ℚ) < 2 ^ n := zpow_pos (by norm_num) n

/-- A power of two with a non-negative exponent is a positive integer. -/
theorem two_zpow_int {n : Int} (hn : 0 ≤ n) : ∃ K : Int, 0 < K ∧ (2 : ℚ) ^ n = K := by
  obtain ⟨k, rfl⟩ := Int.eq_ofNat_of_zero_le hn
  refine ⟨2 ^ k, by positivity, ?_⟩
  push_cast
  rw [zpow_natCast]

theorem two_zpow_le {a b : Int} (h : a ≤ b) : (2 : ℚ) ^ a ≤ 2 ^ b :=
  zpow_le_zpow_right₀ (by norm_num) h

theorem log_two_bounds {x : ℚ} (hx : x ≠ 0) :
    (2 : ℚ) ^ Int.log 2 |x| ≤ |x| ∧ |x| < (2 : ℚ) ^ (Int.log 2 |x| + 1) := by
  have h1 := Int.zpow_log_le_self (b := 2) (r := |x|) (by norm_num) (abs_pos.mpr hx)
  have h2 := Int.lt_zpow_succ_log_self (b := 2) (by norm_num) |x|
  exact ⟨by exact_mod_cast h1, by exact_mod_cast h2⟩

theorem log_two_eq {x : ℚ} {e : Int} (h1 : (2 : ℚ) ^ e ≤ |x|) (h2 : |x| < (2 : ℚ) ^ (e + 1)) :
    Int.log 2 |x| = e := by
  have hpos : 0 < |x| := lt_of_lt_of_le (two_zpow_pos e) h1
  have a : e ≤ Int.log 2 |x| :=
    (Int.zpow_le_iff_le_log (b := 2) (by norm_num) hpos).mp (by exact_mod_cast h1)
  have b : Int.log 2 |x| < e + 1 :=
    (Int.lt_zpow_iff_log_lt (b := 2) (by norm_num) hpos).mp (by exact_mod_cast h2)
  omega

theorem roundBinary_zero (p : Nat) (emin : Int) : roundBinary p emin 0 = 0 := by
  unfold roundBinary
  rw [zero_div, ← Int.cast_zero, roundHalfEven_intCast]
  simp

theorem roundBinary_neg (p : Nat) (emin : Int) (x : ℚ) :
    roundBinary p emin (-x) = -roundBinary p emin x := by
  unfold roundBinary ulpExponent
  rw [abs_neg, neg_div, roundHalfEven_neg]
  push_cast
  ring

/-- Rounding does not cross a representable value `m * 2^j` (at most `p`
significant bits, exponent not below `emin`): upper bounds. -/
theorem roundBinary_le (p : Nat) (emin : Int) (hp : 1 ≤ p) {x : ℚ} (m j : Int)
    (hm : |m| ≤ 2 ^ p) (hj : emin ≤ j) (h : x ≤ m * 2 ^ j) :
    roundBinary p emin x ≤ m * 2 ^ j := by
  by_cases hx0 : x = 0
  · rw [hx0, roundBinary_zero]
    rw [hx0] at h
    exact h
  unfold roundBinary
  have hu0 : (0 : ℚ) < 2 ^ ulpExponent p emin x := two_zpow_pos _
  by_cases hju : ulpExponent p emin x ≤ j
  · obtain ⟨K, -, hK⟩ := two_zpow_int (sub_nonneg.mpr hju)
    have hr : (m : ℚ) * 2 ^ j = ((m * K : Int) : ℚ) * 2 ^ ulpExponent p emin x := by
      push_cast
      rw [← hK, mul_assoc, ← zpow_add₀ (by norm_num : (2 : ℚ) ≠ 0)]
      congr 2
      ring
    rw [hr]
    apply mul_le_mul_of_nonneg_right _ hu0.le
    have : x / 2 ^ ulpExponent p emin x ≤ ((m * K : Int) : ℚ) := by
      rw [div_le_iff₀ hu0, ← hr]
      exact h
    exact_mod_cast roundHalfEven_le this
  · have hju' : j < ulpExponent p emin x := not_le.mp hju
    obtain ⟨b1, -⟩ := log_two_bounds hx0
    have hu : ulpExponent p emin x = Int.log 2 |x| - ((p : Int) - 1) := by
      unfold ulpExponent at hju' ⊢
      rcases max_cases (Int.log 2 |x| - ((p : Int) - 1)) emin with ⟨h1, -⟩ | ⟨h1, -⟩
      · exact h1
      · rw [h1] at hju'
        omega
    have hp1 : (0 : Int) ≤ (p : Int) - 1 := by omega
    obtain ⟨K, -, hK⟩ := two_zpow_int hp1
    -- the power of two at the bottom of the binade of x, on the grid of x
    have hB : (2 : ℚ) ^ Int.log 2 |x| = (K : ℚ) * 2 ^ ulpExponent p emin x := by
      rw [← hK, ← zpow_add₀ (by norm_num : (2 : ℚ) ≠ 0), hu]
      congr 1
      ring
    -- the representable value is at most that power of two in magnitude
    have hr : |(m : ℚ) * 2 ^ j| ≤ (2 : ℚ) ^ Int.log 2 |x| := by
      rw [abs_mul, abs_of_pos (two_zpow_pos j)]
      have hm' : |(m : ℚ)| ≤ 2 ^ (p : Int) := by
        rw [zpow_natCast]
        exact_mod_cast hm
      calc |(m : ℚ)| * 2 ^ j ≤ 2 ^ (p : Int) * 2 ^ j :=
            mul_le_mul_of_nonneg_right hm' (two_zpow_pos j).le
        _ = 2 ^ ((p : Int) + j) := (zpow_add₀ (by norm_num : (2 : ℚ) ≠ 0) _ _).symm
        _ ≤ 2 ^ Int.log 2 |x| := two_zpow_le (by omega)
    rcases lt_or_gt_of_ne hx0 with hneg | hpos
    · have b2 : (2 : ℚ) ^ Int.log 2 |x| ≤ -x := le_trans b1 (le_of_eq (abs_of_neg hneg))
      have hxB : x / 2 ^ ulpExponent p emin x ≤ ((-K : Int) : ℚ) := by
        rw [div_le_iff₀ hu0]
        push_cast
        rw [neg_mul, ← hB]
        linarith
      have h3 : (roundHalfEven (x / 2 ^ ulpExponent p emin x) : ℚ) ≤ ((-K : Int) : ℚ) := by
        exact_mod_cast roundHalfEven_le hxB
      have h4 : ((-K : Int) : ℚ) * 2 ^ ulpExponent p emin x = -(2 : ℚ) ^ Int.log 2 |x| := by
        push_cast
        rw [neg_mul, ← hB]
      have h5 := mul_le_mul_of_nonneg_right h3 hu0.le
      rw [h4] at h5
      have h6 := neg_abs_le ((m : ℚ) * 2 ^ j)
      linarith
    · have b2 : (2 : ℚ) ^ Int.log 2 |x| ≤ x := le_trans b1 (le_of_eq (abs_of_pos hpos))
      have h7 := le_abs_self ((m : ℚ) * 2 ^ j)
      have hxe : x = (2 : ℚ) ^ Int.log 2 |x| := le_antisymm (by linarith) b2
      have hxK : x / 2 ^ ulpExponent p emin x = (K : ℚ) := by
        rw [div_eq_iff hu0.ne', ← hB]
        exact hxe
      rw [hxK, roundHalfEven_intCast, ← hB]
      linarith

/-- Rounding does not cross a representable value: lower bounds. -/
theorem le_roundBinary (p : Nat) (emin : Int) (hp : 1 ≤ p) {x : ℚ} (m j : Int)
    (hm : |m| ≤ 2 ^ p) (hj : emin ≤ j) (h : (m : ℚ) * 2 ^ j ≤ x) :
    (m : ℚ) * 2 ^ j ≤ roundBinary p emin x := by
  have h1 : -x ≤ ((-m : Int) : ℚ) * 2 ^ j := by
    push_cast
    linarith
  have h2 := roundBinary_le p emin hp (-m) j (by rwa [abs_neg]) hj h1
  rw [roundBinary_neg] at h2
  push_cast at h2
  linarith

/-- A representable value is not changed by rounding. -/
theorem roundBinary_eq_self (p : Nat) (emin : Int) (hp : 1 ≤ p) (m j : Int)
    (hm : |m| ≤ 2 ^ p) (hj : emin ≤ j) :
    roundBinary p emin ((m : ℚ) * 2 ^ j) = m * 2 ^ j :=
  le_antisymm (roundBinary_le p emin hp m j hm hj (le_refl _))
    (le_roundBinary p emin hp m j hm hj (le_refl _))

/-- Evaluation of a rounding: with `2^e <= |x| < 2^(e+1)` and `s` the unit in
the last place, a value less than half a unit away from `N * s` is rounded to
`N * s`. -/
theorem roundBinary_eval (p : Nat) (emin : Int) (x : ℚ) (e u N : Int) (s v : ℚ)
    (hu : max (e - ((p : Int) - 1)) emin = u) (hs : (2 : ℚ) ^ u = s)
    (h1 : (2 : ℚ) ^ e ≤ |x|) (h2 : |x| < (2 : ℚ) ^ (e + 1))
    (h3 : ((N : ℚ) - 1 / 2) * s < x) (h4 : x < ((N : ℚ) + 1 / 2) * s)
    (hv : v = N * s) : roundBinary p emin x = v := by
  have hlog := log_two_eq h1 h2
  have hs0 : 0 < s := hs ▸ two_zpow_pos u
  unfold roundBinary ulpExponent
  rw [hlog, hu, hs, hv]
  congr 1
  have : roundHalfEven (x / s) = N :=
    roundHalfEven_eq (by rw [lt_div_iff₀ hs0]; exact h3) (by rw [div_lt_iff₀ hs0]; exact h4)
  exact_mod_cast this

/-- Evaluation of a rounding at a tie: a value halfway between `M * s` and
`(M+1) * s` is rounded to the one with the even multiplier. -/
theorem roundBinary_eval_tie (p : Nat) (emin : Int) (x : ℚ) (e u M N : Int) (s v : ℚ)
    (hu : max (e - ((p : Int) - 1)) emin = u) (hs : (2 : ℚ) ^ u = s)
    (h1 : (2 : ℚ) ^ e ≤ |x|) (h2 : |x| < (2 : ℚ) ^ (e + 1))
    (h3 : x = ((M : ℚ) + 1 / 2) * s) (hN : (if M % 2 = 0 then M else M + 1) = N)
    (hv : v = N * s) : roundBinary p emin x = v := by
  have hlog := log_two_eq h1 h2
  have hs0 : 0 < s := hs ▸ two_zpow_pos u
  unfold roundBinary ulpExponent
  rw [hlog, hu, hs, hv]
  congr 1
  have hx : x / s = (M : ℚ) + 1 / 2 := by
    rw [h3, mul_div_assoc, div_self (ne_of_gt hs0), mul_one]
  rw [hx, roundHalfEven_tie, hN]

/-- The rounding error is at most half a unit in the last place: for
`|x| <= 2^k` in the normal range it is at most `2^(k - p - 1)`. -/
theorem roundBinary_abs_sub_le (p : Nat) (emin : Int) (hp : 1 ≤ p) (x : ℚ) (k : Int)
    (hk : emin ≤ k - p) (hx : |x| ≤ (2 : ℚ) ^ k) :
    |roundBinary p emin x - x| ≤ (2 : ℚ) ^ (k - p - 1) := by
  by_cases hx0 : x = 0
  · rw [hx0, roundBinary_zero, sub_zero, abs_zero]
    exact (two_zpow_pos _).le
  by_cases hxk : |x| = (2 : ℚ) ^ k
  · -- a power of two is representable
    have hrep : ∀ y : ℚ, y = (2 : ℚ) ^ k → roundBinary p emin y = y := by
      intro y hy
      obtain ⟨K, hK0, hK⟩ := two_zpow_int (by omega : (0 : Int) ≤ (p : Int))
      have hKp : K = 2 ^ p := by
        have : (K : ℚ) = ((2 ^ p : Int) : ℚ) := by
          push_cast
          rw [← hK, zpow_natCast]
        exact_mod_cast this
      have e1 : y = (K : ℚ) * 2 ^ (k - p) := by
        rw [hy, ← hK, ← zpow_add₀ (by norm_num : (2 : ℚ) ≠ 0)]
        congr 1
        ring
      rw [e1]
      exact roundBinary_eq_self p emin hp K (k - p) (by rw [hKp, abs_of_pos (by positivity)]) hk
    rcases abs_cases x with ⟨h1, -⟩ | ⟨h1, -⟩
    · rw [hrep x (by rw [← h1]; exact hxk), sub_self, abs_zero]
      exact (two_zpow_pos _).le
    · have := hrep (-x) (by rw [← h1]; exact hxk)
      rw [roundBinary_neg] at this
      have hx' : roundBinary p emin x = x := by linarith
      rw [hx', sub_self, abs_zero]
      exact (two_zpow_pos _).le
  · have hlt : |x| < (2 : ℚ) ^ k := lt_of_le_of_ne hx hxk
    have hpos : 0 < |x| := abs_pos.mpr hx0
    have hlog : Int.log 2 |x| < k :=
      (Int.lt_zpow_iff_log_lt (b := 2) (by norm_num) hpos).mp (by exact_mod_cast hlt)
    have hu : ulpExponent p emin x ≤ k - p := by
      unfold ulpExponent
      exact max_le (by omega) hk
    have hu0 : (0 : ℚ) < 2 ^ ulpExponent p emin x := two_zpow_pos _
    have herr := roundHalfEven_abs_sub_le (x / 2 ^ ulpExponent p emin x)
    have e1 : roundBinary p emin x - x
        = ((roundHalfEven (x / 2 ^ ulpExponent p emin x) : ℚ) - x / 2 ^ ulpExponent p emin x)
          * 2 ^ ulpExponent p emin x := by
      unfold roundBinary
      field_simp
    rw [e1, abs_mul, abs_of_pos hu0]
    calc |(roundHalfEven (x / 2 ^ ulpExponent p emin x) : ℚ) - x / 2 ^ ulpExponent p emin x|
          * 2 ^ ulpExponent p emin x
        ≤ 1 / 2 * 2 ^ ulpExponent p emin x := mul_le_mul_of_nonneg_right herr hu0.le
      _ ≤ 1 / 2 * 2 ^ (k - p) := by
          apply mul_le_mul_of_nonneg_left (two_zpow_le hu) (by norm_num)
      _ = 2 ^ (k - p - 1) := by
          rw [zpow_sub_one₀ (by norm_num : (2 : ℚ) ≠ 0)]
          ring

/-! ### The two formats of the module -/

theorem roundDouble_le {x r : ℚ} (m j : Int) (hr : r = (m : ℚ) * 2 ^ j)
    (hm : |m| ≤ 2 ^ 53) (hj : -1074 ≤ j) (h : x ≤ r) : roundDouble x ≤ r := by
  rw [hr] at h ⊢
  exact roundBinary_le 53 (-1074) (by norm_num) m j hm hj h

theorem le_roundDouble {x r : ℚ} (m j : Int) (hr : r = (m : ℚ) * 2 ^ j)
    (hm : |m| ≤ 2 ^ 53) (hj : -1074 ≤ j) (h : r ≤ x) : r ≤ roundDouble x := by
  rw [hr] at h ⊢
  exact le_roundBinary 53 (-1074) (by norm_num) m j hm hj h

theorem roundFloat_le {x r : ℚ} (m j : Int) (hr : r = (m : ℚ) * 2 ^ j)
    (hm : |m| ≤ 2 ^ 24) (hj : -149 ≤ j) (h : x ≤ r) : roundFloat x ≤ r := by
  rw [hr] at h ⊢
  exact roundBinary_le 24 (-149) (by norm_num) m j hm hj h

theorem le_roundFloat {x r : ℚ} (m j : Int) (hr : r = (m : ℚ) * 2 ^ j)
    (hm : |m| ≤ 2 ^ 24) (hj : -149 ≤ j) (h : r ≤ x) : r ≤ roundFloat x := by
  rw [hr] at h ⊢
  exact le_roundBinary 24 (-149) (by norm_num) m j hm hj h

/-- A `double` operation does not cross an integer below `2^53` in magnitude. -/
theorem roundDouble_le_int {x : ℚ} {k : Int} (hk : |k| ≤ 2 ^ 53) (h : x ≤ k) :
    roundDouble x ≤ k :=
  roundDouble_le k 0 (by simp) hk (by norm_num) h

theorem int_le_roundDouble {x : ℚ} {k : Int} (hk : |k| ≤ 2 ^ 53) (h : (k : ℚ) ≤ x) :
    (k : ℚ) ≤ roundDouble x :=
  le_roundDouble k 0 (by simp) hk (by norm_num) h

/-- Integers below `2^53` in magnitude are `double` values. -/
theorem roundDouble_intCast {k : Int} (hk : |k| ≤ 2 ^ 53) : roundDouble (k : ℚ) = k :=
  le_antisymm (roundDouble_le_int hk (le_refl _)) (int_le_roundDouble hk (le_refl _))

/-- A value `m * 2^j` with `|m| <= 2^53` is a `double` value. -/
theorem roundDouble_eq_self {r : ℚ} (m j : Int) (hr : r = (m : ℚ) * 2 ^ j)
    (hm : |m| ≤ 2 ^ 53) (hj : -1074 ≤ j) : roundDouble r = r :=
  le_antisymm (roundDouble_le m j hr hm hj (le_refl _)) (le_roundDouble m j hr hm hj (le_refl _))

/-- A value `m * 2^j` with `|m| <= 2^24` is a `float` value. -/
theorem roundFloat_eq_self {r : ℚ} (m j : Int) (hr : r = (m : ℚ) * 2 ^ j)
    (hm : |m| ≤ 2 ^ 24) (hj : -149 ≤ j) : roundFloat r = r :=
  le_antisymm (roundFloat_le m j hr hm hj (le_refl _)) (le_roundFloat m j hr hm hj (le_refl _))

theorem roundDouble_neg (x : ℚ) : roundDouble (-x) = -roundDouble x :=
  roundBinary_neg 53 (-1074) x

theorem roundFloat_neg (x : ℚ) : roundFloat (-x) = -roundFloat x :=
  roundBinary_neg 24 (-149) x

/-- Evaluation of a `double` rounding of a positive value: with
`2^e <= x < 2^(e+1)` and `s = 2^u` the unit in the last place, a value less
than half a unit away from `N * s` is rounded to `N * s`. -/
theorem roundDouble_eval (x : ℚ) (e u N : Int) (s v : ℚ)
    (hu : max (e - 52) (-1074) = u) (hs : (2 : ℚ) ^ u = s)
    (h1 : (2 : ℚ) ^ e ≤ x) (h2 : x < (2 : ℚ) ^ (e + 1))
    (h3 : ((N : ℚ) - 1 / 2) * s < x) (h4 : x < ((N : ℚ) + 1 / 2) * s)
    (hv : v = N * s) : roundDouble x = v := by
  have hx : 0 < x := lt_of_lt_of_le (two_zpow_pos e) h1
  exact roundBinary_eval 53 (-1074) x e u N s v (by rw [← hu]; norm_num) hs
    (by rwa [abs_of_pos hx]) (by rwa [abs_of_pos hx]) h3 h4 hv

/-- Evaluation of a `float` rounding of a positive value. -/
theorem roundFloat_eval (x : ℚ) (e u N : Int) (s v : ℚ)
    (hu : max (e - 23) (-149) = u) (hs : (2 : ℚ) ^ u = s)
    (h1 : (2 : ℚ) ^ e ≤ x) (h2 : x < (2 : ℚ) ^ (e + 1))
    (h3 : ((N : ℚ) - 1 / 2) * s < x) (h4 : x < ((N : ℚ) + 1 / 2) * s)
    (hv : v = N * s) : roundFloat x = v := by
  have hx : 0 < x := lt_of_lt_of_le (two_zpow_pos e) h1
  exact roundBinary_eval 24 (-149) x e u N s v (by rw [← hu]; norm_num) hs
    (by rwa [abs_of_pos hx]) (by rwa [abs_of_pos hx]) h3 h4 hv

/-- Evaluation of a `double` rounding of a positive value at a tie. -/
theorem roundDouble_eval_tie (x : ℚ) (e u M N : Int) (s v : ℚ)
    (hu : max (e - 52) (-1074) = u) (hs : (2 : ℚ) ^ u = s)
    (h1 : (2 : ℚ) ^ e ≤ x) (h2 : x < (2 : ℚ) ^ (e + 1))
    (h3 : x = ((M : ℚ) + 1 / 2) * s) (hN : (if M % 2 = 0 then M else M + 1) = N)
    (hv : v = N * s) : roundDouble x = v := by
  have hx : 0 < x := lt_of_lt_of_le (two_zpow_pos e) h1
  exact roundBinary_eval_tie 53 (-1074) x e u M N s v (by rw [← hu]; norm_num) hs
    (by rwa [abs_of_pos hx]) (by rwa [abs_of_pos hx]) h3 hN hv

/-- Evaluation of a `float` rounding of a positive value at a tie. -/
theorem roundFloat_eval_tie (x : ℚ) (e u M N : Int) (s v : ℚ)
    (hu : max (e - 23) (-149) = u) (hs : (2 : ℚ) ^ u = s)
    (h1 : (2 : ℚ) ^ e ≤ x) (h2 : x < (2 : ℚ) ^ (e + 1))
    (h3 : x = ((M : ℚ) + 1 / 2) * s) (hN : (if M % 2 = 0 then M else M + 1) = N)
    (hv : v = N * s) : roundFloat x = v := by
  have hx : 0 < x := lt_of_lt_of_le (two_zpow_pos e) h1
  exact roundBinary_eval_tie 24 (-149) x e u M N s v (by rw [← hu]; norm_num) hs
    (by rwa [abs_of_pos hx]) (by rwa [abs_of_pos hx]) h3 hN hv

/-! ## Ranges of the height field -/

theorem get_ground_height_inRange (c : Constants) (eng : NoiseEngine) (seed : Nat)
    (p : v2s16) :
    -32768 ≤ get_ground_height c eng seed p ∧ get_ground_height c eng seed p ≤ 32767 :=
  ⟨s16_lower _, s16_upper _⟩

theorem get_ground_height_inRange_rat (c : Constants) (eng : NoiseEngine) (seed : Nat)
    (p : v2s16) :
    (-32768 : ℚ) ≤ get_ground_height c eng seed p ∧
      ((get_ground_height c eng seed p : Int) : ℚ) ≤ 32767 := by
  obtain ⟨a, b⟩ := get_ground_height_inRange c eng seed p
  exact ⟨by exact_mod_cast a, by exact_mod_cast b⟩

theorem get_sector_average_ground_level_inRange (c : Constants) (eng : NoiseEngine)
    (data : BlockMakeData) (sectorpos : v2s16) :
    -32768 ≤ get_sector_average_ground_level c eng data sectorpos ∧
      get_sector_average_ground_level c eng data sectorpos ≤ 32767 := by
  unfold get_sector_average_ground_level
  dsimp only
  generalize v2s16.ofInts (sectorpos.mul c.MAP_BLOCKSIZE).X (sectorpos.mul c.MAP_BLOCKSIZE).Y = p1
  generalize v2s16.ofInts (sectorpos.mul c.MAP_BLOCKSIZE).X
    (((sectorpos.add ⟨1, 1⟩).mul c.MAP_BLOCKSIZE).sub ⟨1, 1⟩).Y = p2
  generalize v2s16.ofInts (((sectorpos.add ⟨1, 1⟩).mul c.MAP_BLOCKSIZE).sub ⟨1, 1⟩).X
    (((sectorpos.add ⟨1, 1⟩).mul c.MAP_BLOCKSIZE).sub ⟨1, 1⟩).Y = p3
  generalize v2s16.ofInts (((sectorpos.add ⟨1, 1⟩).mul c.MAP_BLOCKSIZE).sub ⟨1, 1⟩).X
    (sectorpos.mul c.MAP_BLOCKSIZE).Y = p4
  generalize v2s16.ofInts ((sectorpos.mul c.MAP_BLOCKSIZE).X + c.MAP_BLOCKSIZE.tdiv 2)
    ((sectorpos.mul c.MAP_BLOCKSIZE).Y + c.MAP_BLOCKSIZE.tdiv 2) = p5
  obtain ⟨a1, b1⟩ := get_ground_height_inRange_rat c eng data.seed p1
  obtain ⟨a2, b2⟩ := get_ground_height_inRange_rat c eng data.seed p2
  obtain ⟨a3, b3⟩ := get_ground_height_inRange_rat c eng data.seed p3
  obtain ⟨a4, b4⟩ := get_ground_height_inRange_rat c eng data.seed p4
  obtain ⟨a5, b5⟩ := get_ground_height_inRange_rat c eng data.seed p5
  constructor
  · rw [le_div_iff₀ (by norm_num)]
    linarith
  · rw [div_le_iff₀ (by norm_num)]
    linarith

/-- The `int16_t` variable `average_ground_height` of `calc_biome` is the
sector average with its fractional part discarded. -/
theorem average_ground_height_eq (c : Constants) (eng : NoiseEngine) (data : BlockMakeData) :
    toS16 (sector_average c eng data) = truncate (sector_average c eng data) := by
  obtain ⟨a, b⟩ := get_sector_average_ground_level_inRange c eng data
    ⟨data.blockpos.X, data.blockpos.Z⟩
  exact toS16_of_inRange a b

/-! ## The biome classifier follows its decision rule -/

theorem calc_biome_eq (c : Constants) (eng : NoiseEngine) (data : BlockMakeData) :
    calc_biome c eng data = { data with biome := some (biome_rule
      (node_min_y c data.blockpos) (node_max_y c data.blockpos)
      (toS16 (sector_average c eng data)) (centre_humidity c eng data)) } := by
  unfold calc_biome biome_rule node_min_y node_max_y sector_average centre_humidity
    centre_column
  dsimp only
  generalize (data.blockpos.mul c.MAP_BLOCKSIZE).Y = ymin
  generalize (((data.blockpos.add ⟨1, 1, 1⟩).mul c.MAP_BLOCKSIZE).sub ⟨1, 1, 1⟩).Y = ymax
  generalize toS16 (get_sector_average_ground_level c eng data
    ⟨data.blockpos.X, data.blockpos.Z⟩) = T
  generalize get_humidity eng data.seed (v2s16.ofInts
    ((data.blockpos.mul c.MAP_BLOCKSIZE).X + c.MAP_BLOCKSIZE.tdiv 2)
    ((data.blockpos.mul c.MAP_BLOCKSIZE).Z + c.MAP_BLOCKSIZE.tdiv 2)) = H
  by_cases h1 : ymin ≥ 1024
  · rw [if_pos h1, if_pos h1]
  rw [if_neg h1, if_neg h1]
  by_cases h2 : ymin ≥ 256
  · rw [if_pos h2, if_pos h2]
  rw [if_neg h2, if_neg h2]
  by_cases h3 : ymax ≤ -128
  · rw [if_pos h3, if_pos h3]
  rw [if_neg h3, if_neg h3]
  by_cases h4 : T ≤ -10
  · rw [if_pos h4, if_pos h4]
  rw [if_neg h4, if_neg h4]
  by_cases h5 : T ≥ 40
  · rw [if_pos h5, if_pos h5]
  rw [if_neg h5, if_neg h5]
  split_ifs <;> rfl

theorem calc_biome_biome (c : Constants) (eng : NoiseEngine) (data : BlockMakeData) :
    (calc_biome c eng data).biome = some (biome_rule
      (node_min_y c data.blockpos) (node_max_y c data.blockpos)
      (truncate (sector_average c eng data)) (centre_humidity c eng data)) := by
  rw [calc_biome_eq, average_ground_height_eq]

/-! ## Evaluation of the sample environments -/

theorem truncate_eq_of_nonneg {q : ℚ} {z : Int} (hz : 0 ≤ z) (h0 : (z : ℚ) ≤ q)
    (h1 : q < z + 1) : truncate q = z := by
  have hz' : (0 : ℚ) ≤ z := by exact_mod_cast hz
  apply le_antisymm
  · exact (truncate_le_iff_of_nonneg q hz).mpr h1
  · unfold truncate
    rw [if_pos (le_trans hz' h0)]
    exact Int.le_floor.mpr h0

theorem truncate_eq_of_nonpos {q : ℚ} {z : Int} (hz : z ≤ 0) (h0 : q ≤ z)
    (h1 : (z : ℚ) - 1 < q) : truncate q = z := by
  have hz' : (z : ℚ) ≤ 0 := by exact_mod_cast hz
  apply le_antisymm
  · unfold truncate
    split_ifs with h
    · have hq : q = 0 := le_antisymm (le_trans h0 hz') h
      have hz0 : (z : ℚ) = 0 := le_antisymm hz' (hq ▸ h0)
      have : z = 0 := by exact_mod_cast hz0
      rw [hq, this]
      simp
    · exact Int.ceil_le.mpr h0
  · exact (le_truncate_iff_of_nonpos q hz).mpr h1

theorem truncate_intCast (m : Int) : truncate (m : ℚ) = m := by
  unfold truncate
  split_ifs <;> simp

/-- The sample height of a noise value that is not positive and whose 25-fold
is an integer: every operation is exact. -/
theorem sampleHeight_nonpos (e : ℚ) (k : Int) (he : e ≤ 0) (hk : 25 * e = k)
    (h1 : -32768 ≤ 1 + k) (h2 : 1 + k ≤ 32767) : sampleHeight e = 1 + k := by
  unfold sampleHeight
  rw [if_neg (not_lt.mpr he), hk, roundDouble_intCast (by rw [abs_le]; constructor <;> omega)]
  have e1 : (1 : ℚ) + (k : ℚ) = ((1 + k : Int) : ℚ) := by push_cast; ring
  rw [e1, roundDouble_intCast (by rw [abs_le]; constructor <;> omega),
    toS16_of_truncate_inRange (by rw [truncate_intCast]; exact h1)
      (by rw [truncate_intCast]; exact h2), truncate_intCast]

theorem sampleHeight_neg_one : sampleHeight (-1) = -24 :=
  (sampleHeight_nonpos (-1) (-25) (by norm_num) (by norm_num) (by norm_num)
    (by norm_num)).trans (by norm_num)

theorem sampleHeight_zero : sampleHeight 0 = 1 :=
  (sampleHeight_nonpos 0 0 (by norm_num) (by norm_num) (by norm_num)
    (by norm_num)).trans (by norm_num)

/-- The sample height of a positive noise value: with `v` the sample power and
`z - 1 <= 25*v <= z - 1/4`, both `double` operations stay between the same
bounds and the height is `z`. -/
theorem sampleHeight_pos (e v : ℚ) (z : Int) (he : 0 < e) (hv : samplePow e (19 / 10) = v)
    (hz : 1 ≤ z) (hz2 : z ≤ 32767) (h0 : (z : ℚ) - 1 ≤ 25 * v) (h1 : 25 * v ≤ z - 1 / 4) :
    sampleHeight e = z := by
  have a1 : ((z - 1 : Int) : ℚ) ≤ roundDouble (25 * v) :=
    int_le_roundDouble (by rw [abs_le]; constructor <;> omega) (by push_cast; exact h0)
  have a2 : roundDouble (25 * v) ≤ (z : ℚ) - 1 / 4 :=
    roundDouble_le (4 * z - 1) (-2) (by push_cast; norm_num; ring)
      (by rw [abs_le]; constructor <;> omega) (by norm_num) h1
  have b1 : (z : ℚ) ≤ roundDouble (1 + roundDouble (25 * v)) :=
    int_le_roundDouble (by rw [abs_le]; constructor <;> omega)
      (by push_cast at a1; linarith)
  have b2 : roundDouble (1 + roundDouble (25 * v)) ≤ (z : ℚ) + 3 / 4 :=
    roundDouble_le (4 * z + 3) (-2) (by push_cast; norm_num; ring)
      (by rw [abs_le]; constructor <;> omega) (by norm_num) (by linarith)
  have t : truncate (roundDouble (1 + roundDouble (25 * v))) = z :=
    truncate_eq_of_nonneg (by omega) b1 (by linarith)
  unfold sampleHeight
  rw [if_pos he, hv, toS16_of_truncate_inRange (by rw [t]; omega) (by rw [t]; omega), t]

theorem sampleHeight_020 : sampleHeight (1 / 5) = 2 :=
  sampleHeight_pos (1 / 5) (47 / 1000) 2 (by norm_num) (by norm_num [samplePow]) (by norm_num)
    (by norm_num) (by norm_num) (by norm_num)

theorem sampleHeight_030 : sampleHeight (3 / 10) = 3 :=
  sampleHeight_pos (3 / 10) (102 / 1000) 3 (by norm_num) (by norm_num [samplePow]) (by norm_num)
    (by norm_num) (by norm_num) (by norm_num)

theorem sampleHeight_050 : sampleHeight (1 / 2) = 7 :=
  sampleHeight_pos (1 / 2) (268 / 1000) 7 (by norm_num) (by norm_num [samplePow]) (by norm_num)
    (by norm_num) (by norm_num) (by norm_num)

theorem sampleHeight_060 : sampleHeight (3 / 5) = 10 :=
  sampleHeight_pos (3 / 5) (379 / 1000) 10 (by norm_num) (by norm_num [samplePow]) (by norm_num)
    (by norm_num) (by norm_num) (by norm_num)

theorem sampleHeight_063 : sampleHeight (63 / 100) = 11 :=
  sampleHeight_pos (63 / 100) (416 / 1000) 11 (by norm_num) (by norm_num [samplePow])
    (by norm_num) (by norm_num) (by norm_num) (by norm_num)

theorem sampleHeight_080 : sampleHeight (4 / 5) = 17 :=
  sampleHeight_pos (4 / 5) (654 / 1000) 17 (by norm_num) (by norm_num [samplePow]) (by norm_num)
    (by norm_num) (by norm_num) (by norm_num)

theorem sampleHeight_109 : sampleHeight (109 / 100) = 30 :=
  sampleHeight_pos (109 / 100) (1178 / 1000) 30 (by norm_num) (by norm_num [samplePow])
    (by norm_num) (by norm_num) (by norm_num) (by norm_num)

theorem sampleHeight_111 : sampleHeight (111 / 100) = 31 :=
  sampleHeight_pos (111 / 100) (1219 / 1000) 31 (by norm_num) (by norm_num [samplePow])
    (by norm_num) (by norm_num) (by norm_num) (by norm_num)

theorem sampleHeight_118 : sampleHeight (118 / 100) = 35 :=
  sampleHeight_pos (118 / 100) (1370 / 1000) 35 (by norm_num) (by norm_num [samplePow])
    (by norm_num) (by norm_num) (by norm_num) (by norm_num)

theorem sampleHeight_127 : sampleHeight (127 / 100) = 40 :=
  sampleHeight_pos (127 / 100) (1575 / 1000) 40 (by norm_num) (by norm_num [samplePow])
    (by norm_num) (by norm_num) (by norm_num) (by norm_num)

/-! ### The sample points of sector `(0, 0)` -/

/-- The sample coordinate of column 8, the `double` nearest to `1/25`, lies
between `1/32` and `3/64`. -/
theorem sample_coordinate_8 :
    (1 / 32 : ℚ) ≤ roundDouble (1 / 25) ∧ roundDouble (1 / 25) ≤ 3 / 64 :=
  ⟨le_roundDouble 1 (-5) (by norm_num) (by norm_num) (by norm_num) (by norm_num),
   roundDouble_le 3 (-6) (by norm_num) (by norm_num) (by norm_num) (by norm_num)⟩

/-- The sample coordinate of column 15, the `double` nearest to `3/40`, lies
between `1/16` and `3/32`. -/
theorem sample_coordinate_15 :
    (1 / 16 : ℚ) ≤ roundDouble (3 / 40) ∧ roundDouble (3 / 40) ≤ 3 / 32 :=
  ⟨le_roundDouble 1 (-4) (by norm_num) (by norm_num) (by norm_num) (by norm_num),
   roundDouble_le 3 (-5) (by norm_num) (by norm_num) (by norm_num) (by norm_num)⟩

theorem roundDouble_zero : roundDouble 0 = 0 := roundBinary_zero 53 (-1074)

theorem roundFloat_zero : roundFloat 0 = 0 := roundBinary_zero 24 (-149)

/-- The sample coordinates of the columns 0, 8 and 15 are pairwise different. -/
theorem sample_coordinates_ne :
    roundDouble 0 ≠ roundDouble (1 / 25) ∧ roundDouble (3 / 40) ≠ roundDouble (1 / 25) ∧
      roundDouble 0 ≠ roundDouble (3 / 40) := by
  obtain ⟨a1, a2⟩ := sample_coordinate_8
  obtain ⟨b1, b2⟩ := sample_coordinate_15
  rw [roundDouble_zero]
  refine ⟨fun h => ?_, fun h => ?_, fun h => ?_⟩
  · rw [← h] at a1
    norm_num at a1
  · rw [h] at b1
    linarith
  · rw [← h] at b1
    norm_num at b1

/-- The ground height the sample engine gives a column. -/
theorem sample_ground_height (eCorner eCentre n : ℚ) (p : v2s16) :
    get_ground_height sampleConstants (sampleEngine eCorner eCentre n) 42 p
      = sampleHeight (if roundDouble ((p.X : ℚ) / 200) = roundDouble (1 / 25)
          ∧ roundDouble ((p.Y : ℚ) / 200) = roundDouble (1 / 25) then eCentre else eCorner) := by
  simp [get_ground_height, sampleEngine, sampleHeight, sampleConstants]

/-- The sample engine at the five columns of the average of sector `(0, 0)`:
the corner value at the four corners, the centre value at the centre. -/
theorem sample_ground_height_stencil (eCorner eCentre n : ℚ) :
    get_ground_height sampleConstants (sampleEngine eCorner eCentre n) 42 ⟨0, 0⟩
        = sampleHeight eCorner ∧
      get_ground_height sampleConstants (sampleEngine eCorner eCentre n) 42 ⟨0, 15⟩
        = sampleHeight eCorner ∧
      get_ground_height sampleConstants (sampleEngine eCorner eCentre n) 42 ⟨15, 15⟩
        = sampleHeight eCorner ∧
      get_ground_height sampleConstants (sampleEngine eCorner eCentre n) 42 ⟨15, 0⟩
        = sampleHeight eCorner ∧
      get_ground_height sampleConstants (sampleEngine eCorner eCentre n) 42 ⟨8, 8⟩
        = sampleHeight eCentre := by
  obtain ⟨n1, n2, -⟩ := sample_coordinates_ne
  have c0 : roundDouble (((0 : Int) : ℚ) / 200) = roundDouble 0 := by norm_num
  have c8 : roundDouble (((8 : Int) : ℚ) / 200) = roundDouble (1 / 25) := by norm_num
  have c15 : roundDouble (((15 : Int) : ℚ) / 200) = roundDouble (3 / 40) := by norm_num
  refine ⟨?_, ?_, ?_, ?_, ?_⟩ <;> rw [sample_ground_height] <;> dsimp only
  · rw [c0, if_neg (fun h => n1 h.1)]
  · rw [c0, if_neg (fun h => n1 h.1)]
  · rw [c15, if_neg (fun h => n2 h.1)]
  · rw [c15, if_neg (fun h => n2 h.1)]
  · rw [c8, if_pos ⟨rfl, rfl⟩]

/-- The average of sector `(0, 0)` with 16-node blocks, written out. -/
theorem sector_average_zero (eng : NoiseEngine) (data : BlockMakeData) :
    get_sector_average_ground_level sampleConstants eng data ⟨0, 0⟩
      = ((get_ground_height sampleConstants eng data.seed ⟨0, 0⟩ : ℚ)
          + get_ground_height sampleConstants eng data.seed ⟨0, 15⟩
          + get_ground_height sampleConstants eng data.seed ⟨15, 15⟩
          + get_ground_height sampleConstants eng data.seed ⟨15, 0⟩
          + get_ground_height sampleConstants eng data.seed ⟨8, 8⟩) / 5 := by
  unfold get_sector_average_ground_level
  simp only [zero_add]
  rfl

/-- In the sample environment the average of sector `(0, 0)` is four corner
heights and one centre height, divided by five. -/
theorem sample_sector_average (eCorner eCentre n : ℚ) (y : Int) :
    sector_average sampleConstants (sampleEngine eCorner eCentre n) (sampleData y)
      = (4 * (sampleHeight eCorner : ℚ) + sampleHeight eCentre) / 5 := by
  obtain ⟨h1, h2, h3, h4, h5⟩ := sample_ground_height_stencil eCorner eCentre n
  show get_sector_average_ground_level sampleConstants (sampleEngine eCorner eCentre n)
    (sampleData y) ⟨0, 0⟩ = _
  rw [sector_average_zero]
  show ((get_ground_height sampleConstants (sampleEngine eCorner eCentre n) 42 ⟨0, 0⟩ : ℚ)
    + get_ground_height sampleConstants (sampleEngine eCorner eCentre n) 42 ⟨0, 15⟩
    + get_ground_height sampleConstants (sampleEngine eCorner eCentre n) 42 ⟨15, 15⟩
    + get_ground_height sampleConstants (sampleEngine eCorner eCentre n) 42 ⟨15, 0⟩
    + get_ground_height sampleConstants (sampleEngine eCorner eCentre n) 42 ⟨8, 8⟩) / 5 = _
  rw [h1, h2, h3, h4, h5]
  ring

/-- In the sample environment the humidity layer returns `n`. -/
theorem sample_centre_humidity (eCorner eCentre n : ℚ) (y : Int) :
    centre_humidity sampleConstants (sampleEngine eCorner eCentre n) (sampleData y)
      = humidity_of_noise n := by
  norm_num [centre_humidity, get_humidity, centre_column, sampleEngine, sampleConstants,
    sampleData, u64, humidity_of_noise]

/-- The humidity of a raw noise value `n` with `a/16 <= (n+1)/2 <= b/16`
(`0 <= a`, `b <= 16`) lies between the same bounds: none of the two `double`
operations and of the narrowing to `float` crosses a multiple of `1/16`. -/
theorem humidity_of_noise_mem (n : ℚ) (a b : Int) (ha : 0 ≤ a) (hb : b ≤ 16)
    (h1 : (a : ℚ) / 16 ≤ (n + 1) / 2) (h2 : (n + 1) / 2 ≤ b / 16) :
    (a : ℚ) / 16 ≤ humidity_of_noise n ∧ humidity_of_noise n ≤ b / 16 := by
  have hab : (a : ℚ) ≤ b := by linarith
  have hab' : a ≤ b := by exact_mod_cast hab
  have p1 : (a : ℚ) / 8 ≤ roundDouble (n + 1) :=
    le_roundDouble a (-3) (by norm_num; ring) (by rw [abs_le]; constructor <;> omega)
      (by norm_num) (by linarith)
  have p2 : roundDouble (n + 1) ≤ (b : ℚ) / 8 :=
    roundDouble_le b (-3) (by norm_num; ring) (by rw [abs_le]; constructor <;> omega)
      (by norm_num) (by linarith)
  have q1 : (a : ℚ) / 16 ≤ roundDouble (roundDouble (n + 1) / 2) :=
    le_roundDouble a (-4) (by norm_num; ring) (by rw [abs_le]; constructor <;> omega)
      (by norm_num) (by linarith)
  have q2 : roundDouble (roundDouble (n + 1) / 2) ≤ (b : ℚ) / 16 :=
    roundDouble_le b (-4) (by norm_num; ring) (by rw [abs_le]; constructor <;> omega)
      (by norm_num) (by linarith)
  have r1 : (a : ℚ) / 16 ≤ roundFloat (roundDouble (roundDouble (n + 1) / 2)) :=
    le_roundFloat a (-4) (by norm_num; ring) (by rw [abs_le]; constructor <;> omega)
      (by norm_num) q1
  have r2 : roundFloat (roundDouble (roundDouble (n + 1) / 2)) ≤ (b : ℚ) / 16 :=
    roundFloat_le b (-4) (by norm_num; ring) (by rw [abs_le]; constructor <;> omega)
      (by norm_num) q2
  have ha' : (0 : ℚ) ≤ a := by exact_mod_cast ha
  have hb' : (b : ℚ) ≤ 16 := by exact_mod_cast hb
  unfold humidity_of_noise
  rw [if_neg (by linarith), if_neg (by linarith)]
  exact ⟨r1, r2⟩

/-! ### The humidity of the sample noise values -/

/-- Raw noise `-4/5` gives humidity `1/10` as a `float`, between `1/16` and
`1/8`. -/
theorem sample_humidity_010 :
    humidity_of_noise (-4 / 5) = roundFloat (1 / 10) ∧
      ((1 / 16) : ℚ) ≤ humidity_of_noise (-4 / 5) ∧ humidity_of_noise (-4 / 5) ≤ (1 / 8) := by
  have e1 : roundDouble ((-4 / 5) + 1) = (3602879701896397 / 18014398509481984) := by
    rw [show (((-4 / 5) : ℚ) + 1) = (1 / 5) by norm_num]
    exact roundDouble_eval (1 / 5) (-3) (-55) 7205759403792794 (1 / 36028797018963968) (3602879701896397 / 18014398509481984)
        (by decide) (by norm_num) (by norm_num) (by norm_num) (by norm_num) (by norm_num)
        (by norm_num)
  have e2 : roundDouble ((3602879701896397 / 18014398509481984) / 2) = (3602879701896397 / 36028797018963968) :=
    roundDouble_eval ((3602879701896397 / 18014398509481984) / 2) (-4) (-56) 7205759403792794 (1 / 72057594037927936) (3602879701896397 / 36028797018963968)
      (by decide) (by norm_num) (by norm_num) (by norm_num) (by norm_num) (by norm_num)
      (by norm_num)
  have e3 : roundFloat (3602879701896397 / 36028797018963968) = (13421773 / 134217728) :=
    roundFloat_eval (3602879701896397 / 36028797018963968) (-4) (-27) 13421773 (1 / 134217728) (13421773 / 134217728)
      (by decide) (by norm_num) (by norm_num) (by norm_num) (by norm_num) (by norm_num)
      (by norm_num)
  have e4 : roundFloat (1 / 10) = (13421773 / 134217728) :=
    roundFloat_eval (1 / 10) (-4) (-27) 13421773 (1 / 134217728) (13421773 / 134217728)
      (by decide) (by norm_num) (by norm_num) (by norm_num) (by norm_num) (by norm_num)
      (by norm_num)
  have hb := humidity_of_noise_mem (-4 / 5) 1 2 (by norm_num) (by norm_num) (by norm_num)
    (by norm_num)
  refine ⟨?_, by have := hb.1; norm_num at this ⊢; exact this,
    by have := hb.2; norm_num at this ⊢; exact this⟩
  unfold humidity_of_noise
  rw [e1, e2, if_neg (by norm_num), if_neg (by norm_num), e3, e4]

/-- Raw noise `-1/5` gives humidity `2/5` as a `float`, between `3/8` and
`7/16`. -/
theorem sample_humidity_040 :
    humidity_of_noise (-1 / 5) = roundFloat (2 / 5) ∧
      ((3 / 8) : ℚ) ≤ humidity_of_noise (-1 / 5) ∧ humidity_of_noise (-1 / 5) ≤ (7 / 16) := by
  have e1 : roundDouble ((-1 / 5) + 1) = (3602879701896397 / 4503599627370496) := by
    rw [show (((-1 / 5) : ℚ) + 1) = (4 / 5) by norm_num]
    exact roundDouble_eval (4 / 5) (-1) (-53) 7205759403792794 (1 / 9007199254740992) (3602879701896397 / 4503599627370496)
        (by decide) (by norm_num) (by norm_num) (by norm_num) (by norm_num) (by norm_num)
        (by norm_num)
  have e2 : roundDouble ((3602879701896397 / 4503599627370496) / 2) = (3602879701896397 / 9007199254740992) :=
    roundDouble_eval ((3602879701896397 / 4503599627370496) / 2) (-2) (-54) 7205759403792794 (1 / 18014398509481984) (3602879701896397 / 9007199254740992)
      (by decide) (by norm_num) (by norm_num) (by norm_num) (by norm_num) (by norm_num)
      (by norm_num)
  have e3 : roundFloat (3602879701896397 / 9007199254740992) = (13421773 / 33554432) :=
    roundFloat_eval (3602879701896397 / 9007199254740992) (-2) (-25) 13421773 (1 / 33554432) (13421773 / 33554432)
      (by decide) (by norm_num) (by norm_num) (by norm_num) (by norm_num) (by norm_num)
      (by norm_num)
  have e4 : roundFloat (2 / 5) = (13421773 / 33554432) :=
    roundFloat_eval (2 / 5) (-2) (-25) 13421773 (1 / 33554432) (13421773 / 33554432)
      (by decide) (by norm_num) (by norm_num) (by norm_num) (by norm_num) (by norm_num)
      (by norm_num)
  have hb := humidity_of_noise_mem (-1 / 5) 6 7 (by norm_num) (by norm_num) (by norm_num)
    (by norm_num)
  refine ⟨?_, by have := hb.1; norm_num at this ⊢; exact this,
    by have := hb.2; norm_num at this ⊢; exact this⟩
  unfold humidity_of_noise
  rw [e1, e2, if_neg (by norm_num), if_neg (by norm_num), e3, e4]

/-- Raw noise `1/5` gives humidity `3/5` as a `float`, between `9/16` and
`5/8`. -/
theorem sample_humidity_060 :
    humidity_of_noise (1 / 5) = roundFloat (3 / 5) ∧
      ((9 / 16) : ℚ) ≤ humidity_of_noise (1 / 5) ∧ humidity_of_noise (1 / 5) ≤ (5 / 8) := by
  have e1 : roundDouble ((1 / 5) + 1) = (5404319552844595 / 4503599627370496) := by
    rw [show (((1 / 5) : ℚ) + 1) = (6 / 5) by norm_num]
    exact roundDouble_eval (6 / 5) (0) (-52) 5404319552844595 (1 / 4503599627370496) (5404319552844595 / 4503599627370496)
        (by decide) (by norm_num) (by norm_num) (by norm_num) (by norm_num) (by norm_num)
        (by norm_num)
  have e2 : roundDouble ((5404319552844595 / 4503599627370496) / 2) = (5404319552844595 / 9007199254740992) :=
    roundDouble_eval ((5404319552844595 / 4503599627370496) / 2) (-1) (-53) 5404319552844595 (1 / 9007199254740992) (5404319552844595 / 9007199254740992)
      (by decide) (by norm_num) (by norm_num) (by norm_num) (by norm_num) (by norm_num)
      (by norm_num)
  have e3 : roundFloat (5404319552844595 / 9007199254740992) = (5033165 / 8388608) :=
    roundFloat_eval (5404319552844595 / 9007199254740992) (-1) (-24) 10066330 (1 / 16777216) (5033165 / 8388608)
      (by decide) (by norm_num) (by norm_num) (by norm_num) (by norm_num) (by norm_num)
      (by norm_num)
  have e4 : roundFloat (3 / 5) = (5033165 / 8388608) :=
    roundFloat_eval (3 / 5) (-1) (-24) 10066330 (1 / 16777216) (5033165 / 8388608)
      (by decide) (by norm_num) (by norm_num) (by norm_num) (by norm_num) (by norm_num)
      (by norm_num)
  have hb := humidity_of_noise_mem (1 / 5) 9 10 (by norm_num) (by norm_num) (by norm_num)
    (by norm_num)
  refine ⟨?_, by have := hb.1; norm_num at this ⊢; exact this,
    by have := hb.2; norm_num at this ⊢; exact this⟩
  unfold humidity_of_noise
  rw [e1, e2, if_neg (by norm_num), if_neg (by norm_num), e3, e4]

/-- Raw noise `4/5` gives humidity `9/10` as a `float`, between `7/8` and
`15/16`. -/
theorem sample_humidity_090 :
    humidity_of_noise (4 / 5) = roundFloat (9 / 10) ∧
      ((7 / 8) : ℚ) ≤ humidity_of_noise (4 / 5) ∧ humidity_of_noise (4 / 5) ≤ (15 / 16) := by
  have e1 : roundDouble ((4 / 5) + 1) = (8106479329266893 / 4503599627370496) := by
    rw [show (((4 / 5) : ℚ) + 1) = (9 / 5) by norm_num]
    exact roundDouble_eval (9 / 5) (0) (-52) 8106479329266893 (1 / 4503599627370496) (8106479329266893 / 4503599627370496)
        (by decide) (by norm_num) (by norm_num) (by norm_num) (by norm_num) (by norm_num)
        (by norm_num)
  have e2 : roundDouble ((8106479329266893 / 4503599627370496) / 2) = (8106479329266893 / 9007199254740992) :=
    roundDouble_eval ((8106479329266893 / 4503599627370496) / 2) (-1) (-53) 8106479329266893 (1 / 9007199254740992) (8106479329266893 / 9007199254740992)
      (by decide) (by norm_num) (by norm_num) (by norm_num) (by norm_num) (by norm_num)
      (by norm_num)
  have e3 : roundFloat (8106479329266893 / 9007199254740992) = (7549747 / 8388608) :=
    roundFloat_eval (8106479329266893 / 9007199254740992) (-1) (-24) 15099494 (1 / 16777216) (7549747 / 8388608)
      (by decide) (by norm_num) (by norm_num) (by norm_num) (by norm_num) (by norm_num)
      (by norm_num)
  have e4 : roundFloat (9 / 10) = (7549747 / 8388608) :=
    roundFloat_eval (9 / 10) (-1) (-24) 15099494 (1 / 16777216) (7549747 / 8388608)
      (by decide) (by norm_num) (by norm_num) (by norm_num) (by norm_num) (by norm_num)
      (by norm_num)
  have hb := humidity_of_noise_mem (4 / 5) 14 15 (by norm_num) (by norm_num) (by norm_num)
    (by norm_num)
  refine ⟨?_, by have := hb.1; norm_num at this ⊢; exact this,
    by have := hb.2; norm_num at this ⊢; exact this⟩
  unfold humidity_of_noise
  rw [e1, e2, if_neg (by norm_num), if_neg (by norm_num), e3, e4]

/-- The `float` nearest to 0.6. -/
theorem roundFloat_three_fifths : roundFloat (3 / 5) = (5033165 / 8388608) :=
  roundFloat_eval (3 / 5) (-1) (-24) 10066330 (1 / 16777216) (5033165 / 8388608)
    (by decide) (by norm_num) (by norm_num) (by norm_num) (by norm_num) (by norm_num)
    (by norm_num)

/-- The humidity bounds of the four sample noise values. -/
theorem sample_humidity_bounds :
    ((1 / 16 : ℚ) ≤ humidity_of_noise (-4 / 5) ∧ humidity_of_noise (-4 / 5) ≤ 1 / 8) ∧
      ((3 / 8 : ℚ) ≤ humidity_of_noise (-1 / 5) ∧ humidity_of_noise (-1 / 5) ≤ 7 / 16) ∧
      ((9 / 16 : ℚ) ≤ humidity_of_noise (1 / 5) ∧ humidity_of_noise (1 / 5) ≤ 5 / 8) ∧
      ((7 / 8 : ℚ) ≤ humidity_of_noise (4 / 5) ∧ humidity_of_noise (4 / 5) ≤ 15 / 16) :=
  ⟨sample_humidity_010.2, sample_humidity_040.2, sample_humidity_060.2, sample_humidity_090.2⟩

/-- When no overflow occurs (`MAP_BLOCKSIZE` and both ends of the block's Y
range fit `s16`), `node_min.Y` and `node_max.Y` are the plain integers
`blockpos.Y * MAP_BLOCKSIZE` and `blockpos.Y * MAP_BLOCKSIZE + MAP_BLOCKSIZE - 1`. -/
theorem node_y_exact (c : Constants) (bp : v3s16)
    (h1 : -32768 ≤ bp.Y * c.MAP_BLOCKSIZE)
    (h2 : bp.Y * c.MAP_BLOCKSIZE + c.MAP_BLOCKSIZE - 1 ≤ 32767)
    (h3 : 1 ≤ c.MAP_BLOCKSIZE) :
    node_min_y c bp = bp.Y * c.MAP_BLOCKSIZE ∧
      node_max_y c bp = bp.Y * c.MAP_BLOCKSIZE + c.MAP_BLOCKSIZE - 1 := by
  have e1 : node_min_y c bp = bp.Y * c.MAP_BLOCKSIZE := by
    rw [node_min_y_eq]
    exact s16_of_inRange h1 (by omega)
  refine ⟨e1, ?_⟩
  rw [node_max_y_eq, e1]
  exact s16_of_inRange (by omega) h2

/-! ## C1: the classifier is total -/

theorem calc_biome_ignores_previous (c : Constants) (eng : NoiseEngine) (data : BlockMakeData)
    (prev : Option Biome) :
    (calc_biome c eng { data with biome := prev }).biome = (calc_biome c eng data).biome := by
  rw [calc_biome_eq, calc_biome_eq]
  rfl

/-- C1: for every seed, block position and noise engine, `calc_biome` leaves
exactly one of the twelve biome tags in `data.biome`: the field holds a tag
after the call whatever it held before (also when nothing had been written),
the tag does not depend on the previous content of the field, and seed and
block position are left as they were. -/
theorem calc_biome_assigns_exactly_one_tag (c : Constants) (eng : NoiseEngine)
    (data : BlockMakeData) :
    (∃! b : Biome, (calc_biome c eng data).biome = some b ∧ b ∈ allBiomes ∧
        ∀ prev : Option Biome, (calc_biome c eng { data with biome := prev }).biome = some b) ∧
      (calc_biome c eng data).seed = data.seed ∧
      (calc_biome c eng data).blockpos = data.blockpos := by
  refine ⟨?_, by rw [calc_biome_eq], by rw [calc_biome_eq]⟩
  have hb := calc_biome_biome c eng data
  refine ⟨_, ⟨hb, ?_, ?_⟩, ?_⟩
  · generalize biome_rule _ _ _ _ = b
    cases b <;> simp [allBiomes]
  · intro prev
    rw [calc_biome_ignores_previous, hb]
  · rintro b2 ⟨hb2, -, -⟩
    rw [hb] at hb2
    exact (Option.some.inj hb2).symm

/-! ## C2: altitude gates -/

/-- C2: with `Ymin = node_min.Y` and `Ymax = node_max.Y` as `calc_biome`
computes them (`Ymin` is `blockpos.Y * MAP_BLOCKSIZE` and `Ymax` is
`Ymin + MAP_BLOCKSIZE - 1`, as `s16` values), for every seed and every noise
engine: `Ymin >= 1024` gives Space; otherwise `Ymin >= 256` gives Sky;
otherwise `Ymax <= -128` gives TheDeep. The engine, which fixes ground height
and humidity, is arbitrary, so the result does not depend on either. -/
theorem calc_biome_altitude_gates (c : Constants) (eng : NoiseEngine) (data : BlockMakeData)
    (Ymin Ymax : Int)
    (hmin : Ymin = s16 (data.blockpos.Y * c.MAP_BLOCKSIZE))
    (hmax : Ymax = s16 (Ymin + c.MAP_BLOCKSIZE - 1)) :
    (Ymin ≥ 1024 → (calc_biome c eng data).biome = some .BIOME_SPACE) ∧
      (¬ Ymin ≥ 1024 → Ymin ≥ 256 → (calc_biome c eng data).biome = some .BIOME_SKY) ∧
      (¬ Ymin ≥ 1024 → ¬ Ymin ≥ 256 → Ymax ≤ -128 →
        (calc_biome c eng data).biome = some .BIOME_THEDEEP) := by
  have e1 : node_min_y c data.blockpos = Ymin := by rw [hmin, node_min_y_eq]
  have e2 : node_max_y c data.blockpos = Ymax := by rw [hmax, node_max_y_eq, e1]
  rw [calc_biome_biome, e1, e2]
  unfold biome_rule
  refine ⟨fun h => ?_, fun h1 h2 => ?_, fun h1 h2 h3 => ?_⟩
  · rw [if_pos h]
  · rw [if_neg h1, if_pos h2]
  · rw [if_neg h1, if_neg h2, if_pos h3]

/-- Witness for C2: with 16-node blocks, the blocks at Y = 64, Y = 20 and
Y = -9 (node ranges 1024..1039, 320..335 and -144..-129) hit the three gates. -/
theorem calc_biome_altitude_gates_witness :
    (calc_biome sampleConstants (sampleEngine 0 0 0) (sampleData 64)).biome
        = some .BIOME_SPACE ∧
      (calc_biome sampleConstants (sampleEngine 0 0 0) (sampleData 20)).biome
        = some .BIOME_SKY ∧
      (calc_biome sampleConstants (sampleEngine 0 0 0) (sampleData (-9))).biome
        = some .BIOME_THEDEEP :=
  ⟨(calc_biome_altitude_gates sampleConstants (sampleEngine 0 0 0) (sampleData 64)
      1024 1039 (by decide) (by decide)).1 (by decide),
   (calc_biome_altitude_gates sampleConstants (sampleEngine 0 0 0) (sampleData 20)
      320 335 (by decide) (by decide)).2.1 (by decide) (by decide),
   (calc_biome_altitude_gates sampleConstants (sampleEngine 0 0 0) (sampleData (-9))
      (-144) (-129) (by decide) (by decide)).2.2 (by decide) (by decide) (by decide)⟩

/-! ## C3, C4: the height bands that the integer conversion does not move -/

/-- C3: for every block that passes the altitude gates (`node_min.Y < 256` and
`node_max.Y > -128`), with `A` the sector-average ground height of sector
`(blockpos.X, blockpos.Z)`: `A <= -10` gives Ocean and `A >= 40` gives SnowCap,
for every engine, hence whatever the humidity is. -/
theorem calc_biome_ocean_snowcap (c : Constants) (eng : NoiseEngine) (data : BlockMakeData)
    (hmin : node_min_y c data.blockpos < 256) (hmax : node_max_y c data.blockpos > -128) :
    (sector_average c eng data ≤ -10 → (calc_biome c eng data).biome = some .BIOME_OCEAN) ∧
      (sector_average c eng data ≥ 40 →
        (calc_biome c eng data).biome = some .BIOME_SNOWCAP) := by
  have g1 : ¬ node_min_y c data.blockpos ≥ 1024 := by omega
  have g2 : ¬ node_min_y c data.blockpos ≥ 256 := by omega
  have g3 : ¬ node_max_y c data.blockpos ≤ -128 := by omega
  rw [calc_biome_biome]
  unfold biome_rule
  rw [if_neg g1, if_neg g2, if_neg g3]
  constructor
  · intro hA
    have t1 : truncate (sector_average c eng data) ≤ -10 := by
      rw [truncate_le_iff_of_neg _ (by norm_num)]
      push_cast
      exact hA
    rw [if_pos t1]
  · intro hA
    have t2 : truncate (sector_average c eng data) ≥ 40 := by
      show (40 : Int) ≤ _
      rw [le_truncate_iff_of_pos _ (by norm_num)]
      push_cast
      exact hA
    have t1 : ¬ truncate (sector_average c eng data) ≤ -10 := by omega
    rw [if_neg t1, if_pos t2]

/-- Witness for C3: all sampled heights -24 give Ocean, all sampled heights 40
give SnowCap (block `(0, 0, 0)`, seed 42). -/
theorem calc_biome_ocean_snowcap_witness :
    (sector_average sampleConstants (sampleEngine (-1) (-1) 0) (sampleData 0) = -24 ∧
      (calc_biome sampleConstants (sampleEngine (-1) (-1) 0) (sampleData 0)).biome
        = some .BIOME_OCEAN) ∧
    (sector_average sampleConstants (sampleEngine (127 / 100) (127 / 100) 0) (sampleData 0)
        = 40 ∧
      (calc_biome sampleConstants (sampleEngine (127 / 100) (127 / 100) 0) (sampleData 0)).biome
        = some .BIOME_SNOWCAP) :=
  have a1 : sector_average sampleConstants (sampleEngine (-1) (-1) 0) (sampleData 0) = -24 := by
    rw [sample_sector_average, sampleHeight_neg_one]; norm_num
  have a2 : sector_average sampleConstants (sampleEngine (127 / 100) (127 / 100) 0)
      (sampleData 0) = 40 := by
    rw [sample_sector_average, sampleHeight_127]; norm_num
  ⟨⟨a1, (calc_biome_ocean_snowcap sampleConstants (sampleEngine (-1) (-1) 0) (sampleData 0)
      (by decide) (by decide)).1 (by rw [a1]; norm_num)⟩,
   ⟨a2, (calc_biome_ocean_snowcap sampleConstants (sampleEngine (127 / 100) (127 / 100) 0)
      (sampleData 0) (by decide) (by decide)).2 (ge_of_eq a2)⟩⟩

/-- C4: for every block that passes the altitude gates and whose sector-average
ground height `A` satisfies `-10 < A <= 2`, with `H` the humidity at the
sector's centre column: `H < 0.5` gives Beach and `H >= 0.5` gives Lake. -/
theorem calc_biome_beach_lake (c : Constants) (eng : NoiseEngine) (data : BlockMakeData)
    (hmin : node_min_y c data.blockpos < 256) (hmax : node_max_y c data.blockpos > -128)
    (hA1 : -10 < sector_average c eng data) (hA2 : sector_average c eng data ≤ 2) :
    (centre_humidity c eng data < 1 / 2 →
        (calc_biome c eng data).biome = some .BIOME_BEACH) ∧
      (centre_humidity c eng data ≥ 1 / 2 →
        (calc_biome c eng data).biome = some .BIOME_LAKE) := by
  have g1 : ¬ node_min_y c data.blockpos ≥ 1024 := by omega
  have g2 : ¬ node_min_y c data.blockpos ≥ 256 := by omega
  have g3 : ¬ node_max_y c data.blockpos ≤ -128 := by omega
  have t1 : ¬ truncate (sector_average c eng data) ≤ -10 := by
    rw [truncate_le_iff_of_neg _ (by norm_num)]
    push_cast
    linarith
  have t3 : truncate (sector_average c eng data) ≤ 2 := by
    rw [truncate_le_iff_of_nonneg _ (by norm_num)]
    push_cast
    linarith
  have t2 : ¬ truncate (sector_average c eng data) ≥ 40 := by omega
  rw [calc_biome_biome]
  unfold biome_rule
  rw [if_neg g1, if_neg g2, if_neg g3, if_neg t1, if_neg t2, if_pos t3]
  constructor
  · intro hH
    rw [if_pos hH]
  · intro hH
    rw [if_neg (not_lt.mpr hH)]

/-- Witness for C4: all sampled heights 1 with humidity 0.1 give Beach, with
humidity 0.6 give Lake (block `(0, 0, 0)`, seed 42; the humidities are the
`float` values nearest to 0.1 and 0.6). -/
theorem calc_biome_beach_lake_witness :
    (sector_average sampleConstants (sampleEngine 0 0 (-4 / 5)) (sampleData 0) = 1 ∧
      centre_humidity sampleConstants (sampleEngine 0 0 (-4 / 5)) (sampleData 0)
        = roundFloat (1 / 10) ∧
      (calc_biome sampleConstants (sampleEngine 0 0 (-4 / 5)) (sampleData 0)).biome
        = some .BIOME_BEACH) ∧
    (sector_average sampleConstants (sampleEngine 0 0 (1 / 5)) (sampleData 0) = 1 ∧
      centre_humidity sampleConstants (sampleEngine 0 0 (1 / 5)) (sampleData 0)
        = roundFloat (3 / 5) ∧
      (calc_biome sampleConstants (sampleEngine 0 0 (1 / 5)) (sampleData 0)).biome
        = some .BIOME_LAKE) :=
  have a (n : ℚ) : sector_average sampleConstants (sampleEngine 0 0 n) (sampleData 0) = 1 := by
    rw [sample_sector_average, sampleHeight_zero]; norm_num
  have h1 : centre_humidity sampleConstants (sampleEngine 0 0 (-4 / 5)) (sampleData 0)
      = roundFloat (1 / 10) := by
    rw [sample_centre_humidity]
    exact sample_humidity_010.1
  have h2 : centre_humidity sampleConstants (sampleEngine 0 0 (1 / 5)) (sampleData 0)
      = roundFloat (3 / 5) := by
    rw [sample_centre_humidity]
    exact sample_humidity_060.1
  ⟨⟨a _, h1, (calc_biome_beach_lake sampleConstants (sampleEngine 0 0 (-4 / 5)) (sampleData 0)
      (by decide) (by decide) (by rw [a]; norm_num) (by rw [a]; norm_num)).1
      (by rw [sample_centre_humidity]; linarith [sample_humidity_010.2.2])⟩,
   ⟨a _, h2, (calc_biome_beach_lake sampleConstants (sampleEngine 0 0 (1 / 5)) (sampleData 0)
      (by decide) (by decide) (by rw [a]; norm_num) (by rw [a]; norm_num)).2
      (by rw [sample_centre_humidity]; linarith [sample_humidity_060.2.1])⟩⟩

/-! ## C5, C6, C7: the height bands whose lower end the integer conversion moves -/

/-- The tag the sample environment gets at block `(0, y, 0)`, seed 42. -/
theorem sample_calc_biome (eCorner eCentre n : ℚ) (y : Int) :
    (calc_biome sampleConstants (sampleEngine eCorner eCentre n) (sampleData y)).biome
      = some (biome_rule (node_min_y sampleConstants ⟨0, y, 0⟩)
          (node_max_y sampleConstants ⟨0, y, 0⟩)
          (truncate ((4 * (sampleHeight eCorner : ℚ) + sampleHeight eCentre) / 5))
          (humidity_of_noise n)) := by
  rw [calc_biome_biome, sample_sector_average, sample_centre_humidity]
  rfl

theorem node_y_sample_zero :
    node_min_y sampleConstants ⟨0, 0, 0⟩ = 0 ∧ node_max_y sampleConstants ⟨0, 0, 0⟩ = 15 := by
  decide

/-- Counterexample to C5 as stated: block `(0, 0, 0)` passes the altitude
gates, the four corner heights are 30 and the centre height is 31, so the
sector average is 30.2 (between 30 and 40), and the humidity is 0.1 (below
0.25); `calc_biome` writes Desert, not WoodLands. -/
theorem calc_biome_high_band_counterexample :
    node_min_y sampleConstants (sampleData 0).blockpos < 256 ∧
    node_max_y sampleConstants (sampleData 0).blockpos > -128 ∧
    30 < sector_average sampleConstants (sampleEngine (109 / 100) (111 / 100) (-4 / 5))
      (sampleData 0) ∧
    sector_average sampleConstants (sampleEngine (109 / 100) (111 / 100) (-4 / 5))
      (sampleData 0) < 40 ∧
    centre_humidity sampleConstants (sampleEngine (109 / 100) (111 / 100) (-4 / 5))
      (sampleData 0) < 1 / 4 ∧
    (calc_biome sampleConstants (sampleEngine (109 / 100) (111 / 100) (-4 / 5))
      (sampleData 0)).biome = some .BIOME_DESERT ∧
    (calc_biome sampleConstants (sampleEngine (109 / 100) (111 / 100) (-4 / 5))
      (sampleData 0)).biome ≠ some .BIOME_WOODLANDS := by
  have a : sector_average sampleConstants (sampleEngine (109 / 100) (111 / 100) (-4 / 5))
      (sampleData 0) = 151 / 5 := by
    rw [sample_sector_average, sampleHeight_109, sampleHeight_111]; norm_num
  have h : centre_humidity sampleConstants (sampleEngine (109 / 100) (111 / 100) (-4 / 5))
      (sampleData 0) < 1 / 4 := by
    rw [sample_centre_humidity]
    linarith [sample_humidity_010.2.2]
  have hl : humidity_of_noise (-(4 / 5)) < 1 / 4 := by
    rw [show (-(4 / 5) : ℚ) = -4 / 5 by norm_num]
    linarith [sample_humidity_010.2.2]
  have hl2 : humidity_of_noise (-(4 / 5)) < 1 / 2 := by linarith
  have t : truncate ((4 * ((30 : Int) : ℚ) + (31 : Int)) / 5) = 30 :=
    truncate_eq_of_nonneg (by norm_num) (by norm_num) (by norm_num)
  have b : (calc_biome sampleConstants (sampleEngine (109 / 100) (111 / 100) (-4 / 5))
      (sampleData 0)).biome = some .BIOME_DESERT := by
    rw [sample_calc_biome, sampleHeight_109, sampleHeight_111, t, node_y_sample_zero.1,
      node_y_sample_zero.2]
    norm_num [biome_rule, hl, hl2]
  refine ⟨by decide, by decide, by rw [a]; norm_num, by rw [a]; norm_num,
    h, b, ?_⟩
  rw [b]
  decide

/-- C5 (amended): for every block that passes the altitude gates and whose
sector-average ground height `A` satisfies `31 <= A < 40` (its integer part,
which is what `calc_biome` compares, is above 30 and below 40), with `H` the
humidity at the sector's centre column: `H < 0.25` gives WoodLands,
`0.25 <= H < 0.5` gives Forest and `H >= 0.5` gives Jungle. -/
theorem calc_biome_high_band (c : Constants) (eng : NoiseEngine) (data : BlockMakeData)
    (hmin : node_min_y c data.blockpos < 256) (hmax : node_max_y c data.blockpos > -128)
    (hA1 : 31 ≤ sector_average c eng data) (hA2 : sector_average c eng data < 40) :
    (centre_humidity c eng data < 1 / 4 →
        (calc_biome c eng data).biome = some .BIOME_WOODLANDS) ∧
      (1 / 4 ≤ centre_humidity c eng data → centre_humidity c eng data < 1 / 2 →
        (calc_biome c eng data).biome = some .BIOME_FOREST) ∧
      (1 / 2 ≤ centre_humidity c eng data →
        (calc_biome c eng data).biome = some .BIOME_JUNGLE) := by
  have g1 : ¬ node_min_y c data.blockpos ≥ 1024 := by omega
  have g2 : ¬ node_min_y c data.blockpos ≥ 256 := by omega
  have g3 : ¬ node_max_y c data.blockpos ≤ -128 := by omega
  have t4 : truncate (sector_average c eng data) > 30 := by
    show (30 : Int) + 1 ≤ _
    rw [le_truncate_iff_of_pos _ (by norm_num)]
    push_cast
    linarith
  have t2 : ¬ truncate (sector_average c eng data) ≥ 40 := by
    show ¬ (40 : Int) ≤ _
    rw [le_truncate_iff_of_pos _ (by norm_num)]
    push_cast
    linarith
  have t1 : ¬ truncate (sector_average c eng data) ≤ -10 := by omega
  have t3 : ¬ truncate (sector_average c eng data) ≤ 2 := by omega
  rw [calc_biome_biome]
  unfold biome_rule
  rw [if_neg g1, if_neg g2, if_neg g3, if_neg t1, if_neg t2, if_neg t3, if_pos t4]
  refine ⟨fun h => ?_, fun h1 h2 => ?_, fun h => ?_⟩
  · rw [if_pos h]
  · rw [if_neg (not_lt.mpr h1), if_pos h2]
  · rw [if_neg (not_lt.mpr (le_trans (by norm_num) h)), if_neg (not_lt.mpr h)]

/-- Witness for C5 (amended): all sampled heights 35 with humidity 0.1, 0.4
and 0.6 give WoodLands, Forest and Jungle (block `(0, 0, 0)`, seed 42). -/
theorem calc_biome_high_band_witness :
    (calc_biome sampleConstants (sampleEngine (118 / 100) (118 / 100) (-4 / 5))
        (sampleData 0)).biome = some .BIOME_WOODLANDS ∧
      (calc_biome sampleConstants (sampleEngine (118 / 100) (118 / 100) (-1 / 5))
        (sampleData 0)).biome = some .BIOME_FOREST ∧
      (calc_biome sampleConstants (sampleEngine (118 / 100) (118 / 100) (1 / 5))
        (sampleData 0)).biome = some .BIOME_JUNGLE :=
  have a (n : ℚ) : sector_average sampleConstants (sampleEngine (118 / 100) (118 / 100) n)
      (sampleData 0) = 35 := by
    rw [sample_sector_average, sampleHeight_118]; norm_num
  ⟨(calc_biome_high_band sampleConstants (sampleEngine (118 / 100) (118 / 100) (-4 / 5))
      (sampleData 0) (by decide) (by decide) (by rw [a]; norm_num) (by rw [a]; norm_num)).1
      (by
        rw [sample_centre_humidity]
        obtain ⟨⟨a1, a2⟩, ⟨b1, b2⟩, ⟨c1, c2⟩, ⟨d1, d2⟩⟩ := sample_humidity_bounds
        linarith),
   (calc_biome_high_band sampleConstants (sampleEngine (118 / 100) (118 / 100) (-1 / 5))
      (sampleData 0) (by decide) (by decide) (by rw [a]; norm_num) (by rw [a]; norm_num)).2.1
      (by
        rw [sample_centre_humidity]
        obtain ⟨⟨a1, a2⟩, ⟨b1, b2⟩, ⟨c1, c2⟩, ⟨d1, d2⟩⟩ := sample_humidity_bounds
        linarith)
      (by
        rw [sample_centre_humidity]
        obtain ⟨⟨a1, a2⟩, ⟨b1, b2⟩, ⟨c1, c2⟩, ⟨d1, d2⟩⟩ := sample_humidity_bounds
        linarith),
   (calc_biome_high_band sampleConstants (sampleEngine (118 / 100) (118 / 100) (1 / 5))
      (sampleData 0) (by decide) (by decide) (by rw [a]; norm_num) (by rw [a]; norm_num)).2.2
      (by
        rw [sample_centre_humidity]
        obtain ⟨⟨a1, a2⟩, ⟨b1, b2⟩, ⟨c1, c2⟩, ⟨d1, d2⟩⟩ := sample_humidity_bounds
        linarith)⟩

/-- Counterexample to C6 as stated: block `(0, 0, 0)` passes the altitude
gates, the four corner heights are 10 and the centre height is 11, so the
sector average is 10.2 (above 10, at most 30), and the humidity is 0.1 (below
0.25); `calc_biome` writes Plains, not Desert. -/
theorem calc_biome_middle_band_counterexample :
    node_min_y sampleConstants (sampleData 0).blockpos < 256 ∧
    node_max_y sampleConstants (sampleData 0).blockpos > -128 ∧
    10 < sector_average sampleConstants (sampleEngine (3 / 5) (63 / 100) (-4 / 5))
      (sampleData 0) ∧
    sector_average sampleConstants (sampleEngine (3 / 5) (63 / 100) (-4 / 5))
      (sampleData 0) ≤ 30 ∧
    centre_humidity sampleConstants (sampleEngine (3 / 5) (63 / 100) (-4 / 5))
      (sampleData 0) < 1 / 4 ∧
    (calc_biome sampleConstants (sampleEngine (3 / 5) (63 / 100) (-4 / 5))
      (sampleData 0)).biome = some .BIOME_PLAINS ∧
    (calc_biome sampleConstants (sampleEngine (3 / 5) (63 / 100) (-4 / 5))
      (sampleData 0)).biome ≠ some .BIOME_DESERT := by
  have a : sector_average sampleConstants (sampleEngine (3 / 5) (63 / 100) (-4 / 5))
      (sampleData 0) = 51 / 5 := by
    rw [sample_sector_average, sampleHeight_060, sampleHeight_063]; norm_num
  have h : centre_humidity sampleConstants (sampleEngine (3 / 5) (63 / 100) (-4 / 5))
      (sampleData 0) < 1 / 4 := by
    rw [sample_centre_humidity]
    linarith [sample_humidity_010.2.2]
  have hl : humidity_of_noise (-(4 / 5)) < 1 / 4 := by
    rw [show (-(4 / 5) : ℚ) = -4 / 5 by norm_num]
    linarith [sample_humidity_010.2.2]
  have hl2 : humidity_of_noise (-(4 / 5)) < 1 / 2 := by linarith
  have t : truncate ((4 * ((10 : Int) : ℚ) + (11 : Int)) / 5) = 10 :=
    truncate_eq_of_nonneg (by norm_num) (by norm_num) (by norm_num)
  have b : (calc_biome sampleConstants (sampleEngine (3 / 5) (63 / 100) (-4 / 5))
      (sampleData 0)).biome = some .BIOME_PLAINS := by
    rw [sample_calc_biome, sampleHeight_060, sampleHeight_063, t, node_y_sample_zero.1,
      node_y_sample_zero.2]
    norm_num [biome_rule, hl, hl2]
  refine ⟨by decide, by decide, by rw [a]; norm_num, by rw [a]; norm_num,
    h, b, ?_⟩
  rw [b]
  decide

/-- C6 (amended): for every block that passes the altitude gates and whose
sector-average ground height `A` satisfies `11 <= A < 31` (its integer part,
which is what `calc_biome` compares, is above 10 and at most 30), with `H` the
humidity at the sector's centre column: `H < 0.25` gives Desert,
`0.25 <= H < 0.5` gives WoodLands, `0.5 <= H < 0.75` gives Forest and
`H >= 0.75` gives Jungle. -/
theorem calc_biome_middle_band (c : Constants) (eng : NoiseEngine) (data : BlockMakeData)
    (hmin : node_min_y c data.blockpos < 256) (hmax : node_max_y c data.blockpos > -128)
    (hA1 : 11 ≤ sector_average c eng data) (hA2 : sector_average c eng data < 31) :
    (centre_humidity c eng data < 1 / 4 →
        (calc_biome c eng data).biome = some .BIOME_DESERT) ∧
      (1 / 4 ≤ centre_humidity c eng data → centre_humidity c eng data < 1 / 2 →
        (calc_biome c eng data).biome = some .BIOME_WOODLANDS) ∧
      (1 / 2 ≤ centre_humidity c eng data → centre_humidity c eng data < 3 / 4 →
        (calc_biome c eng data).biome = some .BIOME_FOREST) ∧
      (3 / 4 ≤ centre_humidity c eng data →
        (calc_biome c eng data).biome = some .BIOME_JUNGLE) := by
  have g1 : ¬ node_min_y c data.blockpos ≥ 1024 := by omega
  have g2 : ¬ node_min_y c data.blockpos ≥ 256 := by omega
  have g3 : ¬ node_max_y c data.blockpos ≤ -128 := by omega
  have t5 : truncate (sector_average c eng data) > 10 := by
    show (10 : Int) + 1 ≤ _
    rw [le_truncate_iff_of_pos _ (by norm_num)]
    push_cast
    linarith
  have t4' : truncate (sector_average c eng data) ≤ 30 := by
    rw [truncate_le_iff_of_nonneg _ (by norm_num)]
    push_cast
    linarith
  have t4 : ¬ truncate (sector_average c eng data) > 30 := by omega
  have t2 : ¬ truncate (sector_average c eng data) ≥ 40 := by omega
  have t1 : ¬ truncate (sector_average c eng data) ≤ -10 := by omega
  have t3 : ¬ truncate (sector_average c eng data) ≤ 2 := by omega
  rw [calc_biome_biome]
  unfold biome_rule
  rw [if_neg g1, if_neg g2, if_neg g3, if_neg t1, if_neg t2, if_neg t3, if_neg t4, if_pos t5]
  refine ⟨fun h => ?_, fun h1 h2 => ?_, fun h1 h2 => ?_, fun h => ?_⟩
  · rw [if_pos h]
  · rw [if_neg (not_lt.mpr h1), if_pos h2]
  · rw [if_neg (not_lt.mpr (le_trans (by norm_num) h1)), if_neg (not_lt.mpr h1), if_pos h2]
  · rw [if_neg (not_lt.mpr (le_trans (by norm_num) h)),
      if_neg (not_lt.mpr (le_trans (by norm_num) h)), if_neg (not_lt.mpr h)]

/-- Witness for C6 (amended): all sampled heights 17 with humidity 0.1, 0.4,
0.6 and 0.9 give Desert, WoodLands, Forest and Jungle (block `(0, 0, 0)`,
seed 42). -/
theorem calc_biome_middle_band_witness :
    (calc_biome sampleConstants (sampleEngine (4 / 5) (4 / 5) (-4 / 5))
        (sampleData 0)).biome = some .BIOME_DESERT ∧
      (calc_biome sampleConstants (sampleEngine (4 / 5) (4 / 5) (-1 / 5))
        (sampleData 0)).biome = some .BIOME_WOODLANDS ∧
      (calc_biome sampleConstants (sampleEngine (4 / 5) (4 / 5) (1 / 5))
        (sampleData 0)).biome = some .BIOME_FOREST ∧
      (calc_biome sampleConstants (sampleEngine (4 / 5) (4 / 5) (4 / 5))
        (sampleData 0)).biome = some .BIOME_JUNGLE :=
  have a (n : ℚ) : sector_average sampleConstants (sampleEngine (4 / 5) (4 / 5) n)
      (sampleData 0) = 17 := by
    rw [sample_sector_average, sampleHeight_080]; norm_num
  ⟨(calc_biome_middle_band sampleConstants (sampleEngine (4 / 5) (4 / 5) (-4 / 5))
      (sampleData 0) (by decide) (by decide) (by rw [a]; norm_num) (by rw [a]; norm_num)).1
      (by
        rw [sample_centre_humidity]
        obtain ⟨⟨a1, a2⟩, ⟨b1, b2⟩, ⟨c1, c2⟩, ⟨d1, d2⟩⟩ := sample_humidity_bounds
        linarith),
   (calc_biome_middle_band sampleConstants (sampleEngine (4 / 5) (4 / 5) (-1 / 5))
      (sampleData 0) (by decide) (by decide) (by rw [a]; norm_num) (by rw [a]; norm_num)).2.1
      (by
        rw [sample_centre_humidity]
        obtain ⟨⟨a1, a2⟩, ⟨b1, b2⟩, ⟨c1, c2⟩, ⟨d1, d2⟩⟩ := sample_humidity_bounds
        linarith)
      (by
        rw [sample_centre_humidity]
        obtain ⟨⟨a1, a2⟩, ⟨b1, b2⟩, ⟨c1, c2⟩, ⟨d1, d2⟩⟩ := sample_humidity_bounds
        linarith),
   (calc_biome_middle_band sampleConstants (sampleEngine (4 / 5) (4 / 5) (1 / 5))
      (sampleData 0) (by decide) (by decide) (by rw [a]; norm_num) (by rw [a]; norm_num)).2.2.1
      (by
        rw [sample_centre_humidity]
        obtain ⟨⟨a1, a2⟩, ⟨b1, b2⟩, ⟨c1, c2⟩, ⟨d1, d2⟩⟩ := sample_humidity_bounds
        linarith)
      (by
        rw [sample_centre_humidity]
        obtain ⟨⟨a1, a2⟩, ⟨b1, b2⟩, ⟨c1, c2⟩, ⟨d1, d2⟩⟩ := sample_humidity_bounds
        linarith),
   (calc_biome_middle_band sampleConstants (sampleEngine (4 / 5) (4 / 5) (4 / 5))
      (sampleData 0) (by decide) (by decide) (by rw [a]; norm_num) (by rw [a]; norm_num)).2.2.2
      (by
        rw [sample_centre_humidity]
        obtain ⟨⟨a1, a2⟩, ⟨b1, b2⟩, ⟨c1, c2⟩, ⟨d1, d2⟩⟩ := sample_humidity_bounds
        linarith)⟩

/-- Counterexample to C7 as stated: block `(0, 0, 0)` passes the altitude
gates, the four corner heights are 2 and the centre height is 3, so the sector
average is 2.2 (above 2, at most 10), and the humidity is 0.1 (below 0.25);
`calc_biome` writes Beach, not Plains. -/
theorem calc_biome_low_band_counterexample :
    node_min_y sampleConstants (sampleData 0).blockpos < 256 ∧
    node_max_y sampleConstants (sampleData 0).blockpos > -128 ∧
    2 < sector_average sampleConstants (sampleEngine (1 / 5) (3 / 10) (-4 / 5))
      (sampleData 0) ∧
    sector_average sampleConstants (sampleEngine (1 / 5) (3 / 10) (-4 / 5))
      (sampleData 0) ≤ 10 ∧
    centre_humidity sampleConstants (sampleEngine (1 / 5) (3 / 10) (-4 / 5))
      (sampleData 0) < 1 / 4 ∧
    (calc_biome sampleConstants (sampleEngine (1 / 5) (3 / 10) (-4 / 5))
      (sampleData 0)).biome = some .BIOME_BEACH ∧
    (calc_biome sampleConstants (sampleEngine (1 / 5) (3 / 10) (-4 / 5))
      (sampleData 0)).biome ≠ some .BIOME_PLAINS := by
  have a : sector_average sampleConstants (sampleEngine (1 / 5) (3 / 10) (-4 / 5))
      (sampleData 0) = 11 / 5 := by
    rw [sample_sector_average, sampleHeight_020, sampleHeight_030]; norm_num
  have h : centre_humidity sampleConstants (sampleEngine (1 / 5) (3 / 10) (-4 / 5))
      (sampleData 0) < 1 / 4 := by
    rw [sample_centre_humidity]
    linarith [sample_humidity_010.2.2]
  have hl : humidity_of_noise (-(4 / 5)) < 1 / 4 := by
    rw [show (-(4 / 5) : ℚ) = -4 / 5 by norm_num]
    linarith [sample_humidity_010.2.2]
  have hl2 : humidity_of_noise (-(4 / 5)) < 1 / 2 := by linarith
  have t : truncate ((4 * ((2 : Int) : ℚ) + (3 : Int)) / 5) = 2 :=
    truncate_eq_of_nonneg (by norm_num) (by norm_num) (by norm_num)
  have b : (calc_biome sampleConstants (sampleEngine (1 / 5) (3 / 10) (-4 / 5))
      (sampleData 0)).biome = some .BIOME_BEACH := by
    rw [sample_calc_biome, sampleHeight_020, sampleHeight_030, t, node_y_sample_zero.1,
      node_y_sample_zero.2]
    norm_num [biome_rule, hl, hl2]
  refine ⟨by decide, by decide, by rw [a]; norm_num, by rw [a]; norm_num,
    h, b, ?_⟩
  rw [b]
  decide

/-- C7 (amended): for every block that passes the altitude gates and whose
sector-average ground height `A` satisfies `3 <= A < 11` (its integer part,
which is what `calc_biome` compares, is above 2 and at most 10), with `H` the
humidity at the sector's centre column: `H < 0.25` gives Plains,
`0.25 <= H < 0.75` gives WoodLands and `H >= 0.75` gives Forest. -/
theorem calc_biome_low_band (c : Constants) (eng : NoiseEngine) (data : BlockMakeData)
    (hmin : node_min_y c data.blockpos < 256) (hmax : node_max_y c data.blockpos > -128)
    (hA1 : 3 ≤ sector_average c eng data) (hA2 : sector_average c eng data < 11) :
    (centre_humidity c eng data < 1 / 4 →
        (calc_biome c eng data).biome = some .BIOME_PLAINS) ∧
      (1 / 4 ≤ centre_humidity c eng data → centre_humidity c eng data < 3 / 4 →
        (calc_biome c eng data).biome = some .BIOME_WOODLANDS) ∧
      (3 / 4 ≤ centre_humidity c eng data →
        (calc_biome c eng data).biome = some .BIOME_FOREST) := by
  have g1 : ¬ node_min_y c data.blockpos ≥ 1024 := by omega
  have g2 : ¬ node_min_y c data.blockpos ≥ 256 := by omega
  have g3 : ¬ node_max_y c data.blockpos ≤ -128 := by omega
  have t3' : truncate (sector_average c eng data) ≥ 3 := by
    show (3 : Int) ≤ _
    rw [le_truncate_iff_of_pos _ (by norm_num)]
    push_cast
    linarith
  have t5' : truncate (sector_average c eng data) ≤ 10 := by
    rw [truncate_le_iff_of_nonneg _ (by norm_num)]
    push_cast
    linarith
  have t5 : ¬ truncate (sector_average c eng data) > 10 := by omega
  have t4 : ¬ truncate (sector_average c eng data) > 30 := by omega
  have t2 : ¬ truncate (sector_average c eng data) ≥ 40 := by omega
  have t1 : ¬ truncate (sector_average c eng data) ≤ -10 := by omega
  have t3 : ¬ truncate (sector_average c eng data) ≤ 2 := by omega
  rw [calc_biome_biome]
  unfold biome_rule
  rw [if_neg g1, if_neg g2, if_neg g3, if_neg t1, if_neg t2, if_neg t3, if_neg t4, if_neg t5]
  refine ⟨fun h => ?_, fun h1 h2 => ?_, fun h => ?_⟩
  · rw [if_pos h]
  · rw [if_neg (not_lt.mpr h1), if_pos h2]
  · rw [if_neg (not_lt.mpr (le_trans (by norm_num) h)), if_neg (not_lt.mpr h)]

/-- Witness for C7 (amended): all sampled heights 7 with humidity 0.1, 0.6 and
0.9 give Plains, WoodLands and Forest (block `(0, 0, 0)`, seed 42). -/
theorem calc_biome_low_band_witness :
    (calc_biome sampleConstants (sampleEngine (1 / 2) (1 / 2) (-4 / 5))
        (sampleData 0)).biome = some .BIOME_PLAINS ∧
      (calc_biome sampleConstants (sampleEngine (1 / 2) (1 / 2) (1 / 5))
        (sampleData 0)).biome = some .BIOME_WOODLANDS ∧
      (calc_biome sampleConstants (sampleEngine (1 / 2) (1 / 2) (4 / 5))
        (sampleData 0)).biome = some .BIOME_FOREST :=
  have a (n : ℚ) : sector_average sampleConstants (sampleEngine (1 / 2) (1 / 2) n)
      (sampleData 0) = 7 := by
    rw [sample_sector_average, sampleHeight_050]; norm_num
  ⟨(calc_biome_low_band sampleConstants (sampleEngine (1 / 2) (1 / 2) (-4 / 5))
      (sampleData 0) (by decide) (by decide) (by rw [a]; norm_num) (by rw [a]; norm_num)).1
      (by
        rw [sample_centre_humidity]
        obtain ⟨⟨a1, a2⟩, ⟨b1, b2⟩, ⟨c1, c2⟩, ⟨d1, d2⟩⟩ := sample_humidity_bounds
        linarith),
   (calc_biome_low_band sampleConstants (sampleEngine (1 / 2) (1 / 2) (1 / 5))
      (sampleData 0) (by decide) (by decide) (by rw [a]; norm_num) (by rw [a]; norm_num)).2.1
      (by
        rw [sample_centre_humidity]
        obtain ⟨⟨a1, a2⟩, ⟨b1, b2⟩, ⟨c1, c2⟩, ⟨d1, d2⟩⟩ := sample_humidity_bounds
        linarith)
      (by
        rw [sample_centre_humidity]
        obtain ⟨⟨a1, a2⟩, ⟨b1, b2⟩, ⟨c1, c2⟩, ⟨d1, d2⟩⟩ := sample_humidity_bounds
        linarith),
   (calc_biome_low_band sampleConstants (sampleEngine (1 / 2) (1 / 2) (4 / 5))
      (sampleData 0) (by decide) (by decide) (by rw [a]; norm_num) (by rw [a]; norm_num)).2.2
      (by
        rw [sample_centre_humidity]
        obtain ⟨⟨a1, a2⟩, ⟨b1, b2⟩, ⟨c1, c2⟩, ⟨d1, d2⟩⟩ := sample_humidity_bounds
        linarith)⟩

/-! ## C8: the scenario at block `(0, 20, 0)` -/

/-- Counterexample to C8 as stated: with 16-node blocks, seed 42 and block
position `(0, 20, 0)`, an engine whose sector-average ground height is 35 and
whose centre-column humidity is 0.6 (as a `float`) gets Sky, not Jungle: the
block's lowest node is at Y = 320, above the Sky gate at 256. -/
theorem calc_biome_scenario_counterexample :
    (sampleData 20).seed = 42 ∧ (sampleData 20).blockpos = ⟨0, 20, 0⟩ ∧
    sector_average sampleConstants (sampleEngine (118 / 100) (118 / 100) (1 / 5))
      (sampleData 20) = 35 ∧
    centre_humidity sampleConstants (sampleEngine (118 / 100) (118 / 100) (1 / 5))
      (sampleData 20) = roundFloat (3 / 5) ∧
    node_min_y sampleConstants (sampleData 20).blockpos = 320 ∧
    (calc_biome sampleConstants (sampleEngine (118 / 100) (118 / 100) (1 / 5))
      (sampleData 20)).biome = some .BIOME_SKY ∧
    (calc_biome sampleConstants (sampleEngine (118 / 100) (118 / 100) (1 / 5))
      (sampleData 20)).biome ≠ some .BIOME_JUNGLE := by
  have a : sector_average sampleConstants (sampleEngine (118 / 100) (118 / 100) (1 / 5))
      (sampleData 20) = 35 := by
    rw [sample_sector_average, sampleHeight_118]; norm_num
  have h : centre_humidity sampleConstants (sampleEngine (118 / 100) (118 / 100) (1 / 5))
      (sampleData 20) = roundFloat (3 / 5) := by
    rw [sample_centre_humidity]
    exact sample_humidity_060.1
  have y1 : node_min_y sampleConstants ⟨0, 20, 0⟩ = 320 := by decide
  have b : (calc_biome sampleConstants (sampleEngine (118 / 100) (118 / 100) (1 / 5))
      (sampleData 20)).biome = some .BIOME_SKY := by
    rw [sample_calc_biome, y1]
    norm_num [biome_rule]
  refine ⟨rfl, rfl, a, h, y1, b, ?_⟩
  rw [b]
  decide

/-- C8 (amended): for seed 42 and a block position `(0, y, 0)` that passes the
altitude gates, whenever the sector-average ground height is 35 and the
humidity at the sector's centre column is 0.6 (the `float` nearest to it, the
function returning a `float`), `calc_biome` assigns Jungle;
with `MAP_BLOCKSIZE = 16` the block `(0, 20, 0)` itself does not pass the
gates and is assigned Sky, whatever the noise engine returns. -/
theorem calc_biome_scenario (c : Constants) (eng : NoiseEngine) (prev : Option Biome)
    (y : Int) :
    (node_min_y c ⟨0, y, 0⟩ < 256 → node_max_y c ⟨0, y, 0⟩ > -128 →
      sector_average c eng ⟨42, ⟨0, y, 0⟩, prev⟩ = 35 →
      centre_humidity c eng ⟨42, ⟨0, y, 0⟩, prev⟩ = roundFloat (3 / 5) →
      (calc_biome c eng ⟨42, ⟨0, y, 0⟩, prev⟩).biome = some .BIOME_JUNGLE) ∧
    (c.MAP_BLOCKSIZE = 16 →
      (calc_biome c eng ⟨42, ⟨0, 20, 0⟩, prev⟩).biome = some .BIOME_SKY) := by
  constructor
  · intro hmin hmax hA hH
    have g1 : ¬ node_min_y c ⟨0, y, 0⟩ ≥ 1024 := by omega
    have g2 : ¬ node_min_y c ⟨0, y, 0⟩ ≥ 256 := by omega
    have g3 : ¬ node_max_y c ⟨0, y, 0⟩ ≤ -128 := by omega
    have t : truncate (35 : ℚ) = 35 :=
      truncate_eq_of_nonneg (by norm_num) (by norm_num) (by norm_num)
    rw [calc_biome_biome, hA, hH, t, roundFloat_three_fifths]
    unfold biome_rule
    rw [if_neg g1, if_neg g2, if_neg g3]
    norm_num
  · intro hB
    have y1 : node_min_y c ⟨0, 20, 0⟩ = 320 := by
      rw [node_min_y_eq, hB]
      decide
    rw [calc_biome_biome]
    unfold biome_rule
    rw [y1]
    norm_num

/-- Witness for C8 (amended): with 16-node blocks the block `(0, 15, 0)` (nodes
240..255) passes the gates; with sector average 35 and humidity 0.6 it gets
Jungle. -/
theorem calc_biome_scenario_witness :
    (node_min_y sampleConstants ⟨0, 15, 0⟩ = 240 ∧
      node_max_y sampleConstants ⟨0, 15, 0⟩ = 255) ∧
    (calc_biome sampleConstants (sampleEngine (118 / 100) (118 / 100) (1 / 5))
      ⟨42, ⟨0, 15, 0⟩, none⟩).biome = some .BIOME_JUNGLE :=
  ⟨by decide,
   (calc_biome_scenario sampleConstants (sampleEngine (118 / 100) (118 / 100) (1 / 5)) none
      15).1 (by decide) (by decide)
      (by rw [show (⟨42, ⟨0, 15, 0⟩, none⟩ : BlockMakeData) = sampleData 15 from rfl,
            sample_sector_average, sampleHeight_118]; norm_num)
      (by rw [show (⟨42, ⟨0, 15, 0⟩, none⟩ : BlockMakeData) = sampleData 15 from rfl,
            sample_centre_humidity]; exact sample_humidity_060.1)⟩

/-! ## C9: ground height -/

/-- Truncation toward zero: the result is no farther from zero than the
argument and differs from it by less than one. -/
theorem truncate_spec (q : ℚ) :
    |((truncate q : Int) : ℚ)| ≤ |q| ∧ |q - (truncate q : Int)| < 1 := by
  unfold truncate
  split_ifs with h
  · have h1 : ((⌊q⌋ : Int) : ℚ) ≤ q := Int.floor_le q
    have h2 : q < ⌊q⌋ + 1 := Int.lt_floor_add_one q
    have h3 : (0 : ℚ) ≤ ⌊q⌋ := by exact_mod_cast Int.floor_nonneg.mpr h
    rw [abs_of_nonneg h3, abs_of_nonneg h, abs_of_nonneg (by linarith)]
    exact ⟨h1, by linarith⟩
  · have hq : q < 0 := not_le.mp h
    have h1 : q ≤ ⌈q⌉ := Int.le_ceil q
    have h2 : ((⌈q⌉ : Int) : ℚ) < q + 1 := Int.ceil_lt_add_one q
    have h3 : ((⌈q⌉ : Int) : ℚ) ≤ 0 := by
      exact_mod_cast Int.ceil_le.mpr (by simpa using hq.le)
    rw [abs_of_nonpos h3, abs_of_neg hq, abs_of_nonpos (by linarith)]
    exact ⟨by linarith, by linarith⟩

theorem toS16_of_fits {q : ℚ} (h1 : -32769 < q) (h2 : q < 32768) : toS16 q = truncate q := by
  apply toS16_of_truncate_inRange
  · rw [le_truncate_iff_of_nonpos q (by norm_num)]
    push_cast
    linarith
  · rw [truncate_le_iff_of_nonneg q (by norm_num)]
    push_cast
    linarith

/-- The `double` nearest to -0.12. -/
theorem roundDouble_neg_012 : roundDouble (-12 / 100) = (-1080863910568919 / 9007199254740992) := by
  rw [show (-12 / 100 : ℚ) = -(3 / 25) by norm_num, roundDouble_neg,
    roundDouble_eval (3 / 25) (-4) (-56) 8646911284551352 (1 / 72057594037927936) (1080863910568919 / 9007199254740992)
        (by decide) (by norm_num) (by norm_num) (by norm_num) (by norm_num) (by norm_num)
        (by norm_num)]
  norm_num

/-- The `double` product of 25 and the `double` nearest to -0.12 is -3. -/
theorem roundDouble_25_neg_012 : roundDouble (25 * (-1080863910568919 / 9007199254740992)) = -3 := by
  rw [show (25 * (-1080863910568919 / 9007199254740992) : ℚ) = -(25 * (1080863910568919 / 9007199254740992)) by norm_num, roundDouble_neg,
    roundDouble_eval (25 * (1080863910568919 / 9007199254740992)) (1) (-51) 6755399441055744 (1 / 2251799813685248) 3
        (by decide) (by norm_num) (by norm_num) (by norm_num) (by norm_num) (by norm_num)
        (by norm_num)]

/-- C9: with `e = noise2d_perlin(x/200, z/200, seed, 4, 0.5)` (the seed is
passed on as it is, the two quotients are `double` divisions), `e2 = e^1.9`
when `e > 0` and `e2 = e` otherwise, and `v = (WATER_LEVEL+1) + 25*e2` in the
`double` arithmetic of the code, `get_ground_height(seed, (x, z))` is `v`
converted to `int16_t`: when the integer part of `v` fits 16 bits it is `v`
truncated toward zero. The result depends on the engine only through `e` and
the value of `pow` at `e`, so equal seed and column give equal results. -/
theorem get_ground_height_formula (c : Constants) (eng eng2 : NoiseEngine) (seed : Nat)
    (x z : Int) (e e2 v : ℚ)
    (he : e = eng.noise2d_perlin (roundDouble ((x : ℚ) / 200)) (roundDouble ((z : ℚ) / 200))
      seed 4 (1 / 2))
    (he2 : e2 = if e > 0 then eng.pow e (19 / 10) else e)
    (hv : v = roundDouble (((c.WATER_LEVEL + 1 : Int) : ℚ) + roundDouble (25 * e2))) :
    (-32769 < v → v < 32768 →
      get_ground_height c eng seed ⟨x, z⟩ = truncate v ∧
      |((get_ground_height c eng seed ⟨x, z⟩ : Int) : ℚ)| ≤ |v| ∧
      |v - (get_ground_height c eng seed ⟨x, z⟩ : Int)| < 1) ∧
    (eng2.noise2d_perlin (roundDouble ((x : ℚ) / 200)) (roundDouble ((z : ℚ) / 200))
        seed 4 (1 / 2) = e →
      eng2.pow e (19 / 10) = eng.pow e (19 / 10) →
      get_ground_height c eng2 seed ⟨x, z⟩ = get_ground_height c eng seed ⟨x, z⟩) := by
  have main : get_ground_height c eng seed ⟨x, z⟩ = toS16 v := by
    rw [hv, he2, he]
    rfl
  refine ⟨fun h1 h2 => ?_, fun h1 h2 => ?_⟩
  · rw [main, toS16_of_fits h1 h2]
    exact ⟨rfl, truncate_spec v⟩
  · rw [main, hv, he2]
    unfold get_ground_height
    simp only [h1, h2]

/-- Witness for C9: water level 0, column `(0, 0)`. The noise value `e`, the
`double` nearest to -0.12, gives the `double` product `25*e = -3`, the sum
`v = -2` and ground height -2, where the exact sum `1 + 25*e` is above -2 and
truncates to -1. The noise value 1.09 with `pow(1.09, 1.9) = 1.178` gives
ground height 30. -/
theorem get_ground_height_formula_witness :
    roundDouble (-12 / 100) = (-1080863910568919 / 9007199254740992) ∧
      get_ground_height sampleConstants (sampleEngine (-1080863910568919 / 9007199254740992) 0 0) 42 ⟨0, 0⟩ = -2 ∧
      truncate (1 + 25 * (-1080863910568919 / 9007199254740992)) = -1 ∧
      get_ground_height sampleConstants (sampleEngine (109 / 100) 0 0) 42 ⟨0, 0⟩ = 30 := by
  have hp : ∀ e : ℚ, e = (sampleEngine e 0 0).noise2d_perlin
      (roundDouble (((0 : Int) : ℚ) / 200)) (roundDouble (((0 : Int) : ℚ) / 200)) 42 4 (1 / 2) := by
    intro e
    have c0 : roundDouble (((0 : Int) : ℚ) / 200) = roundDouble 0 := by norm_num
    rw [c0]
    have ne : (1 / 25 : ℚ) = 25⁻¹ := by norm_num
    simp [sampleEngine, ne ▸ sample_coordinates_ne.1]
  have f := get_ground_height_formula sampleConstants (sampleEngine (-1080863910568919 / 9007199254740992) 0 0)
    (sampleEngine (-1080863910568919 / 9007199254740992) 0 0) 42 0 0 (-1080863910568919 / 9007199254740992) (-1080863910568919 / 9007199254740992) (-2) (hp _)
    (by rw [if_neg (by norm_num)])
    (by rw [roundDouble_25_neg_012]
        norm_num [sampleConstants]
        exact (roundDouble_intCast (k := -2) (by norm_num)).symm)
  refine ⟨roundDouble_neg_012, ?_, ?_, ?_⟩
  · rw [(f.1 (by norm_num) (by norm_num)).1]
    exact truncate_eq_of_nonpos (by norm_num) (by norm_num) (by norm_num)
  · exact truncate_eq_of_nonpos (by norm_num) (by norm_num) (by norm_num)
  · rw [(sample_ground_height_stencil (109 / 100) 0 0).1, sampleHeight_109]

/-! ## C10: humidity -/

/-- The humidity the sample engine gives a column. -/
theorem sample_humidity (eCorner eCentre n : ℚ) (p : v2s16) :
    get_humidity (sampleEngine eCorner eCentre n) 42 p = humidity_of_noise n := by
  norm_num [get_humidity, sampleEngine, u64, humidity_of_noise]

/-- Counterexample to C10 as stated: the raw noise value `n = -2^-30` is a
`double`, and so are `n + 1` and `(n+1)/2 = 1073741823/2147483648`, which lies
in `[0, 1]` below 0.5; it has 30 significant bits and is not a `float`, and
`get_humidity`, which returns a `float`, returns 0.5. With all sampled heights
1, `calc_biome` therefore writes Lake, the tag of a humidity of at least 0.5. -/
theorem get_humidity_counterexample :
    roundDouble (-1 / 1073741824) = -1 / 1073741824 ∧
    max 0 (min 1 (((-1 / 1073741824 : ℚ) + 1) / 2)) = 1073741823 / 2147483648 ∧
    get_humidity (sampleEngine 0 0 (-1 / 1073741824)) 42 ⟨8, 8⟩ = 1 / 2 ∧
    get_humidity (sampleEngine 0 0 (-1 / 1073741824)) 42 ⟨8, 8⟩
      ≠ max 0 (min 1 (((-1 / 1073741824 : ℚ) + 1) / 2)) ∧
    (calc_biome sampleConstants (sampleEngine 0 0 (-1 / 1073741824)) (sampleData 0)).biome
      = some .BIOME_LAKE := by
  have e1 : roundDouble ((-1 / 1073741824 : ℚ) + 1) = 1073741823 / 1073741824 :=
    (congrArg roundDouble (by norm_num)).trans
      (roundDouble_eq_self 1073741823 (-30) (by norm_num) (by norm_num) (by norm_num))
  have e2 : roundDouble ((1073741823 / 1073741824 : ℚ) / 2) = 1073741823 / 2147483648 :=
    (congrArg roundDouble (by norm_num)).trans
      (roundDouble_eq_self 1073741823 (-31) (by norm_num) (by norm_num) (by norm_num))
  have e3 : roundFloat (1073741823 / 2147483648) = 1 / 2 :=
    roundFloat_eval (1073741823 / 2147483648) (-2) (-25) 16777216 (1 / 33554432) (1 / 2)
        (by decide) (by norm_num) (by norm_num) (by norm_num) (by norm_num) (by norm_num)
        (by norm_num)
  have hh : humidity_of_noise (-1 / 1073741824) = 1 / 2 := by
    unfold humidity_of_noise
    rw [e1, e2, if_neg (by norm_num), if_neg (by norm_num), e3]
  have hm : max 0 (min 1 (((-1 / 1073741824 : ℚ) + 1) / 2)) = 1073741823 / 2147483648 := by
    rw [min_eq_right (by norm_num), max_eq_right (by norm_num)]
    norm_num
  refine ⟨roundDouble_eq_self (-1) (-30) (by norm_num) (by norm_num) (by norm_num), hm, ?_, ?_,
    ?_⟩
  · rw [sample_humidity, hh]
  · rw [sample_humidity, hh, hm]
    norm_num
  · rw [sample_calc_biome, sampleHeight_zero, hh, node_y_sample_zero.1, node_y_sample_zero.2]
    have t : truncate ((4 * ((1 : Int) : ℚ) + (1 : Int)) / 5) = 1 :=
      truncate_eq_of_nonneg (by norm_num) (by norm_num) (by norm_num)
    rw [t]
    norm_num [biome_rule]

/-- C10 (amended): with `n = noise2d_perlin(x/500, z/500, seed+72384, 4, 0.5)`
(the two quotients are `double` divisions) and `h = (n+1)/2` computed in
`double`, `get_humidity` returns 0 when `h < 0`, 1 when `h > 1`, and otherwise
`h` narrowed to `float`. The result lies in `[0, 1]` for every value `n`; it
is 0 when `n <= -1` and 1 when `n >= 1`; for `-1 <= n <= 1` it is the `float`
nearest to `h` and differs from `(n+1)/2` by at most `2^-24`. -/
theorem get_humidity_clamped (eng : NoiseEngine) (seed : Nat) (p : v2s16) (n h : ℚ)
    (hn : n = eng.noise2d_perlin (roundDouble ((p.X : ℚ) / 500)) (roundDouble ((p.Y : ℚ) / 500))
      (u64 (seed + 72384)) 4 (1 / 2))
    (hh : h = roundDouble (roundDouble (n + 1) / 2)) :
    get_humidity eng seed p = (if h < 0 then 0 else if h > 1 then 1 else roundFloat h) ∧
      0 ≤ get_humidity eng seed p ∧ get_humidity eng seed p ≤ 1 ∧
      (n ≤ -1 → get_humidity eng seed p = 0) ∧
      (1 ≤ n → get_humidity eng seed p = 1) ∧
      (-1 ≤ n → n ≤ 1 → get_humidity eng seed p = roundFloat h ∧
        |get_humidity eng seed p - (n + 1) / 2| ≤ 1 / 16777216) := by
  have main : get_humidity eng seed p
      = if h < 0 then 0 else if h > 1 then 1 else roundFloat h := by
    rw [hh, hn]
    rfl
  have f0 : (0 : ℚ) ≤ h → (0 : ℚ) ≤ roundFloat h := fun h0 =>
    le_roundFloat 0 0 (by norm_num) (by norm_num) (by norm_num) h0
  have f1 : h ≤ 1 → roundFloat h ≤ 1 := fun h1 =>
    roundFloat_le 1 0 (by norm_num) (by norm_num) (by norm_num) h1
  refine ⟨main, ?_, ?_, fun hle => ?_, fun hge => ?_, fun h1 h2 => ?_⟩
  · rw [main]
    split_ifs with a b
    · exact le_refl 0
    · norm_num
    · exact f0 (not_lt.mp a)
  · rw [main]
    split_ifs with a b
    · norm_num
    · exact le_refl 1
    · exact f1 (not_lt.mp b)
  · have a1 : roundDouble (n + 1) ≤ 0 :=
      roundDouble_le 0 0 (by norm_num) (by norm_num) (by norm_num) (by linarith)
    have a2 : h ≤ 0 := by
      rw [hh]
      exact roundDouble_le 0 0 (by norm_num) (by norm_num) (by norm_num) (by linarith)
    rw [main]
    by_cases a : h < 0
    · rw [if_pos a]
    · have h0 : h = 0 := le_antisymm a2 (not_lt.mp a)
      rw [if_neg a, if_neg (by rw [h0]; norm_num), h0]
      exact roundBinary_zero 24 (-149)
  · have a1 : (2 : ℚ) ≤ roundDouble (n + 1) :=
      le_roundDouble 2 0 (by norm_num) (by norm_num) (by norm_num) (by linarith)
    have a2 : (1 : ℚ) ≤ h := by
      rw [hh]
      exact le_roundDouble 1 0 (by norm_num) (by norm_num) (by norm_num) (by linarith)
    rw [main, if_neg (by linarith)]
    by_cases b : h > 1
    · rw [if_pos b]
    · have h1 : h = 1 := le_antisymm (not_lt.mp b) a2
      rw [if_neg b, h1]
      exact roundFloat_eq_self 1 0 (by norm_num) (by norm_num) (by norm_num)
  · have a1 : (0 : ℚ) ≤ roundDouble (n + 1) :=
      le_roundDouble 0 0 (by norm_num) (by norm_num) (by norm_num) (by linarith)
    have a2 : roundDouble (n + 1) ≤ 2 :=
      roundDouble_le 2 0 (by norm_num) (by norm_num) (by norm_num) (by linarith)
    have b1 : (0 : ℚ) ≤ h := by
      rw [hh]
      exact le_roundDouble 0 0 (by norm_num) (by norm_num) (by norm_num) (by linarith)
    have b2 : h ≤ 1 := by
      rw [hh]
      exact roundDouble_le 1 0 (by norm_num) (by norm_num) (by norm_num) (by linarith)
    have r : get_humidity eng seed p = roundFloat h := by
      rw [main, if_neg (not_lt.mpr b1), if_neg (not_lt.mpr b2)]
    refine ⟨r, ?_⟩
    have E1 := roundBinary_abs_sub_le 53 (-1074) (by norm_num) (n + 1) 1 (by norm_num)
      (by rw [abs_le]; constructor <;> norm_num <;> linarith)
    have E2 := roundBinary_abs_sub_le 53 (-1074) (by norm_num) (roundDouble (n + 1) / 2) 0
      (by norm_num) (by rw [abs_le]; constructor <;> norm_num <;> linarith)
    have E3 := roundBinary_abs_sub_le 24 (-149) (by norm_num) h 0 (by norm_num)
      (by rw [abs_le]; constructor <;> norm_num <;> linarith)
    have z1 : (2 : ℚ) ^ ((1 : Int) - ((53 : Nat) : Int) - 1) = 1 / 9007199254740992 := by
      norm_num
    have z2 : (2 : ℚ) ^ ((0 : Int) - ((53 : Nat) : Int) - 1) = 1 / 18014398509481984 := by
      norm_num
    have z3 : (2 : ℚ) ^ ((0 : Int) - ((24 : Nat) : Int) - 1) = 1 / 33554432 := by norm_num
    rw [z1] at E1
    rw [z2] at E2
    rw [z3] at E3
    change |roundDouble (n + 1) - (n + 1)| ≤ _ at E1
    change |roundDouble (roundDouble (n + 1) / 2) - roundDouble (n + 1) / 2| ≤ _ at E2
    change |roundFloat h - h| ≤ _ at E3
    rw [← hh] at E2
    rw [abs_le] at E1 E2 E3
    rw [r, abs_le]
    constructor <;> linarith [E1.1, E1.2, E2.1, E2.2, E3.1, E3.2]

/-- Witness for C10 (amended): raw noise values -3 and 3 at column `(8, 8)`,
seed 42, give humidity 0 and 1; raw noise 0.2 gives `h`, the `double` nearest
to 0.6, and the humidity is the `float` nearest to 0.6. -/
theorem get_humidity_clamped_witness :
    get_humidity (sampleEngine 0 0 (-3)) 42 ⟨8, 8⟩ = 0 ∧
      get_humidity (sampleEngine 0 0 3) 42 ⟨8, 8⟩ = 1 ∧
      get_humidity (sampleEngine 0 0 (1 / 5)) 42 ⟨8, 8⟩ = (5033165 / 8388608) := by
  have hp : ∀ n : ℚ, n = (sampleEngine 0 0 n).noise2d_perlin
      (roundDouble (((8 : Int) : ℚ) / 500)) (roundDouble (((8 : Int) : ℚ) / 500))
      (u64 (42 + 72384)) 4 (1 / 2) := by
    intro n
    norm_num [sampleEngine, u64]
  have e1 : roundDouble ((1 / 5 : ℚ) + 1) = (5404319552844595 / 4503599627370496) :=
    (congrArg roundDouble (by norm_num)).trans
      (roundDouble_eval (6 / 5) (0) (-52) 5404319552844595 (1 / 4503599627370496) (5404319552844595 / 4503599627370496)
          (by decide) (by norm_num) (by norm_num) (by norm_num) (by norm_num) (by norm_num)
          (by norm_num))
  have e2 : roundDouble ((5404319552844595 / 4503599627370496) / 2) = (5404319552844595 / 9007199254740992) :=
    roundDouble_eval ((5404319552844595 / 4503599627370496) / 2) (-1) (-53) 5404319552844595 (1 / 9007199254740992) (5404319552844595 / 9007199254740992)
        (by decide) (by norm_num) (by norm_num) (by norm_num) (by norm_num) (by norm_num)
        (by norm_num)
  have e3 : roundFloat (5404319552844595 / 9007199254740992) = (5033165 / 8388608) :=
    roundFloat_eval (5404319552844595 / 9007199254740992) (-1) (-24) 10066330 (1 / 16777216) (5033165 / 8388608)
        (by decide) (by norm_num) (by norm_num) (by norm_num) (by norm_num) (by norm_num)
        (by norm_num)
  refine ⟨?_, ?_, ?_⟩
  · exact (get_humidity_clamped (sampleEngine 0 0 (-3)) 42 ⟨8, 8⟩ (-3) _ (hp _) rfl).2.2.2.1
      (by norm_num)
  · exact (get_humidity_clamped (sampleEngine 0 0 3) 42 ⟨8, 8⟩ 3 _ (hp _) rfl).2.2.2.2.1
      (by norm_num)
  · rw [((get_humidity_clamped (sampleEngine 0 0 (1 / 5)) 42 ⟨8, 8⟩ (1 / 5)
      (5404319552844595 / 9007199254740992) (hp _) (by rw [e1, e2])).2.2.2.2.2 (by norm_num) (by norm_num)).1, e3]

/-! ## C11: the sector average -/

theorem s16_idem (x : Int) : s16 (s16 x) = s16 x :=
  s16_of_inRange (s16_lower x) (s16_upper x)

/-- The box corner `node_max = (sectorpos+1)*MAP_BLOCKSIZE-1` of the sector
statistics is `node_min + MAP_BLOCKSIZE - 1` narrowed to `s16`. -/
theorem sector_node_max (c : Constants) (s : v2s16) :
    ((s.add ⟨1, 1⟩).mul c.MAP_BLOCKSIZE).sub ⟨1, 1⟩
      = v2s16.ofInts ((s.mul c.MAP_BLOCKSIZE).X + c.MAP_BLOCKSIZE - 1)
          ((s.mul c.MAP_BLOCKSIZE).Y + c.MAP_BLOCKSIZE - 1) := by
  have hx := node_max_Y c ⟨0, s.X, 0⟩
  have hy := node_max_Y c ⟨0, s.Y, 0⟩
  simp only [v3s16.add, v3s16.mul, v3s16.sub] at hx hy
  simp only [v2s16.add, v2s16.mul, v2s16.sub, v2s16.ofInts, hx, hy]

/-- The `double` quotient `a / 5.0` of `get_sector_average_ground_level` has
the integer part of the exact quotient: for a sum `s` of five `s16` heights,
rounding `s/5` to `double` does not cross an integer. -/
theorem sector_average_integer_part (s : Int) (hs : |s| ≤ 163840) :
    truncate (roundDouble ((s : ℚ) / 5)) = truncate ((s : ℚ) / 5) := by
  obtain ⟨h1, h2⟩ := abs_le.mp hs
  have hdm : (s : ℚ) = 5 * ((s / 5 : Int) : ℚ) + ((s % 5 : Int) : ℚ) := by
    exact_mod_cast (Int.ediv_add_emod s 5).symm
  have r0 : 0 ≤ s % 5 := Int.emod_nonneg s (by norm_num)
  have r4 : s % 5 < 5 := Int.emod_lt_of_pos s (by norm_num)
  have r0q : (0 : ℚ) ≤ ((s % 5 : Int) : ℚ) := by exact_mod_cast r0
  have r4q : ((s % 5 : Int) : ℚ) ≤ 4 := by exact_mod_cast (by omega : s % 5 ≤ 4)
  have kb : |s / 5| ≤ 40000 := by
    rw [abs_le]
    constructor <;> omega
  obtain ⟨k1, k2⟩ := abs_le.mp kb
  by_cases hr : s % 5 = 0
  · -- the quotient is an integer
    have hq : (s : ℚ) / 5 = ((s / 5 : Int) : ℚ) := by
      rw [hdm, hr]
      push_cast
      ring
    rw [hq, roundDouble_intCast (le_trans kb (by norm_num))]
  have r1q : (1 : ℚ) ≤ ((s % 5 : Int) : ℚ) := by exact_mod_cast (by omega : 1 ≤ s % 5)
  by_cases hpos : 0 ≤ s
  · have k0 : 0 ≤ s / 5 := by omega
    have lo : ((s / 5 : Int) : ℚ) ≤ (s : ℚ) / 5 := by
      rw [hdm]
      linarith
    have hi : (s : ℚ) / 5 ≤ ((8 * (s / 5) + 7 : Int) : ℚ) * 2 ^ (-3 : Int) := by
      rw [hdm]
      push_cast
      norm_num
      linarith
    have lo2 : ((s / 5 : Int) : ℚ) ≤ roundDouble ((s : ℚ) / 5) :=
      int_le_roundDouble (le_trans kb (by norm_num)) lo
    have hi2 : roundDouble ((s : ℚ) / 5) ≤ ((8 * (s / 5) + 7 : Int) : ℚ) * 2 ^ (-3 : Int) :=
      roundDouble_le (8 * (s / 5) + 7) (-3) rfl (by rw [abs_le]; constructor <;> omega)
        (by norm_num) hi
    rw [truncate_eq_of_nonneg k0 lo2 (by
        refine lt_of_le_of_lt hi2 ?_
        push_cast
        norm_num
        linarith),
      truncate_eq_of_nonneg k0 lo (by rw [hdm]; linarith)]
  · have k0 : s / 5 + 1 ≤ 0 := by omega
    have hi : (s : ℚ) / 5 ≤ ((s / 5 + 1 : Int) : ℚ) := by
      rw [hdm]
      push_cast
      linarith
    have lo : ((8 * (s / 5) + 1 : Int) : ℚ) * 2 ^ (-3 : Int) ≤ (s : ℚ) / 5 := by
      rw [hdm]
      push_cast
      norm_num
      linarith
    have hi2 : roundDouble ((s : ℚ) / 5) ≤ ((s / 5 + 1 : Int) : ℚ) :=
      roundDouble_le_int (by rw [abs_le]; constructor <;> omega) hi
    have lo2 : ((8 * (s / 5) + 1 : Int) : ℚ) * 2 ^ (-3 : Int) ≤ roundDouble ((s : ℚ) / 5) :=
      le_roundDouble (8 * (s / 5) + 1) (-3) rfl (by rw [abs_le]; constructor <;> omega)
        (by norm_num) lo
    rw [truncate_eq_of_nonpos k0 hi2 (by
        refine lt_of_lt_of_le ?_ lo2
        push_cast
        norm_num
        linarith),
      truncate_eq_of_nonpos k0 hi (by rw [hdm]; push_cast; linarith)]

/-- C11: with `node_min = s*MAP_BLOCKSIZE` and `node_max = node_min +
MAP_BLOCKSIZE - 1`, `get_sector_average_ground_level` is one fifth of the sum
of `get_ground_height` over the four corners and the centre
(`five_point_stencil`); the edge midpoints do not contribute: an engine that
gives the same heights at those five columns gives the same average. -/
theorem get_sector_average_ground_level_five_points (c : Constants) (eng eng2 : NoiseEngine)
    (data : BlockMakeData) (s : v2s16) :
    get_sector_average_ground_level c eng data s
        = ((five_point_stencil c s).map
            (fun p => (get_ground_height c eng data.seed p : ℚ))).sum / 5 ∧
      ((∀ p ∈ five_point_stencil c s,
          get_ground_height c eng2 data.seed p = get_ground_height c eng data.seed p) →
        get_sector_average_ground_level c eng2 data s
          = get_sector_average_ground_level c eng data s) := by
  have main : ∀ e : NoiseEngine, get_sector_average_ground_level c e data s
      = ((five_point_stencil c s).map
          (fun p => (get_ground_height c e data.seed p : ℚ))).sum / 5 := by
    intro e
    unfold get_sector_average_ground_level five_point_stencil
    dsimp only
    rw [sector_node_max]
    simp only [v2s16.ofInts, v2s16.mul, s16_idem, List.map_cons, List.map_nil, List.sum_cons,
      List.sum_nil, zero_add, add_zero, add_assoc]
  refine ⟨main eng, fun h => ?_⟩
  rw [main eng2, main eng]
  congr 1
  apply congrArg
  apply List.map_congr_left
  intro p hp
  rw [h p hp]

/-- The ground height a `pointEngine` gives with the sample constants. -/
theorem point_ground_height (px py eAt eElse : ℚ) (seed : Nat) (p : v2s16) :
    get_ground_height sampleConstants (pointEngine px py eAt eElse) seed p
      = sampleHeight (if roundDouble ((p.X : ℚ) / 200) = roundDouble px
          ∧ roundDouble ((p.Y : ℚ) / 200) = roundDouble py then eAt else eElse) := by
  simp [get_ground_height, pointEngine, sampleHeight, sampleConstants]

/-- The sample coordinates of the columns 0, 8 and 15 are pairwise different,
as simplification facts. -/
theorem sample_coordinates_cases :
    (roundDouble 0 = roundDouble (1 / 25) ↔ False) ∧
      (roundDouble 0 = roundDouble (3 / 40) ↔ False) ∧
      (roundDouble (1 / 25) = roundDouble 0 ↔ False) ∧
      (roundDouble (1 / 25) = roundDouble (3 / 40) ↔ False) ∧
      (roundDouble (3 / 40) = roundDouble 0 ↔ False) ∧
      (roundDouble (3 / 40) = roundDouble (1 / 25) ↔ False) := by
  obtain ⟨n1, n2, n3⟩ := sample_coordinates_ne
  exact ⟨iff_false_intro n1, iff_false_intro n3, iff_false_intro (Ne.symm n1),
    iff_false_intro (Ne.symm n2), iff_false_intro (Ne.symm n3), iff_false_intro n2⟩

theorem five_point_stencil_sample :
    five_point_stencil sampleConstants ⟨0, 0⟩
      = [⟨0, 0⟩, ⟨0, 15⟩, ⟨15, 15⟩, ⟨15, 0⟩, ⟨8, 8⟩] := by
  decide

theorem nine_point_stencil_sample :
    nine_point_stencil sampleConstants ⟨0, 0⟩
      = [⟨0, 0⟩, ⟨0, 15⟩, ⟨15, 15⟩, ⟨15, 0⟩, ⟨8, 8⟩, ⟨8, 0⟩, ⟨8, 15⟩, ⟨0, 8⟩, ⟨15, 8⟩] := by
  decide

/-- Witness for C11: two engines that differ at the edge midpoint `(8, 0)` of
sector `(0, 0)` (heights -24 and 1 there) and agree on the five stencil columns
give the same average. -/
theorem get_sector_average_ground_level_five_points_witness :
    get_ground_height sampleConstants (pointEngine (1 / 25) 0 (-1) 0) 42 ⟨8, 0⟩ = -24 ∧
      get_ground_height sampleConstants (pointEngine (1 / 25) 0 0 0) 42 ⟨8, 0⟩ = 1 ∧
      get_sector_average_ground_level sampleConstants (pointEngine (1 / 25) 0 (-1) 0)
          (sampleData 0) ⟨0, 0⟩
        = get_sector_average_ground_level sampleConstants (pointEngine (1 / 25) 0 0 0)
          (sampleData 0) ⟨0, 0⟩ := by
  obtain ⟨f1, f2, f3, f4, f5, f6⟩ := sample_coordinates_cases
  have e : (25 : ℚ)⁻¹ = 1 / 25 := by norm_num
  refine ⟨?_, ?_, (get_sector_average_ground_level_five_points sampleConstants
    (pointEngine (1 / 25) 0 0 0) (pointEngine (1 / 25) 0 (-1) 0) (sampleData 0) ⟨0, 0⟩).2 ?_⟩
  · rw [point_ground_height, if_pos (by norm_num), sampleHeight_neg_one]
  · rw [point_ground_height, if_pos (by norm_num), sampleHeight_zero]
  · rw [five_point_stencil_sample]
    intro p hp
    simp only [List.mem_cons, List.mem_singleton, List.not_mem_nil, or_false] at hp
    rcases hp with rfl | rfl | rfl | rfl | rfl <;>
      rw [point_ground_height, point_ground_height,
        if_neg (by norm_num [e, f1, f2, f3, f4, f5, f6]),
        if_neg (by norm_num [e, f1, f2, f3, f4, f5, f6])]

/-! ## C12: the maximum and minimum aggregates -/

/-- The maximum aggregate of sector `(0, 0)` under a `pointEngine` whose
special point is the corner column `(15, 0)`: the corner is not sampled. -/
theorem point_sector_maximum (eAt eElse : ℚ) :
    get_sector_maximum_ground_level sampleConstants (pointEngine (3 / 40) 0 eAt eElse)
      (sampleData 0) ⟨0, 0⟩ = max (-31000) (sampleHeight eElse : ℚ) := by
  obtain ⟨f1, f2, f3, f4, f5, f6⟩ := sample_coordinates_cases
  have e : (25 : ℚ)⁻¹ = 1 / 25 := by norm_num
  simp only [get_sector_maximum_ground_level, point_ground_height]
  norm_num [MYMAX, sampleConstants, sampleData, s16, v2s16.ofInts, v2s16.mul, v2s16.add,
    v2s16.sub, Int.tdiv, e, f1, f2, f3, f4, f5, f6]

/-- The minimum aggregate of sector `(0, 0)` under a `pointEngine` whose
special point is the corner column `(15, 0)`: the corner is not sampled. -/
theorem point_sector_minimum (eAt eElse : ℚ) :
    get_sector_minimum_ground_level sampleConstants (pointEngine (3 / 40) 0 eAt eElse)
      (sampleData 0) ⟨0, 0⟩ = min 31000 (sampleHeight eElse : ℚ) := by
  obtain ⟨f1, f2, f3, f4, f5, f6⟩ := sample_coordinates_cases
  have e : (25 : ℚ)⁻¹ = 1 / 25 := by norm_num
  simp only [get_sector_minimum_ground_level, point_ground_height]
  norm_num [MYMIN, sampleConstants, sampleData, s16, v2s16.ofInts, v2s16.mul, v2s16.add,
    v2s16.sub, Int.tdiv, e, f1, f2, f3, f4, f5, f6]

/-- C12 (the code at the failing input): in sector `(0, 0)` with 16-node
blocks, the corner `(max.X, min.Y) = (15, 0)` belongs to the nine-point
stencil. With ground height 30 at that corner and 1 at every other column,
`get_sector_maximum_ground_level` returns 1; with ground height -24 at that
corner and 1 elsewhere, `get_sector_minimum_ground_level` returns 1. Both
functions sample `(min.X, min.Y)` twice and `(max.X, min.Y)` never. -/
theorem sector_extrema_miss_corner :
    (⟨15, 0⟩ : v2s16) ∈ nine_point_stencil sampleConstants ⟨0, 0⟩ ∧
    (get_ground_height sampleConstants (pointEngine (3 / 40) 0 (109 / 100) 0) 42 ⟨15, 0⟩ = 30 ∧
      (∀ p ∈ nine_point_stencil sampleConstants ⟨0, 0⟩, p ≠ ⟨15, 0⟩ →
        get_ground_height sampleConstants (pointEngine (3 / 40) 0 (109 / 100) 0) 42 p = 1) ∧
      get_sector_maximum_ground_level sampleConstants (pointEngine (3 / 40) 0 (109 / 100) 0)
        (sampleData 0) ⟨0, 0⟩ = 1) ∧
    (get_ground_height sampleConstants (pointEngine (3 / 40) 0 (-1) 0) 42 ⟨15, 0⟩ = -24 ∧
      (∀ p ∈ nine_point_stencil sampleConstants ⟨0, 0⟩, p ≠ ⟨15, 0⟩ →
        get_ground_height sampleConstants (pointEngine (3 / 40) 0 (-1) 0) 42 p = 1) ∧
      get_sector_minimum_ground_level sampleConstants (pointEngine (3 / 40) 0 (-1) 0)
        (sampleData 0) ⟨0, 0⟩ = 1) := by
  obtain ⟨f1, f2, f3, f4, f5, f6⟩ := sample_coordinates_cases
  have e : (25 : ℚ)⁻¹ = 1 / 25 := by norm_num
  have others : ∀ eAt : ℚ, ∀ p ∈ nine_point_stencil sampleConstants ⟨0, 0⟩, p ≠ ⟨15, 0⟩ →
      get_ground_height sampleConstants (pointEngine (3 / 40) 0 eAt 0) 42 p = 1 := by
    intro eAt p hp hne
    rw [nine_point_stencil_sample] at hp
    simp only [List.mem_cons, List.mem_singleton, List.not_mem_nil, or_false] at hp
    rcases hp with rfl | rfl | rfl | rfl | rfl | rfl | rfl | rfl | rfl <;>
      first
        | exact absurd rfl hne
        | rw [point_ground_height, if_neg (by norm_num [e, f1, f2, f3, f4, f5, f6]),
            sampleHeight_zero]
  refine ⟨by rw [nine_point_stencil_sample]; decide, ⟨?_, others _, ?_⟩, ⟨?_, others _, ?_⟩⟩
  · rw [point_ground_height, if_pos (by norm_num), sampleHeight_109]
  · rw [point_sector_maximum, sampleHeight_zero]
    norm_num
  · rw [point_ground_height, if_pos (by norm_num), sampleHeight_neg_one]
  · rw [point_sector_minimum, sampleHeight_zero]
    norm_num

/-! ## C13: underground blocks -/

/-- The minimum aggregate is an integer between -32768 and 31000: the least of
the sentinel and of `s16` heights. -/
theorem get_sector_minimum_ground_level_int (c : Constants) (eng : NoiseEngine)
    (data : BlockMakeData) (s : v2s16) :
    ∃ m : Int, -32768 ≤ m ∧ m ≤ 31000 ∧
      get_sector_minimum_ground_level c eng data s = (m : ℚ) := by
  have step : ∀ (a : ℚ) (p : v2s16),
      (∃ m : Int, -32768 ≤ m ∧ m ≤ 31000 ∧ a = (m : ℚ)) →
      ∃ m : Int, -32768 ≤ m ∧ m ≤ 31000 ∧
        MYMIN a (get_ground_height c eng data.seed p) = (m : ℚ) := by
    rintro a p ⟨m, h1, h2, rfl⟩
    obtain ⟨g1, -⟩ := get_ground_height_inRange c eng data.seed p
    refine ⟨min m (get_ground_height c eng data.seed p), by omega, by omega, ?_⟩
    unfold MYMIN
    push_cast
    rfl
  unfold get_sector_minimum_ground_level
  dsimp only
  iterate 9 apply step
  exact ⟨31000, by norm_num, by norm_num, by norm_num⟩

/-- C13: `block_is_underground` returns true if and only if the block's top
face `blockpos.Y*MAP_BLOCKSIZE + MAP_BLOCKSIZE` is less than or equal to the
minimum ground level that `get_sector_minimum_ground_level` returns for sector
`(blockpos.X, blockpos.Z)`; in particular it is true when the two are equal. -/
theorem block_is_underground_iff (c : Constants) (eng : NoiseEngine) (data : BlockMakeData)
    (blockpos : v3s16) :
    (block_is_underground c eng data blockpos = true ↔
        ((blockpos.Y * c.MAP_BLOCKSIZE + c.MAP_BLOCKSIZE : Int) : ℚ)
          ≤ get_sector_minimum_ground_level c eng data ⟨blockpos.X, blockpos.Z⟩) ∧
      (((blockpos.Y * c.MAP_BLOCKSIZE + c.MAP_BLOCKSIZE : Int) : ℚ)
          = get_sector_minimum_ground_level c eng data ⟨blockpos.X, blockpos.Z⟩ →
        block_is_underground c eng data blockpos = true) := by
  obtain ⟨m, h1, h2, hm⟩ :=
    get_sector_minimum_ground_level_int c eng data ⟨blockpos.X, blockpos.Z⟩
  have key : block_is_underground c eng data blockpos = true ↔
      ((blockpos.Y * c.MAP_BLOCKSIZE + c.MAP_BLOCKSIZE : Int) : ℚ)
        ≤ get_sector_minimum_ground_level c eng data ⟨blockpos.X, blockpos.Z⟩ := by
    unfold block_is_underground
    dsimp only
    rw [hm, toS16_of_truncate_inRange (by rw [truncate_intCast]; exact h1)
      (by rw [truncate_intCast]; omega), truncate_intCast, Int.cast_le]
    split_ifs with h <;> simp [h]
  exact ⟨key, fun h => key.mpr (le_of_eq h)⟩

/-- The minimum aggregate of sector `(0, 0)` in the sample environment when
every column has noise value `e`. -/
theorem sample_sector_minimum (e n : ℚ) (y : Int) :
    get_sector_minimum_ground_level sampleConstants (sampleEngine e e n) (sampleData y)
      ⟨0, 0⟩ = min 31000 (sampleHeight e : ℚ) := by
  have h : ∀ p : v2s16, get_ground_height sampleConstants (sampleEngine e e n) 42 p
      = sampleHeight e := by
    intro p
    simp [get_ground_height, sampleEngine, sampleHeight, sampleConstants]
  simp only [get_sector_minimum_ground_level, sampleData, h]
  norm_num [MYMIN]

/-- Witness for C13: with 16-node blocks and minimum ground level 17 in sector
`(0, 0)`, the block at Y = 0 (top face 16) is underground and the block at
Y = 1 (top face 32) is not; with minimum ground level 1 the block at Y = -1
(top face 0) is underground. -/
theorem block_is_underground_iff_witness :
    block_is_underground sampleConstants (sampleEngine (4 / 5) (4 / 5) 0) (sampleData 0)
        ⟨0, 0, 0⟩ = true ∧
      block_is_underground sampleConstants (sampleEngine (4 / 5) (4 / 5) 0) (sampleData 0)
        ⟨0, 1, 0⟩ = false ∧
      block_is_underground sampleConstants (sampleEngine 0 0 0) (sampleData 0)
        ⟨0, -1, 0⟩ = true := by
  have m17 : get_sector_minimum_ground_level sampleConstants (sampleEngine (4 / 5) (4 / 5) 0)
      (sampleData 0) ⟨0, 0⟩ = 17 := by
    rw [sample_sector_minimum, sampleHeight_080]; norm_num
  have m1 : get_sector_minimum_ground_level sampleConstants (sampleEngine 0 0 0)
      (sampleData 0) ⟨0, 0⟩ = 1 := by
    rw [sample_sector_minimum, sampleHeight_zero]; norm_num
  refine ⟨?_, ?_, ?_⟩
  · exact (block_is_underground_iff sampleConstants (sampleEngine (4 / 5) (4 / 5) 0)
      (sampleData 0) ⟨0, 0, 0⟩).1.mpr (by rw [m17]; norm_num [sampleConstants])
  · have h := (block_is_underground_iff sampleConstants (sampleEngine (4 / 5) (4 / 5) 0)
      (sampleData 0) ⟨0, 1, 0⟩).1
    rw [m17] at h
    cases hb : block_is_underground sampleConstants (sampleEngine (4 / 5) (4 / 5) 0)
      (sampleData 0) ⟨0, 1, 0⟩
    · rfl
    · have := h.mp hb
      norm_num [sampleConstants] at this
  · exact (block_is_underground_iff sampleConstants (sampleEngine 0 0 0)
      (sampleData 0) ⟨0, -1, 0⟩).1.mpr (by rw [m1]; norm_num [sampleConstants])

/-! ## C14: caves -/

/-- C14: with `d1` and `d2` the values of `noise3d_param` at `p` for the
cave-noise-1 and cave-noise-2 parameter sets of the same seed, `is_cave` is
true if and only if the product `d1*d2`, computed in `double`, is strictly
greater than `CAVE_NOISE_THRESHOLD`; a product equal to the threshold is not a
cave. When the threshold is a `double` value, a cave has an exact product
above the threshold and an exact product equal to the threshold is not a
cave. -/
theorem is_cave_iff (c : Constants) (eng : NoiseEngine) (seed : Nat) (p : v3s16) (d1 d2 : ℚ)
    (h1 : d1 = eng.noise3d_param (get_cave_noise1_params c seed) p.X p.Y p.Z)
    (h2 : d2 = eng.noise3d_param (get_cave_noise2_params c seed) p.X p.Y p.Z) :
    (is_cave c eng seed p = true ↔ roundDouble (d1 * d2) > c.CAVE_NOISE_THRESHOLD) ∧
      (roundDouble (d1 * d2) = c.CAVE_NOISE_THRESHOLD → is_cave c eng seed p = false) ∧
      (∀ m j : Int, |m| ≤ 2 ^ 53 → -1074 ≤ j → c.CAVE_NOISE_THRESHOLD = (m : ℚ) * 2 ^ j →
        (is_cave c eng seed p = true → d1 * d2 > c.CAVE_NOISE_THRESHOLD) ∧
        (d1 * d2 = c.CAVE_NOISE_THRESHOLD → is_cave c eng seed p = false)) := by
  have key : is_cave c eng seed p = true ↔ roundDouble (d1 * d2) > c.CAVE_NOISE_THRESHOLD := by
    rw [h1, h2]
    unfold is_cave
    simp
  have eqf : roundDouble (d1 * d2) = c.CAVE_NOISE_THRESHOLD → is_cave c eng seed p = false := by
    intro h
    cases hb : is_cave c eng seed p
    · rfl
    · have := key.mp hb
      rw [h] at this
      exact absurd this (lt_irrefl _)
  refine ⟨key, eqf, fun m j hm hj ht => ⟨fun hc => ?_, fun he => ?_⟩⟩
  · by_contra hle
    have := roundDouble_le m j ht hm hj (not_lt.mp hle)
    exact absurd (key.mp hc) (not_lt.mpr this)
  · apply eqf
    rw [he]
    exact roundDouble_eq_self m j ht hm hj

/-- Witness for C14: with threshold 1/8, noise values 1/2 and 1/2 (product
1/4) give a cave, noise values 1/2 and 1/4 (product exactly 1/8) do not; the
`double` values `d1 = 0x1.0000000000001p-3` and `d2 = 0x1.fffffffffffffp-1`
have an exact product above 1/8 that the `double` multiplication rounds to
1/8, and are not a cave. -/
theorem is_cave_iff_witness :
    is_cave sampleConstants (caveEngine (1 / 2) (1 / 2)) 42 ⟨0, 0, 0⟩ = true ∧
      is_cave sampleConstants (caveEngine (1 / 2) (1 / 4)) 42 ⟨0, 0, 0⟩ = false ∧
      (4503599627370497 / 36028797018963968 : ℚ) * (9007199254740991 / 9007199254740992) > 1 / 8 ∧
      is_cave sampleConstants (caveEngine (4503599627370497 / 36028797018963968) (9007199254740991 / 9007199254740992))
        42 ⟨0, 0, 0⟩ = false := by
  have e1 : roundDouble ((1 / 2 : ℚ) * (1 / 2)) = 1 / 4 :=
    (roundDouble_eq_self 1 (-2) (by norm_num) (by norm_num) (by norm_num) :
      roundDouble ((1 / 2 : ℚ) * (1 / 2)) = 1 / 2 * (1 / 2)).trans (by norm_num)
  have e3 : roundDouble ((4503599627370497 / 36028797018963968) * (9007199254740991 / 9007199254740992)) = 1 / 8 :=
    (roundDouble_eval ((4503599627370497 / 36028797018963968) * (9007199254740991 / 9007199254740992)) (-3) (-55) 4503599627370496 (1 / 36028797018963968) (1 / 8)
        (by decide) (by norm_num) (by norm_num) (by norm_num) (by norm_num) (by norm_num)
        (by norm_num))
  refine ⟨?_, ?_, by norm_num, ?_⟩
  · exact (is_cave_iff sampleConstants (caveEngine (1 / 2) (1 / 2)) 42 ⟨0, 0, 0⟩ (1 / 2) (1 / 2)
      (by simp [caveEngine, get_cave_noise1_params])
      (by simp [caveEngine, get_cave_noise2_params])).1.mpr
      (by rw [e1]; norm_num [sampleConstants])
  · exact ((is_cave_iff sampleConstants (caveEngine (1 / 2) (1 / 4)) 42 ⟨0, 0, 0⟩ (1 / 2) (1 / 4)
      (by simp [caveEngine, get_cave_noise1_params])
      (by simp [caveEngine, get_cave_noise2_params])).2.2 1 (-3) (by norm_num) (by norm_num)
      (by norm_num [sampleConstants])).2 (by norm_num [sampleConstants])
  · exact (is_cave_iff sampleConstants
      (caveEngine (4503599627370497 / 36028797018963968) (9007199254740991 / 9007199254740992)) 42 ⟨0, 0, 0⟩
      (4503599627370497 / 36028797018963968) (9007199254740991 / 9007199254740992)
      (by simp [caveEngine, get_cave_noise1_params])
      (by simp [caveEngine, get_cave_noise2_params])).2.1
      (by rw [e3]; norm_num [sampleConstants])

/-! ## The density functions follow their rules -/

theorem get_tree_density_eq (c : Constants) (eng : NoiseEngine) (data : BlockMakeData)
    (p : v2s16) :
    get_tree_density c eng data p = tree_rule c data.biome
      (eng.noise2d_perlin (roundDouble (1 / 2 + roundFloat ((p.X : ℚ) / 125)))
        (roundDouble (1 / 2 + roundFloat ((p.Y : ℚ) / 125)))
        (u64 (data.seed + 2)) 4 (66 / 100)) := rfl

theorem get_grass_density_eq (c : Constants) (eng : NoiseEngine) (data : BlockMakeData)
    (p : v2s16) :
    get_grass_density c eng data p = grass_rule c data.biome
      (eng.noise2d_perlin (roundDouble (1 / 2 + roundFloat ((p.X : ℚ) / 125)))
        (roundDouble (1 / 2 + roundFloat ((p.Y : ℚ) / 125)))
        (u64 (data.seed + 2)) 4 (66 / 100)) := rfl

theorem debris_amount_2d_eq (eng : NoiseEngine) (seed : Nat) (p : v2s16) :
    debris_amount_2d eng seed p = debris_rule
      (eng.noise2d_perlin (roundDouble (1 / 2 + roundFloat ((p.X : ℚ) / 125)))
        (roundDouble (1 / 2 + roundFloat ((p.Y : ℚ) / 125)))
        (u64 (seed + 2)) 4 (7 / 10)) := rfl

theorem largestone_amount_2d_eq (eng : NoiseEngine) (seed : Nat) (p : v2s16) :
    largestone_amount_2d eng seed p = largestone_rule
      (eng.noise2d_perlin (roundDouble (1 / 2 + roundFloat ((p.X : ℚ) / 250)))
        (roundDouble (1 / 2 + roundFloat ((p.Y : ℚ) / 250)))
        (u64 (seed + 14143242)) 5 (66 / 100)) := rfl

theorem get_have_sand_eq (eng : NoiseEngine) (seed : Nat) (p : v2s16) :
    get_have_sand eng seed p = sand_rule
      (eng.noise2d_perlin (roundDouble (1 / 2 + roundFloat ((p.X : ℚ) / 500)))
        (roundDouble (1 / 2 + roundFloat ((p.Y : ℚ) / 500)))
        (u64 (seed + 59420)) 3 (1 / 2)) := rfl

/-- Conversion to `uint32_t` of a value whose integer part is `z`. -/
theorem toU32_eq_of_bounds {q : ℚ} {z : Nat} (h0 : (z : ℚ) ≤ q) (h1 : q < z + 1)
    (hz : z < 4294967296) : toU32 q = z := by
  have ht : truncate q = (z : Int) :=
    truncate_eq_of_nonneg (Int.natCast_nonneg z) (by exact_mod_cast h0) (by exact_mod_cast h1)
  unfold toU32
  rw [ht, if_pos ⟨by omega, by omega⟩]
  omega

/-- Conversion to `uint32_t` of a value in range is the floor. -/
theorem toU32_of_fits {q : ℚ} (h0 : 0 ≤ q) (h1 : q < 4294967296) :
    (toU32 q : Int) = ⌊q⌋ := by
  have hf0 : 0 ≤ ⌊q⌋ := Int.floor_nonneg.mpr h0
  have hf1 : ⌊q⌋ < 4294967296 := Int.floor_lt.mpr (by exact_mod_cast h1)
  unfold toU32 truncate
  rw [if_pos h0, if_pos ⟨by omega, by omega⟩]
  omega

/-- The `double` nearest to -0.39, the `zeroval` of the two density functions;
it lies above -0.39. -/
theorem roundDouble_neg_039 : roundDouble (-39 / 100) = (-3512807709348987 / 9007199254740992) :=
  ((congrArg roundDouble (show ((-39 / 100) : ℚ) = -(39 / 100) by norm_num)).trans
      ((roundDouble_neg _).trans ((congrArg (fun t : ℚ => -t)
        (roundDouble_eval (39 / 100) (-2) (-54) 7025615418697974 (1 / 18014398509481984) (3512807709348987 / 9007199254740992)
          (by decide) (by norm_num) (by norm_num) (by norm_num) (by norm_num) (by norm_num)
          (by norm_num))).trans
        (by norm_num))))

/-- The `double` nearest to 0.04. -/
theorem roundDouble_004 : roundDouble (4 / 100) = (5764607523034235 / 144115188075855872) :=
  (roundDouble_eval (4 / 100) (-5) (-57) 5764607523034235 (1 / 144115188075855872) (5764607523034235 / 144115188075855872)
      (by decide) (by norm_num) (by norm_num) (by norm_num) (by norm_num) (by norm_num)
      (by norm_num))

/-- The divisor `1.0 - zeroval` of the two density functions, in `double`. -/
theorem roundDouble_one_sub_zeroval :
    roundDouble (1 - (-3512807709348987 / 9007199254740992)) = (3130001741022495 / 2251799813685248) :=
  (roundDouble_eval_tie (1 - (-3512807709348987 / 9007199254740992)) (0) (-52) 6260003482044989 6260003482044990 (1 / 4503599627370496) (3130001741022495 / 2251799813685248)
      (by decide) (by norm_num) (by norm_num) (by norm_num) (by norm_num) (by decide)
      (by norm_num))

/-- The base count with the conditional in the order of the specification. -/
theorem base_count_def (c : Constants) (n : ℚ) :
    base_count c n = if n < roundDouble (-39 / 100) then 0
      else toU32 (roundDouble (roundDouble (roundDouble (roundDouble (4 / 100)
          * roundDouble (n - roundDouble (-39 / 100)))
        / roundDouble (1 - roundDouble (-39 / 100)))
        * ((c.MAP_BLOCKSIZE * c.MAP_BLOCKSIZE : Int) : ℚ))) := by
  unfold base_count
  by_cases h : n < roundDouble (-39 / 100)
  · rw [if_neg (not_le.mpr h), if_pos h]
  · rw [if_pos (not_lt.mp h), if_neg h]

/-- The base count with its three `double` constants written out. -/
theorem base_count_eq (c : Constants) (n : ℚ) :
    base_count c n = if n < (-3512807709348987 / 9007199254740992) then 0
      else toU32 (roundDouble (roundDouble (roundDouble ((5764607523034235 / 144115188075855872)
          * roundDouble (n - (-3512807709348987 / 9007199254740992)))
        / (3130001741022495 / 2251799813685248))
        * ((c.MAP_BLOCKSIZE * c.MAP_BLOCKSIZE : Int) : ℚ))) := by
  rw [base_count_def, roundDouble_neg_039, roundDouble_004, roundDouble_one_sub_zeroval]

/-- The base count of raw noise 0.5 with 16-node blocks. -/
theorem base_count_sample_half : base_count sampleConstants (1 / 2) = 6 := by
  have ea : roundDouble (1 / 2 - (-3512807709348987 / 9007199254740992)) = (8016407336719483 / 9007199254740992) :=
    ((roundDouble_eq_self (8016407336719483) (-53) (by norm_num) (by norm_num) (by norm_num) :
        roundDouble (1 / 2 - (-3512807709348987 / 9007199254740992)) = 1 / 2 - (-3512807709348987 / 9007199254740992)).trans (by norm_num))
  have eb : roundDouble ((5764607523034235 / 144115188075855872) * (8016407336719483 / 9007199254740992)) = (5130500695500469 / 144115188075855872) :=
    (roundDouble_eval ((5764607523034235 / 144115188075855872) * (8016407336719483 / 9007199254740992)) (-5) (-57) 5130500695500469 (1 / 144115188075855872) (5130500695500469 / 144115188075855872)
        (by decide) (by norm_num) (by norm_num) (by norm_num) (by norm_num) (by norm_num)
        (by norm_num))
  have eq : roundDouble ((5130500695500469 / 144115188075855872) / (3130001741022495 / 2251799813685248)) = (7382015389209307 / 288230376151711744) :=
    (roundDouble_eval ((5130500695500469 / 144115188075855872) / (3130001741022495 / 2251799813685248)) (-6) (-58) 7382015389209307 (1 / 288230376151711744) (7382015389209307 / 288230376151711744)
        (by decide) (by norm_num) (by norm_num) (by norm_num) (by norm_num) (by norm_num)
        (by norm_num))
  have ex : roundDouble ((7382015389209307 / 288230376151711744) * 256) = (7382015389209307 / 1125899906842624) :=
    ((roundDouble_eq_self (7382015389209307) (-50) (by norm_num) (by norm_num) (by norm_num) :
        roundDouble ((7382015389209307 / 288230376151711744) * 256) = (7382015389209307 / 288230376151711744) * 256).trans (by norm_num))
  have hB : ((sampleConstants.MAP_BLOCKSIZE * sampleConstants.MAP_BLOCKSIZE : Int) : ℚ) = 256 := by
    norm_num [sampleConstants]
  rw [base_count_eq, if_neg (by norm_num), ea, eb, eq, hB, ex]
  exact toU32_eq_of_bounds (by norm_num) (by norm_num) (by norm_num)

/-- The base count of raw noise 0 with 16-node blocks. -/
theorem base_count_sample_zero : base_count sampleConstants 0 = 2 := by
  have ea : roundDouble (0 - (-3512807709348987 / 9007199254740992)) = (3512807709348987 / 9007199254740992) :=
    ((roundDouble_eq_self (3512807709348987) (-53) (by norm_num) (by norm_num) (by norm_num) :
        roundDouble (0 - (-3512807709348987 / 9007199254740992)) = 0 - (-3512807709348987 / 9007199254740992)).trans (by norm_num))
  have eb : roundDouble ((5764607523034235 / 144115188075855872) * (3512807709348987 / 9007199254740992)) = (8992787735933407 / 576460752303423488) :=
    (roundDouble_eval ((5764607523034235 / 144115188075855872) * (3512807709348987 / 9007199254740992)) (-7) (-59) 8992787735933407 (1 / 576460752303423488) (8992787735933407 / 576460752303423488)
        (by decide) (by norm_num) (by norm_num) (by norm_num) (by norm_num) (by norm_num)
        (by norm_num))
  have eq : roundDouble ((8992787735933407 / 576460752303423488) / (3130001741022495 / 2251799813685248)) = (1617407866175073 / 144115188075855872) :=
    (roundDouble_eval ((8992787735933407 / 576460752303423488) / (3130001741022495 / 2251799813685248)) (-7) (-59) 6469631464700292 (1 / 576460752303423488) (1617407866175073 / 144115188075855872)
        (by decide) (by norm_num) (by norm_num) (by norm_num) (by norm_num) (by norm_num)
        (by norm_num))
  have ex : roundDouble ((1617407866175073 / 144115188075855872) * 256) = (1617407866175073 / 562949953421312) :=
    ((roundDouble_eq_self (1617407866175073) (-49) (by norm_num) (by norm_num) (by norm_num) :
        roundDouble ((1617407866175073 / 144115188075855872) * 256) = (1617407866175073 / 144115188075855872) * 256).trans (by norm_num))
  have hB : ((sampleConstants.MAP_BLOCKSIZE * sampleConstants.MAP_BLOCKSIZE : Int) : ℚ) = 256 := by
    norm_num [sampleConstants]
  rw [base_count_eq, if_neg (by norm_num), ea, eb, eq, hB, ex]
  exact toU32_eq_of_bounds (by norm_num) (by norm_num) (by norm_num)

theorem base_count_sample_neg_half : base_count sampleConstants (-1 / 2) = 0 := by
  rw [base_count_eq, if_pos (by norm_num)]

/-- The base count of the raw noise value `-0x1.045c28f5c28f6p-2` with 16-node
blocks: the `double` operations give exactly 1. -/
theorem base_count_sample_unit : base_count sampleConstants (-2290150779262075 / 9007199254740992) = 1 := by
  have ea : roundDouble (-2290150779262075 / 9007199254740992 - (-3512807709348987 / 9007199254740992)) = (139 / 1024) :=
    ((roundDouble_eq_self (139) (-10) (by norm_num) (by norm_num) (by norm_num) :
        roundDouble (-2290150779262075 / 9007199254740992 - (-3512807709348987 / 9007199254740992)) = -2290150779262075 / 9007199254740992 - (-3512807709348987 / 9007199254740992)).trans (by norm_num))
  have eb : roundDouble ((5764607523034235 / 144115188075855872) * (139 / 1024)) = (3130001741022495 / 576460752303423488) :=
    (roundDouble_eval ((5764607523034235 / 144115188075855872) * (139 / 1024)) (-8) (-60) 6260003482044990 (1 / 1152921504606846976) (3130001741022495 / 576460752303423488)
        (by decide) (by norm_num) (by norm_num) (by norm_num) (by norm_num) (by norm_num)
        (by norm_num))
  have eq : roundDouble ((3130001741022495 / 576460752303423488) / (3130001741022495 / 2251799813685248)) = (1 / 256) :=
    ((roundDouble_eq_self (1) (-8) (by norm_num) (by norm_num) (by norm_num) :
        roundDouble ((3130001741022495 / 576460752303423488) / (3130001741022495 / 2251799813685248)) = (3130001741022495 / 576460752303423488) / (3130001741022495 / 2251799813685248)).trans (by norm_num))
  have ex : roundDouble ((1 / 256) * 256) = 1 :=
    ((roundDouble_eq_self (1) (0) (by norm_num) (by norm_num) (by norm_num) :
        roundDouble ((1 / 256) * 256) = (1 / 256) * 256).trans (by norm_num))
  have hB : ((sampleConstants.MAP_BLOCKSIZE * sampleConstants.MAP_BLOCKSIZE : Int) : ℚ) = 256 := by
    norm_num [sampleConstants]
  rw [base_count_eq, if_neg (by norm_num), ea, eb, eq, hB, ex]
  exact toU32_eq_of_bounds (by norm_num) (by norm_num) (by norm_num)

/-- The base count of the raw noise value `0x1.1a3d70a3d70a4p-6` with 16-node
blocks: the `double` operations give a value just below 3. -/
theorem base_count_sample_below_three : base_count sampleConstants (1241304647293993 / 72057594037927936) = 2 := by
  have ea : roundDouble (1241304647293993 / 72057594037927936 - (-3512807709348987 / 9007199254740992)) = (417 / 1024) :=
    (roundDouble_eval (1241304647293993 / 72057594037927936 - (-3512807709348987 / 9007199254740992)) (-2) (-54) 7335941580521472 (1 / 18014398509481984) (417 / 1024)
        (by decide) (by norm_num) (by norm_num) (by norm_num) (by norm_num) (by norm_num)
        (by norm_num))
  have eb : roundDouble ((5764607523034235 / 144115188075855872) * (417 / 1024)) = (2347501305766871 / 144115188075855872) :=
    (roundDouble_eval ((5764607523034235 / 144115188075855872) * (417 / 1024)) (-6) (-58) 4695002611533742 (1 / 288230376151711744) (2347501305766871 / 144115188075855872)
        (by decide) (by norm_num) (by norm_num) (by norm_num) (by norm_num) (by norm_num)
        (by norm_num))
  have eq : roundDouble ((2347501305766871 / 144115188075855872) / (3130001741022495 / 2251799813685248)) = (6755399441055743 / 576460752303423488) :=
    (roundDouble_eval ((2347501305766871 / 144115188075855872) / (3130001741022495 / 2251799813685248)) (-7) (-59) 6755399441055743 (1 / 576460752303423488) (6755399441055743 / 576460752303423488)
        (by decide) (by norm_num) (by norm_num) (by norm_num) (by norm_num) (by norm_num)
        (by norm_num))
  have ex : roundDouble ((6755399441055743 / 576460752303423488) * 256) = (6755399441055743 / 2251799813685248) :=
    ((roundDouble_eq_self (6755399441055743) (-51) (by norm_num) (by norm_num) (by norm_num) :
        roundDouble ((6755399441055743 / 576460752303423488) * 256) = (6755399441055743 / 576460752303423488) * 256).trans (by norm_num))
  have hB : ((sampleConstants.MAP_BLOCKSIZE * sampleConstants.MAP_BLOCKSIZE : Int) : ℚ) = 256 := by
    norm_num [sampleConstants]
  rw [base_count_eq, if_neg (by norm_num), ea, eb, eq, hB, ex]
  exact toU32_eq_of_bounds (by norm_num) (by norm_num) (by norm_num)

/-- The intermediate values of the base count are not negative. -/
theorem base_count_value_nonneg (c : Constants) (n : ℚ) (h : roundDouble (-39 / 100) ≤ n) :
    0 ≤ roundDouble (roundDouble (roundDouble (roundDouble (4 / 100)
          * roundDouble (n - roundDouble (-39 / 100)))
        / roundDouble (1 - roundDouble (-39 / 100)))
        * ((c.MAP_BLOCKSIZE * c.MAP_BLOCKSIZE : Int) : ℚ)) := by
  have z0 : ∀ {y : ℚ}, 0 ≤ y → 0 ≤ roundDouble y := fun hy =>
    le_roundDouble 0 0 (by norm_num) (by norm_num) (by norm_num) hy
  have hz : roundDouble (-39 / 100) ≤ 0 :=
    roundDouble_le 0 0 (by norm_num) (by norm_num) (by norm_num) (by norm_num)
  have hB : (0 : ℚ) ≤ ((c.MAP_BLOCKSIZE * c.MAP_BLOCKSIZE : Int) : ℚ) := by
    exact_mod_cast mul_self_nonneg c.MAP_BLOCKSIZE
  exact z0 (mul_nonneg (z0 (div_nonneg (z0 (mul_nonneg (z0 (by norm_num)) (z0 (by linarith))))
    (z0 (by linarith)))) hB)

/-! ## C15: tree density -/

/-- Counterexample to C15 as stated, with 16-node blocks. The raw noise value
`n = 0x1.1a3d70a3d70a4p-6` is a `double`. `get_tree_density` has base count 2:
it returns 2 where no biome rule applies and 10 in Jungle. The stated formula
`0.04*(n+0.39)/1.39 * MAP_BLOCKSIZE^2` has integer part 3, both as an exact
value and when every constant and operation is rounded to `double` (the code
divides by `1.0 - zeroval`, a `double` different from the `double` nearest to
1.39). At the `double` `n = -0x1.045c28f5c28f6p-2` the function has base count
1 and returns 5 in Jungle, where the exact formula has integer part 0. -/
theorem get_tree_density_counterexample :
    roundDouble (1241304647293993 / 72057594037927936) = (1241304647293993 / 72057594037927936) ∧
    get_tree_density sampleConstants (sampleEngine 0 0 (1241304647293993 / 72057594037927936))
      (sampleData 0) ⟨0, 0⟩ = 2 ∧
    get_tree_density sampleConstants (sampleEngine 0 0 (1241304647293993 / 72057594037927936))
      { sampleData 0 with biome := some .BIOME_JUNGLE } ⟨0, 0⟩ = 10 ∧
    ¬ (((1241304647293993 / 72057594037927936) : ℚ) < -39 / 100) ∧
    toU32 (4 / 100 * ((1241304647293993 / 72057594037927936) + 39 / 100) / (139 / 100)
      * ((sampleConstants.MAP_BLOCKSIZE : Int) : ℚ) ^ 2) = 3 ∧
    toU32 (roundDouble (roundDouble (roundDouble (roundDouble (4 / 100)
        * roundDouble ((1241304647293993 / 72057594037927936) + roundDouble (39 / 100)))
      / roundDouble (139 / 100))
      * ((sampleConstants.MAP_BLOCKSIZE * sampleConstants.MAP_BLOCKSIZE : Int) : ℚ))) = 3 ∧
    roundDouble (1 - roundDouble (-39 / 100)) ≠ roundDouble (139 / 100) ∧
    roundDouble (-2290150779262075 / 9007199254740992) = (-2290150779262075 / 9007199254740992) ∧
    get_tree_density sampleConstants (sampleEngine 0 0 (-2290150779262075 / 9007199254740992))
      { sampleData 0 with biome := some .BIOME_JUNGLE } ⟨0, 0⟩ = 5 ∧
    ¬ (((-2290150779262075 / 9007199254740992) : ℚ) < -39 / 100) ∧
    toU32 (4 / 100 * ((-2290150779262075 / 9007199254740992) + 39 / 100) / (139 / 100)
      * ((sampleConstants.MAP_BLOCKSIZE : Int) : ℚ) ^ 2) = 0 := by
  have hB : ((sampleConstants.MAP_BLOCKSIZE * sampleConstants.MAP_BLOCKSIZE : Int) : ℚ) = 256 := by
    norm_num [sampleConstants]
  have hB2 : ((sampleConstants.MAP_BLOCKSIZE : Int) : ℚ) ^ 2 = 256 := by
    norm_num [sampleConstants]
  have ezp : roundDouble (39 / 100) = (3512807709348987 / 9007199254740992) :=
    (roundDouble_eval (39 / 100) (-2) (-54) 7025615418697974 (1 / 18014398509481984) (3512807709348987 / 9007199254740992)
        (by decide) (by norm_num) (by norm_num) (by norm_num) (by norm_num) (by norm_num)
        (by norm_num))
  have ed2 : roundDouble (139 / 100) = (6260003482044989 / 4503599627370496) :=
    (roundDouble_eval (139 / 100) (0) (-52) 6260003482044989 (1 / 4503599627370496) (6260003482044989 / 4503599627370496)
        (by decide) (by norm_num) (by norm_num) (by norm_num) (by norm_num) (by norm_num)
        (by norm_num))
  have ea : roundDouble ((1241304647293993 / 72057594037927936) + (3512807709348987 / 9007199254740992)) = (417 / 1024) :=
    (roundDouble_eval ((1241304647293993 / 72057594037927936) + (3512807709348987 / 9007199254740992)) (-2) (-54) 7335941580521472 (1 / 18014398509481984) (417 / 1024)
        (by decide) (by norm_num) (by norm_num) (by norm_num) (by norm_num) (by norm_num)
        (by norm_num))
  have eb : roundDouble ((5764607523034235 / 144115188075855872) * (417 / 1024)) = (2347501305766871 / 144115188075855872) :=
    (roundDouble_eval ((5764607523034235 / 144115188075855872) * (417 / 1024)) (-6) (-58) 4695002611533742 (1 / 288230376151711744) (2347501305766871 / 144115188075855872)
        (by decide) (by norm_num) (by norm_num) (by norm_num) (by norm_num) (by norm_num)
        (by norm_num))
  have eq : roundDouble ((2347501305766871 / 144115188075855872) / (6260003482044989 / 4503599627370496)) = (3 / 256) :=
    (roundDouble_eval ((2347501305766871 / 144115188075855872) / (6260003482044989 / 4503599627370496)) (-7) (-59) 6755399441055744 (1 / 576460752303423488) (3 / 256)
        (by decide) (by norm_num) (by norm_num) (by norm_num) (by norm_num) (by norm_num)
        (by norm_num))
  have ex : roundDouble ((3 / 256) * 256) = 3 :=
    ((roundDouble_eq_self (3) (0) (by norm_num) (by norm_num) (by norm_num) :
        roundDouble ((3 / 256) * 256) = (3 / 256) * 256).trans (by norm_num))
  have t2 : ∀ b : Option Biome, get_tree_density sampleConstants
      (sampleEngine 0 0 (1241304647293993 / 72057594037927936)) { sampleData 0 with biome := b } ⟨0, 0⟩
      = tree_rule sampleConstants b (1241304647293993 / 72057594037927936) := by
    intro b
    rw [get_tree_density_eq]
    norm_num [sampleEngine, sampleData, u64]
  have t1 : ∀ b : Option Biome, get_tree_density sampleConstants
      (sampleEngine 0 0 (-2290150779262075 / 9007199254740992)) { sampleData 0 with biome := b } ⟨0, 0⟩
      = tree_rule sampleConstants b (-2290150779262075 / 9007199254740992) := by
    intro b
    rw [get_tree_density_eq]
    norm_num [sampleEngine, sampleData, u64]
  refine ⟨roundDouble_eq_self (1241304647293993) (-56) (by norm_num) (by norm_num) (by norm_num), ?_, ?_,
    by norm_num, ?_, ?_, ?_,
    roundDouble_eq_self (-2290150779262075) (-53) (by norm_num) (by norm_num) (by norm_num), ?_,
    by norm_num, ?_⟩
  · have := t2 none
    rw [show ({ sampleData 0 with biome := none } : BlockMakeData) = sampleData 0 from rfl] at this
    rw [this]
    unfold tree_rule
    rw [base_count_sample_below_three]
    decide
  · rw [t2]
    unfold tree_rule
    rw [base_count_sample_below_three]
    decide
  · rw [hB2]
    exact toU32_eq_of_bounds (by norm_num) (by norm_num) (by norm_num)
  · rw [roundDouble_004, ezp, ed2, ea, eb, eq, hB, ex]
    exact toU32_eq_of_bounds (by norm_num) (by norm_num) (by norm_num)
  · rw [roundDouble_neg_039, roundDouble_one_sub_zeroval, ed2]
    norm_num
  · rw [t1]
    unfold tree_rule
    rw [base_count_sample_unit]
    decide
  · rw [hB2]
    exact toU32_eq_of_bounds (by norm_num) (by norm_num) (by norm_num)

/-- C15 (amended): with `n` the raw noise value of `get_tree_density` and
`z` the `double` nearest to -0.39, the base count `r` is 0 when `n < z` and
otherwise `x = ((0.04*(n-z)) / (1.0-z)) * MAP_BLOCKSIZE^2`, every constant and
every operation rounded to `double`, converted to `uint32_t` (its integer part
whenever that fits 32 bits). The result is: for Jungle or Forest, 20 if
`r = 0` else `5*r` (in `uint32_t` arithmetic, which is the plain product
whenever that fits 32 bits); for Lake, SnowCap or WoodLands, 5 if `r = 0` else
`r`; for Plains, `r / 5` (integer division); for every other biome, `r`. -/
theorem get_tree_density_rule (c : Constants) (eng : NoiseEngine) (data : BlockMakeData)
    (p : v2s16) (n z x : ℚ) (r : Nat)
    (hn : n = eng.noise2d_perlin (roundDouble (1 / 2 + roundFloat ((p.X : ℚ) / 125)))
      (roundDouble (1 / 2 + roundFloat ((p.Y : ℚ) / 125))) (u64 (data.seed + 2)) 4 (66 / 100))
    (hz : z = roundDouble (-39 / 100))
    (hx : x = roundDouble (roundDouble (roundDouble (roundDouble (4 / 100)
        * roundDouble (n - z)) / roundDouble (1 - z))
      * ((c.MAP_BLOCKSIZE * c.MAP_BLOCKSIZE : Int) : ℚ)))
    (hr : r = if n < z then 0 else toU32 x) :
    (data.biome = some .BIOME_JUNGLE ∨ data.biome = some .BIOME_FOREST →
        get_tree_density c eng data p = if r = 0 then 20 else u32 (5 * r)) ∧
      (data.biome = some .BIOME_LAKE ∨ data.biome = some .BIOME_SNOWCAP
          ∨ data.biome = some .BIOME_WOODLANDS →
        get_tree_density c eng data p = if r = 0 then 5 else r) ∧
      (data.biome = some .BIOME_PLAINS → get_tree_density c eng data p = r / 5) ∧
      (data.biome ≠ some .BIOME_JUNGLE → data.biome ≠ some .BIOME_FOREST →
        data.biome ≠ some .BIOME_LAKE → data.biome ≠ some .BIOME_SNOWCAP →
        data.biome ≠ some .BIOME_WOODLANDS → data.biome ≠ some .BIOME_PLAINS →
        get_tree_density c eng data p = r) ∧
      (z ≤ n → x < 4294967296 → (r : Int) = ⌊x⌋) ∧
      (5 * r < 4294967296 → u32 (5 * r) = 5 * r) := by
  have hb : base_count c n = r := by rw [base_count_def, hr, hx, hz]
  rw [get_tree_density_eq, ← hn]
  unfold tree_rule
  rw [hb]
  refine ⟨fun h => ?_, fun h => ?_, fun h => ?_, fun h1 h2 h3 h4 h5 h6 => ?_,
    fun h1 h2 => ?_, fun h => ?_⟩
  · rw [if_pos h]
    by_cases h0 : r = 0
    · rw [if_pos (by omega), if_pos h0]
    · rw [if_neg (by omega), if_neg h0, Nat.mul_comm]
  · have hne : ¬ (data.biome = some .BIOME_JUNGLE ∨ data.biome = some .BIOME_FOREST) := by
      rcases h with h | h | h <;> rw [h] <;> decide
    rw [if_neg hne, if_pos h]
    by_cases h0 : r = 0
    · rw [if_pos (by omega), if_pos h0]
    · rw [if_neg (by omega), if_neg h0]
  · have hne : ¬ (data.biome = some .BIOME_JUNGLE ∨ data.biome = some .BIOME_FOREST) := by
      rw [h]; decide
    have hne2 : ¬ (data.biome = some .BIOME_LAKE ∨ data.biome = some .BIOME_SNOWCAP
        ∨ data.biome = some .BIOME_WOODLANDS) := by
      rw [h]; decide
    rw [if_neg hne, if_neg hne2, if_pos h]
    by_cases h0 : r = 0
    · rw [if_neg (not_not.mpr h0), h0]
    · rw [if_pos h0]
  · rw [if_neg (by tauto), if_neg (by tauto), if_neg h6]
  · rw [hr, if_neg (not_lt.mpr h1)]
    refine toU32_of_fits ?_ h2
    rw [hx, hz]
    exact base_count_value_nonneg c n (hz ▸ h1)
  · unfold u32
    omega

/-- Witness for C15 (amended): with 16-node blocks, raw noise 0.5 gives base
count 6 and raw noise -0.5 gives base count 0; the tree density is 30 in
Jungle and 20 in Forest without base count, 5 in Lake without base count, 1 in
Plains, and 6 where no biome rule applies. -/
theorem get_tree_density_rule_witness :
    get_tree_density sampleConstants (sampleEngine 0 0 (1 / 2))
        { sampleData 0 with biome := some .BIOME_JUNGLE } ⟨0, 0⟩ = 30 ∧
      get_tree_density sampleConstants (sampleEngine 0 0 (-1 / 2))
        { sampleData 0 with biome := some .BIOME_FOREST } ⟨0, 0⟩ = 20 ∧
      get_tree_density sampleConstants (sampleEngine 0 0 (-1 / 2))
        { sampleData 0 with biome := some .BIOME_LAKE } ⟨0, 0⟩ = 5 ∧
      get_tree_density sampleConstants (sampleEngine 0 0 (1 / 2))
        { sampleData 0 with biome := some .BIOME_PLAINS } ⟨0, 0⟩ = 1 ∧
      get_tree_density sampleConstants (sampleEngine 0 0 (1 / 2))
        { sampleData 0 with biome := some .BIOME_DESERT } ⟨0, 0⟩ = 6 := by
  have r6 := (base_count_def sampleConstants (1 / 2)).symm.trans base_count_sample_half
  have r0 := (base_count_def sampleConstants (-1 / 2)).symm.trans base_count_sample_neg_half
  refine ⟨?_, ?_, ?_, ?_, ?_⟩
  · exact (get_tree_density_rule sampleConstants (sampleEngine 0 0 (1 / 2))
      { sampleData 0 with biome := some .BIOME_JUNGLE } ⟨0, 0⟩ (1 / 2) _ _ 6
      (by norm_num [sampleEngine, sampleData, u64]) rfl rfl r6.symm).1 (Or.inl rfl)
  · exact (get_tree_density_rule sampleConstants (sampleEngine 0 0 (-1 / 2))
      { sampleData 0 with biome := some .BIOME_FOREST } ⟨0, 0⟩ (-1 / 2) _ _ 0
      (by norm_num [sampleEngine, sampleData, u64]) rfl rfl r0.symm).1 (Or.inr rfl)
  · exact (get_tree_density_rule sampleConstants (sampleEngine 0 0 (-1 / 2))
      { sampleData 0 with biome := some .BIOME_LAKE } ⟨0, 0⟩ (-1 / 2) _ _ 0
      (by norm_num [sampleEngine, sampleData, u64]) rfl rfl r0.symm).2.1 (Or.inl rfl)
  · exact (get_tree_density_rule sampleConstants (sampleEngine 0 0 (1 / 2))
      { sampleData 0 with biome := some .BIOME_PLAINS } ⟨0, 0⟩ (1 / 2) _ _ 6
      (by norm_num [sampleEngine, sampleData, u64]) rfl rfl r6.symm).2.2.1 rfl
  · exact (get_tree_density_rule sampleConstants (sampleEngine 0 0 (1 / 2))
      { sampleData 0 with biome := some .BIOME_DESERT } ⟨0, 0⟩ (1 / 2) _ _ 6
      (by norm_num [sampleEngine, sampleData, u64]) rfl rfl r6.symm).2.2.2.1
      (by decide) (by decide) (by decide) (by decide) (by decide) (by decide)

/-! ## C16: grass density -/

/-- C16: `get_grass_density` returns 0 for Desert, SnowCap and Ocean whatever
the noise value is. For every other biome it uses the base count `r` of
`get_tree_density` (with `z` the `double` nearest to -0.39: 0 when `n < z`,
otherwise `((0.04*(n-z)) / (1.0-z)) * MAP_BLOCKSIZE^2` in `double` arithmetic,
converted to `uint32_t`), which is what `get_tree_density` returns at the same
column where no biome rule applies, and returns: for Jungle or Plains, 50 if
`r = 0` else `15*r` (in `uint32_t` arithmetic, the plain product whenever that
fits 32 bits); for Lake or WoodLands, 5 if `r = 0` else `r`; for the remaining
biomes, `r`. -/
theorem get_grass_density_rule (c : Constants) (eng : NoiseEngine) (data : BlockMakeData)
    (p : v2s16) (n z x : ℚ) (r : Nat)
    (hn : n = eng.noise2d_perlin (roundDouble (1 / 2 + roundFloat ((p.X : ℚ) / 125)))
      (roundDouble (1 / 2 + roundFloat ((p.Y : ℚ) / 125))) (u64 (data.seed + 2)) 4 (66 / 100))
    (hz : z = roundDouble (-39 / 100))
    (hx : x = roundDouble (roundDouble (roundDouble (roundDouble (4 / 100)
        * roundDouble (n - z)) / roundDouble (1 - z))
      * ((c.MAP_BLOCKSIZE * c.MAP_BLOCKSIZE : Int) : ℚ)))
    (hr : r = if n < z then 0 else toU32 x) :
    (data.biome = some .BIOME_DESERT ∨ data.biome = some .BIOME_SNOWCAP
          ∨ data.biome = some .BIOME_OCEAN →
        get_grass_density c eng data p = 0) ∧
      (data.biome = some .BIOME_JUNGLE ∨ data.biome = some .BIOME_PLAINS →
        get_grass_density c eng data p = if r = 0 then 50 else u32 (15 * r)) ∧
      (data.biome = some .BIOME_LAKE ∨ data.biome = some .BIOME_WOODLANDS →
        get_grass_density c eng data p = if r = 0 then 5 else r) ∧
      (data.biome ≠ some .BIOME_DESERT → data.biome ≠ some .BIOME_SNOWCAP →
        data.biome ≠ some .BIOME_OCEAN → data.biome ≠ some .BIOME_JUNGLE →
        data.biome ≠ some .BIOME_PLAINS → data.biome ≠ some .BIOME_LAKE →
        data.biome ≠ some .BIOME_WOODLANDS →
        get_grass_density c eng data p = r) ∧
      get_tree_density c eng { data with biome := none } p = r ∧
      (z ≤ n → x < 4294967296 → (r : Int) = ⌊x⌋) ∧
      (15 * r < 4294967296 → u32 (15 * r) = 15 * r) := by
  have hb : base_count c n = r := by rw [base_count_def, hr, hx, hz]
  have ht : get_tree_density c eng { data with biome := none } p = r := by
    rw [get_tree_density_eq]
    show tree_rule c none (eng.noise2d_perlin _ _ (u64 (data.seed + 2)) 4 (66 / 100)) = r
    rw [← hn]
    unfold tree_rule
    rw [if_neg (by decide), if_neg (by decide), if_neg (by decide), hb]
  rw [get_grass_density_eq, ← hn]
  unfold grass_rule
  rw [hb]
  refine ⟨fun h => ?_, fun h => ?_, fun h => ?_, fun h1 h2 h3 h4 h5 h6 h7 => ?_, ht,
    fun h1 h2 => ?_, fun h => ?_⟩
  · rw [if_pos h]
  · have hne : ¬ (data.biome = some .BIOME_DESERT ∨ data.biome = some .BIOME_SNOWCAP
        ∨ data.biome = some .BIOME_OCEAN) := by
      rcases h with h | h <;> rw [h] <;> decide
    rw [if_neg hne, if_pos h]
    by_cases h0 : r = 0
    · rw [if_pos (by omega), if_pos h0]
    · rw [if_neg (by omega), if_neg h0, Nat.mul_comm]
  · have hne : ¬ (data.biome = some .BIOME_DESERT ∨ data.biome = some .BIOME_SNOWCAP
        ∨ data.biome = some .BIOME_OCEAN) := by
      rcases h with h | h <;> rw [h] <;> decide
    have hne2 : ¬ (data.biome = some .BIOME_JUNGLE ∨ data.biome = some .BIOME_PLAINS) := by
      rcases h with h | h <;> rw [h] <;> decide
    rw [if_neg hne, if_neg hne2, if_pos h]
    by_cases h0 : r = 0
    · rw [if_pos (by omega), if_pos h0]
    · rw [if_neg (by omega), if_neg h0]
  · rw [if_neg (by tauto), if_neg (by tauto), if_neg (by tauto)]
  · rw [hr, if_neg (not_lt.mpr h1)]
    refine toU32_of_fits ?_ h2
    rw [hx, hz]
    exact base_count_value_nonneg c n (hz ▸ h1)
  · unfold u32
    omega

/-- Witness for C16: with 16-node blocks, raw noise 0.5 (base count 6) gives
grass density 0 in Ocean, 90 in Plains and 6 in Forest; raw noise -0.5 (base
count 0) gives 50 in Jungle and 5 in Lake; the raw noise value
`-0x1.045c28f5c28f6p-2` (base count 1) gives 15 in Jungle. -/
theorem get_grass_density_rule_witness :
    get_grass_density sampleConstants (sampleEngine 0 0 (1 / 2))
        { sampleData 0 with biome := some .BIOME_OCEAN } ⟨0, 0⟩ = 0 ∧
      get_grass_density sampleConstants (sampleEngine 0 0 (1 / 2))
        { sampleData 0 with biome := some .BIOME_PLAINS } ⟨0, 0⟩ = 90 ∧
      get_grass_density sampleConstants (sampleEngine 0 0 (-1 / 2))
        { sampleData 0 with biome := some .BIOME_JUNGLE } ⟨0, 0⟩ = 50 ∧
      get_grass_density sampleConstants (sampleEngine 0 0 (-1 / 2))
        { sampleData 0 with biome := some .BIOME_LAKE } ⟨0, 0⟩ = 5 ∧
      get_grass_density sampleConstants (sampleEngine 0 0 (1 / 2))
        { sampleData 0 with biome := some .BIOME_FOREST } ⟨0, 0⟩ = 6 ∧
      get_grass_density sampleConstants (sampleEngine 0 0 (-2290150779262075 / 9007199254740992))
        { sampleData 0 with biome := some .BIOME_JUNGLE } ⟨0, 0⟩ = 15 := by
  have r6 := (base_count_def sampleConstants (1 / 2)).symm.trans base_count_sample_half
  have r0 := (base_count_def sampleConstants (-1 / 2)).symm.trans base_count_sample_neg_half
  have r1 := (base_count_def sampleConstants (-2290150779262075 / 9007199254740992)).symm.trans
    base_count_sample_unit
  refine ⟨?_, ?_, ?_, ?_, ?_, ?_⟩
  · exact (get_grass_density_rule sampleConstants (sampleEngine 0 0 (1 / 2))
      { sampleData 0 with biome := some .BIOME_OCEAN } ⟨0, 0⟩ (1 / 2) _ _ 6
      (by norm_num [sampleEngine, sampleData, u64]) rfl rfl r6.symm).1 (Or.inr (Or.inr rfl))
  · exact (get_grass_density_rule sampleConstants (sampleEngine 0 0 (1 / 2))
      { sampleData 0 with biome := some .BIOME_PLAINS } ⟨0, 0⟩ (1 / 2) _ _ 6
      (by norm_num [sampleEngine, sampleData, u64]) rfl rfl r6.symm).2.1 (Or.inr rfl)
  · exact (get_grass_density_rule sampleConstants (sampleEngine 0 0 (-1 / 2))
      { sampleData 0 with biome := some .BIOME_JUNGLE } ⟨0, 0⟩ (-1 / 2) _ _ 0
      (by norm_num [sampleEngine, sampleData, u64]) rfl rfl r0.symm).2.1 (Or.inl rfl)
  · exact (get_grass_density_rule sampleConstants (sampleEngine 0 0 (-1 / 2))
      { sampleData 0 with biome := some .BIOME_LAKE } ⟨0, 0⟩ (-1 / 2) _ _ 0
      (by norm_num [sampleEngine, sampleData, u64]) rfl rfl r0.symm).2.2.1 (Or.inl rfl)
  · exact (get_grass_density_rule sampleConstants (sampleEngine 0 0 (1 / 2))
      { sampleData 0 with biome := some .BIOME_FOREST } ⟨0, 0⟩ (1 / 2) _ _ 6
      (by norm_num [sampleEngine, sampleData, u64]) rfl rfl r6.symm).2.2.2.1
      (by decide) (by decide) (by decide) (by decide) (by decide) (by decide) (by decide)
  · exact (get_grass_density_rule sampleConstants
      (sampleEngine 0 0 (-2290150779262075 / 9007199254740992))
      { sampleData 0 with biome := some .BIOME_JUNGLE } ⟨0, 0⟩
      (-2290150779262075 / 9007199254740992) _ _ 1
      (by norm_num [sampleEngine, sampleData, u64]) rfl rfl r1.symm).2.1 (Or.inl rfl)

/-! ## C17: debris and large stones -/

/-- The `double` nearest to -0.15, the literal that `get_have_sand` compares
with; it lies above -0.15. -/
theorem roundDouble_neg_015 : roundDouble (-15 / 100) = (-5404319552844595 / 36028797018963968) :=
  ((congrArg roundDouble (show ((-15 / 100) : ℚ) = -(3 / 20) by norm_num)).trans
      ((roundDouble_neg _).trans ((congrArg (fun t : ℚ => -t)
        (roundDouble_eval (3 / 20) (-3) (-55) 5404319552844595 (1 / 36028797018963968) (5404319552844595 / 36028797018963968)
          (by decide) (by norm_num) (by norm_num) (by norm_num) (by norm_num) (by norm_num)
          (by norm_num))).trans
        (by norm_num))))

/-- C18: with `n` the raw noise value obtained with seed+59420, 3 octaves and
persistence 0.5, `get_have_sand` is true if and only if `n` is strictly
greater than -0.15, the `double` literal of the comparison; a raw value of
exactly that `double` means no sand. The literal is
`-5404319552844595 / 2^55`, the least `double` above the rational -0.15: a
`double` value `n` gives sand if and only if it is above the rational -0.15
and is not the literal. -/
theorem get_have_sand_iff (eng : NoiseEngine) (seed : Nat) (p : v2s16) (n : ℚ)
    (hn : n = eng.noise2d_perlin (roundDouble (1 / 2 + roundFloat ((p.X : ℚ) / 500)))
      (roundDouble (1 / 2 + roundFloat ((p.Y : ℚ) / 500))) (u64 (seed + 59420)) 3 (1 / 2)) :
    (get_have_sand eng seed p = true ↔ n > roundDouble (-15 / 100)) ∧
      (n = roundDouble (-15 / 100) → get_have_sand eng seed p = false) ∧
      roundDouble (-15 / 100) = (-5404319552844595 / 36028797018963968) ∧
      (roundDouble n = n →
        (get_have_sand eng seed p = true ↔ n > -15 / 100 ∧ n ≠ roundDouble (-15 / 100))) := by
  have key : get_have_sand eng seed p = true ↔ n > roundDouble (-15 / 100) := by
    rw [get_have_sand_eq, ← hn]
    unfold sand_rule
    simp
  refine ⟨key, fun h => ?_, roundDouble_neg_015, fun hd => ?_⟩
  · cases hb : get_have_sand eng seed p
    · rfl
    · have := key.mp hb
      rw [h] at this
      exact absurd this (lt_irrefl _)
  · rw [key]
    have above : (-15 / 100 : ℚ) < roundDouble (-15 / 100) := by
      rw [roundDouble_neg_015]
      norm_num
    constructor
    · intro h
      exact ⟨lt_trans above h, ne_of_gt h⟩
    · rintro ⟨h1, h2⟩
      by_contra hle
      have hlt : n < roundDouble (-15 / 100) := lt_of_le_of_ne (not_lt.mp hle) h2
      rw [roundDouble_neg_015] at hlt
      have e := roundDouble_eval (-n) (-3) (-55) 5404319552844595 (1 / 36028797018963968)
        (5404319552844595 / 36028797018963968) (by decide) (by norm_num)
        (by norm_num; linarith) (by norm_num; linarith) (by norm_num; linarith)
        (by norm_num; linarith) (by norm_num)
      rw [roundDouble_neg, hd] at e
      apply h2
      rw [roundDouble_neg_015]
      linarith

/-- Witness for C18: raw noise 0 gives sand; the raw noise value equal to the
`double` literal -0.15 does not, although it is a `double` above the rational
-0.15. -/
theorem get_have_sand_iff_witness :
    get_have_sand (sampleEngine 0 0 0) 42 ⟨0, 0⟩ = true ∧
      get_have_sand (sampleEngine 0 0 (-5404319552844595 / 36028797018963968)) 42 ⟨0, 0⟩
        = false ∧
      (-5404319552844595 / 36028797018963968 : ℚ) > -15 / 100 := by
  refine ⟨?_, ?_, by norm_num⟩
  · exact (get_have_sand_iff (sampleEngine 0 0 0) 42 ⟨0, 0⟩ 0
      (by norm_num [sampleEngine, u64])).1.mpr
      (by rw [roundDouble_neg_015]; norm_num)
  · exact (get_have_sand_iff (sampleEngine 0 0 (-5404319552844595 / 36028797018963968)) 42 ⟨0, 0⟩
      (-5404319552844595 / 36028797018963968) (by norm_num [sampleEngine, u64])).2.1
      roundDouble_neg_015.symm

/-! ## C19: the sample points -/

/-- The sample point of column 0: the quotient and the sum are exact. -/
theorem sample_point_zero (s : ℚ) :
    roundDouble (1 / 2 + roundFloat (((0 : Int) : ℚ) / s)) = 1 / 2 := by
  rw [Int.cast_zero, zero_div, roundFloat_zero, add_zero]
  exact roundDouble_eq_self 1 (-1) (by norm_num) (by norm_num) (by norm_num)

/-- The sample point of column -100 at scale 500: the `float` quotient is
`-13421773 / 2^26`. -/
theorem sample_point_neg_100 :
    roundDouble (1 / 2 + roundFloat (((-100 : Int) : ℚ) / 500)) = (20132659 / 67108864) := by
  have e1 : roundFloat (((-100 : Int) : ℚ) / 500) = (-13421773 / 67108864) :=
    ((congrArg roundFloat (show ((((-100 : Int) : ℚ) / 500) : ℚ) = -(1 / 5) by norm_num)).trans
        ((roundFloat_neg _).trans ((congrArg (fun t : ℚ => -t)
          (roundFloat_eval (1 / 5) (-3) (-26) 13421773 (1 / 67108864) (13421773 / 67108864)
            (by decide) (by norm_num) (by norm_num) (by norm_num) (by norm_num) (by norm_num)
            (by norm_num))).trans
          (by norm_num))))
  rw [e1]
  exact ((roundDouble_eq_self (20132659) (-26) (by norm_num) (by norm_num) (by norm_num) :
        roundDouble (1 / 2 + (-13421773 / 67108864)) = 1 / 2 + (-13421773 / 67108864)).trans (by norm_num))

/-- The sample point of column -325 at scale 500: the `float` quotient is
`-10905191 / 2^24`, above -0.65, and the sum is above -0.15. -/
theorem sample_point_neg_325 :
    roundDouble (1 / 2 + roundFloat (((-325 : Int) : ℚ) / 500)) = (-1258291 / 8388608) := by
  have e1 : roundFloat (((-325 : Int) : ℚ) / 500) = (-5452595 / 8388608) :=
    ((congrArg roundFloat (show ((((-325 : Int) : ℚ) / 500) : ℚ) = -(13 / 20) by norm_num)).trans
        ((roundFloat_neg _).trans ((congrArg (fun t : ℚ => -t)
          (roundFloat_eval (13 / 20) (-1) (-24) 10905190 (1 / 16777216) (5452595 / 8388608)
            (by decide) (by norm_num) (by norm_num) (by norm_num) (by norm_num) (by norm_num)
            (by norm_num))).trans
          (by norm_num))))
  rw [e1]
  exact ((roundDouble_eq_self (-1258291) (-23) (by norm_num) (by norm_num) (by norm_num) :
        roundDouble (1 / 2 + (-5452595 / 8388608)) = 1 / 2 + (-5452595 / 8388608)).trans (by norm_num))

/-- Counterexample to C19 as stated: for an engine whose noise value is the
first coordinate of the sample point, every one of the five functions returns
what its rule gives at the point shifted by 0.5, not what it gives at the
column divided by the scale: at column `(0, 0)` the tree and grass densities
are 6 (rule at `0/125`: 2), the debris amount is `0.037*0.91/1.41` (rule at
`0/125`: `0.037*0.41/1.41`), the large-stone amount is `0.005*0.2/0.7` (rule
at `0/250`: 0); at column `(-100, 0)` there is sand (rule at `-100/500`:
none). The quotient is a `float` division: at column `(-325, 0)` there is
sand, where the rule at `0.5 + (-325)/500 = -0.15` gives none. -/
theorem sample_points_counterexample :
    (get_tree_density sampleConstants coordEngine (sampleData 0) ⟨0, 0⟩ = 6 ∧
      tree_rule sampleConstants (sampleData 0).biome
        (coordEngine.noise2d_perlin ((0 : Int) / 125) ((0 : Int) / 125) (u64 (42 + 2)) 4
          (66 / 100)) = 2) ∧
    (get_grass_density sampleConstants coordEngine (sampleData 0) ⟨0, 0⟩ = 6 ∧
      grass_rule sampleConstants (sampleData 0).biome
        (coordEngine.noise2d_perlin ((0 : Int) / 125) ((0 : Int) / 125) (u64 (42 + 2)) 4
          (66 / 100)) = 2) ∧
    (debris_amount_2d coordEngine 42 ⟨0, 0⟩ = 3367 / 141000 ∧
      debris_rule (coordEngine.noise2d_perlin ((0 : Int) / 125) ((0 : Int) / 125)
        (u64 (42 + 2)) 4 (7 / 10)) = 1517 / 141000) ∧
    (largestone_amount_2d coordEngine 42 ⟨0, 0⟩ = 1 / 700 ∧
      largestone_rule (coordEngine.noise2d_perlin ((0 : Int) / 250) ((0 : Int) / 250)
        (u64 (42 + 14143242)) 5 (66 / 100)) = 0) ∧
    (get_have_sand coordEngine 42 ⟨-100, 0⟩ = true ∧
      sand_rule (coordEngine.noise2d_perlin ((-100 : Int) / 500) ((0 : Int) / 500)
        (u64 (42 + 59420)) 3 (1 / 2)) = false) ∧
    (get_have_sand coordEngine 42 ⟨-325, 0⟩ = true ∧
      sand_rule (coordEngine.noise2d_perlin (1 / 2 + (-325 : Int) / 500)
        (1 / 2 + (0 : Int) / 500) (u64 (42 + 59420)) 3 (1 / 2)) = false) := by
  have n0 : (((0 : Int) : ℚ) / 125 : ℚ) = 0 := by norm_num
  have t15 := roundDouble_neg_015
  refine ⟨⟨?_, ?_⟩, ⟨?_, ?_⟩, ⟨?_, ?_⟩, ⟨?_, ?_⟩, ⟨?_, ?_⟩, ⟨?_, ?_⟩⟩
  · rw [get_tree_density_eq]
    show tree_rule sampleConstants none
      (roundDouble (1 / 2 + roundFloat (((0 : Int) : ℚ) / 125))) = 6
    rw [sample_point_zero]
    unfold tree_rule
    rw [base_count_sample_half]
    decide
  · show tree_rule sampleConstants none (((0 : Int) : ℚ) / 125) = 2
    rw [n0]
    unfold tree_rule
    rw [base_count_sample_zero]
    decide
  · rw [get_grass_density_eq]
    show grass_rule sampleConstants none
      (roundDouble (1 / 2 + roundFloat (((0 : Int) : ℚ) / 125))) = 6
    rw [sample_point_zero]
    unfold grass_rule
    rw [base_count_sample_half]
    decide
  · show grass_rule sampleConstants none (((0 : Int) : ℚ) / 125) = 2
    rw [n0]
    unfold grass_rule
    rw [base_count_sample_zero]
    decide
  · rw [debris_amount_2d_eq]
    show debris_rule (roundDouble (1 / 2 + roundFloat (((0 : Int) : ℚ) / 125))) = _
    rw [sample_point_zero]
    norm_num [debris_rule]
  · norm_num [debris_rule, coordEngine]
  · rw [largestone_amount_2d_eq]
    show largestone_rule (roundDouble (1 / 2 + roundFloat (((0 : Int) : ℚ) / 250))) = _
    rw [sample_point_zero]
    norm_num [largestone_rule]
  · norm_num [largestone_rule, coordEngine]
  · rw [get_have_sand_eq]
    show sand_rule (roundDouble (1 / 2 + roundFloat (((-100 : Int) : ℚ) / 500))) = true
    rw [sample_point_neg_100]
    unfold sand_rule
    rw [t15]
    norm_num
  · show sand_rule (((-100 : Int) : ℚ) / 500) = false
    unfold sand_rule
    rw [t15]
    norm_num
  · rw [get_have_sand_eq]
    show sand_rule (roundDouble (1 / 2 + roundFloat (((-325 : Int) : ℚ) / 500))) = true
    rw [sample_point_neg_325]
    unfold sand_rule
    rw [t15]
    norm_num
  · show sand_rule (1 / 2 + ((-325 : Int) : ℚ) / 500) = false
    unfold sand_rule
    rw [t15]
    norm_num

/-- C19 (amended): the 2D noise sample points are the column divided by the
scale in a `float` division, shifted by 0.5 in both coordinates with a
`double` addition: for every column `(x, z)`, `get_tree_density`,
`get_grass_density` and `debris_amount_2d` evaluate the noise at
`(0.5 + x/125, 0.5 + z/125)`, `largestone_amount_2d` at
`(0.5 + x/250, 0.5 + z/250)`, and `get_have_sand` at
`(0.5 + x/500, 0.5 + z/500)`; each result is the function's rule applied to
the noise value at that point, so an engine with the same value there gives
the same result. -/
theorem sample_points (c : Constants) (eng eng2 : NoiseEngine) (data : BlockMakeData)
    (seed : Nat) (x z : Int) :
    (get_tree_density c eng data ⟨x, z⟩ = tree_rule c data.biome
        (eng.noise2d_perlin (roundDouble (1 / 2 + roundFloat ((x : ℚ) / 125)))
          (roundDouble (1 / 2 + roundFloat ((z : ℚ) / 125)))
          (u64 (data.seed + 2)) 4 (66 / 100)) ∧
      get_grass_density c eng data ⟨x, z⟩ = grass_rule c data.biome
        (eng.noise2d_perlin (roundDouble (1 / 2 + roundFloat ((x : ℚ) / 125)))
          (roundDouble (1 / 2 + roundFloat ((z : ℚ) / 125)))
          (u64 (data.seed + 2)) 4 (66 / 100)) ∧
      debris_amount_2d eng seed ⟨x, z⟩ = debris_rule
        (eng.noise2d_perlin (roundDouble (1 / 2 + roundFloat ((x : ℚ) / 125)))
          (roundDouble (1 / 2 + roundFloat ((z : ℚ) / 125)))
          (u64 (seed + 2)) 4 (7 / 10)) ∧
      largestone_amount_2d eng seed ⟨x, z⟩ = largestone_rule
        (eng.noise2d_perlin (roundDouble (1 / 2 + roundFloat ((x : ℚ) / 250)))
          (roundDouble (1 / 2 + roundFloat ((z : ℚ) / 250)))
          (u64 (seed + 14143242)) 5 (66 / 100)) ∧
      get_have_sand eng seed ⟨x, z⟩ = sand_rule
        (eng.noise2d_perlin (roundDouble (1 / 2 + roundFloat ((x : ℚ) / 500)))
          (roundDouble (1 / 2 + roundFloat ((z : ℚ) / 500)))
          (u64 (seed + 59420)) 3 (1 / 2))) ∧
    ((eng2.noise2d_perlin (roundDouble (1 / 2 + roundFloat ((x : ℚ) / 125)))
          (roundDouble (1 / 2 + roundFloat ((z : ℚ) / 125)))
          (u64 (data.seed + 2)) 4 (66 / 100)
        = eng.noise2d_perlin (roundDouble (1 / 2 + roundFloat ((x : ℚ) / 125)))
          (roundDouble (1 / 2 + roundFloat ((z : ℚ) / 125)))
          (u64 (data.seed + 2)) 4 (66 / 100) →
        get_tree_density c eng2 data ⟨x, z⟩ = get_tree_density c eng data ⟨x, z⟩ ∧
        get_grass_density c eng2 data ⟨x, z⟩ = get_grass_density c eng data ⟨x, z⟩) ∧
      (eng2.noise2d_perlin (roundDouble (1 / 2 + roundFloat ((x : ℚ) / 125)))
          (roundDouble (1 / 2 + roundFloat ((z : ℚ) / 125)))
          (u64 (seed + 2)) 4 (7 / 10)
        = eng.noise2d_perlin (roundDouble (1 / 2 + roundFloat ((x : ℚ) / 125)))
          (roundDouble (1 / 2 + roundFloat ((z : ℚ) / 125)))
          (u64 (seed + 2)) 4 (7 / 10) →
        debris_amount_2d eng2 seed ⟨x, z⟩ = debris_amount_2d eng seed ⟨x, z⟩) ∧
      (eng2.noise2d_perlin (roundDouble (1 / 2 + roundFloat ((x : ℚ) / 250)))
          (roundDouble (1 / 2 + roundFloat ((z : ℚ) / 250)))
          (u64 (seed + 14143242)) 5 (66 / 100)
        = eng.noise2d_perlin (roundDouble (1 / 2 + roundFloat ((x : ℚ) / 250)))
          (roundDouble (1 / 2 + roundFloat ((z : ℚ) / 250)))
          (u64 (seed + 14143242)) 5 (66 / 100) →
        largestone_amount_2d eng2 seed ⟨x, z⟩ = largestone_amount_2d eng seed ⟨x, z⟩) ∧
      (eng2.noise2d_perlin (roundDouble (1 / 2 + roundFloat ((x : ℚ) / 500)))
          (roundDouble (1 / 2 + roundFloat ((z : ℚ) / 500)))
          (u64 (seed + 59420)) 3 (1 / 2)
        = eng.noise2d_perlin (roundDouble (1 / 2 + roundFloat ((x : ℚ) / 500)))
          (roundDouble (1 / 2 + roundFloat ((z : ℚ) / 500)))
          (u64 (seed + 59420)) 3 (1 / 2) →
        get_have_sand eng2 seed ⟨x, z⟩ = get_have_sand eng seed ⟨x, z⟩)) := by
  refine ⟨⟨rfl, rfl, rfl, rfl, rfl⟩, fun h => ?_, fun h => ?_, fun h => ?_, fun h => ?_⟩
  · constructor
    · rw [get_tree_density_eq, get_tree_density_eq]
      exact congrArg _ h
    · rw [get_grass_density_eq, get_grass_density_eq]
      exact congrArg _ h
  · rw [debris_amount_2d_eq, debris_amount_2d_eq]
    exact congrArg _ h
  · rw [largestone_amount_2d_eq, largestone_amount_2d_eq]
    exact congrArg _ h
  · rw [get_have_sand_eq, get_have_sand_eq]
    exact congrArg _ h

/-- Witness for C19 (amended): an engine that is 3 at the sample point
`(0.5, 0.5)` and 0 elsewhere and the constant engine 3 agree at the sample
point of column `(0, 0)`, and the five functions return the same for both;
the engine that is 3 only at `(0, 0)` (the column divided by the scale) gives
a different debris amount. At column `(-325, 0)` the sample point of
`get_have_sand` has first coordinate `-1258291 / 2^23`: the engine that is 3
there and -3 elsewhere gives what the constant engine 3 gives, and the engine
that is 3 only at first coordinate -0.15 does not. -/
theorem sample_points_witness :
    (get_tree_density sampleConstants (pointEngine (1 / 2) (1 / 2) 3 0) (sampleData 0) ⟨0, 0⟩
        = get_tree_density sampleConstants (pointEngine 0 0 3 3) (sampleData 0) ⟨0, 0⟩ ∧
      get_grass_density sampleConstants (pointEngine (1 / 2) (1 / 2) 3 0) (sampleData 0) ⟨0, 0⟩
        = get_grass_density sampleConstants (pointEngine 0 0 3 3) (sampleData 0) ⟨0, 0⟩) ∧
    debris_amount_2d (pointEngine (1 / 2) (1 / 2) 3 0) 42 ⟨0, 0⟩
        = debris_amount_2d (pointEngine 0 0 3 3) 42 ⟨0, 0⟩ ∧
    largestone_amount_2d (pointEngine (1 / 2) (1 / 2) 3 0) 42 ⟨0, 0⟩
        = largestone_amount_2d (pointEngine 0 0 3 3) 42 ⟨0, 0⟩ ∧
    get_have_sand (pointEngine (1 / 2) (1 / 2) 3 0) 42 ⟨0, 0⟩
        = get_have_sand (pointEngine 0 0 3 3) 42 ⟨0, 0⟩ ∧
    debris_amount_2d (pointEngine 0 0 3 0) 42 ⟨0, 0⟩
        ≠ debris_amount_2d (pointEngine 0 0 3 3) 42 ⟨0, 0⟩ ∧
    get_have_sand (pointEngine (-1258291 / 8388608) (1 / 2) 3 (-3)) 42 ⟨-325, 0⟩
        = get_have_sand (pointEngine 0 0 3 3) 42 ⟨-325, 0⟩ ∧
    get_have_sand (pointEngine (-15 / 100) (1 / 2) 3 (-3)) 42 ⟨-325, 0⟩
        ≠ get_have_sand (pointEngine 0 0 3 3) 42 ⟨-325, 0⟩ := by
  have half : roundDouble (1 / 2) = 1 / 2 :=
    roundDouble_eq_self 1 (-1) (by norm_num) (by norm_num) (by norm_num)
  have p325 : roundDouble (-1258291 / 8388608) = (-1258291 / 8388608) :=
    roundDouble_eq_self (-1258291) (-23) (by norm_num) (by norm_num) (by norm_num)
  have t15 := roundDouble_neg_015
  have t := (sample_points sampleConstants (pointEngine 0 0 3 3)
    (pointEngine (1 / 2) (1 / 2) 3 0) (sampleData 0) 42 0 0).2
  have u := (sample_points sampleConstants (pointEngine 0 0 3 3)
    (pointEngine (-1258291 / 8388608) (1 / 2) 3 (-3)) (sampleData 0) 42 (-325) 0).2
  have c3 : ∀ x y : ℚ, ∀ (s : Nat) (o : Int) (q : ℚ),
      (pointEngine 0 0 3 3).noise2d_perlin x y s o q = 3 := by
    intro x y s o q
    simp [pointEngine]
  refine ⟨t.1 ?_, t.2.1 ?_, t.2.2.1 ?_, t.2.2.2 ?_, ?_, u.2.2.2 ?_, ?_⟩
  · rw [c3, sample_point_zero]
    simp only [pointEngine]
    rw [half, if_pos ⟨rfl, rfl⟩]
  · rw [c3, sample_point_zero]
    simp only [pointEngine]
    rw [half, if_pos ⟨rfl, rfl⟩]
  · rw [c3, sample_point_zero]
    simp only [pointEngine]
    rw [half, if_pos ⟨rfl, rfl⟩]
  · rw [c3, sample_point_zero]
    simp only [pointEngine]
    rw [half, if_pos ⟨rfl, rfl⟩]
  · rw [debris_amount_2d_eq, debris_amount_2d_eq, c3, sample_point_zero]
    have : (pointEngine 0 0 3 0).noise2d_perlin (1 / 2) (1 / 2) (u64 (42 + 2)) 4 (7 / 10) = 0 := by
      have hz : roundDouble 0 = 0 := roundDouble_zero
      simp [pointEngine, hz]
    rw [this]
    norm_num [debris_rule]
  · rw [c3, sample_point_zero, sample_point_neg_325]
    simp only [pointEngine]
    rw [half, p325, if_pos ⟨rfl, rfl⟩]
  · rw [get_have_sand_eq, get_have_sand_eq, c3, sample_point_zero, sample_point_neg_325]
    have : (pointEngine (-15 / 100) (1 / 2) 3 (-3)).noise2d_perlin (-1258291 / 8388608) (1 / 2)
        (u64 (42 + 59420)) 3 (1 / 2) = -3 := by
      simp only [pointEngine]
      rw [t15, if_neg (by norm_num)]
    rw [this]
    unfold sand_rule
    rw [t15]
    norm_num

/-! ## C20: the noise parameter catalog -/

/-- C20: for every seed `s` (additions modulo `2^64`) the catalog factories
return exactly: cave-noise-1 = (contour, s+52534, 4, 0.5, 50,
CAVE_NOISE_SCALE); cave-noise-2 = (contour with Y/Z swapped, s+10325, 4, 0.5,
50, CAVE_NOISE_SCALE); ground-noise-1 = (plain, s+983240, 4, 0.55, 80, 40);
ground-crumbliness = (plain, s+34413, 3, 1.3, 20, 1); ground-wetness =
(plain, s+32474, 4, 1.1, 40, 1). The records depend on nothing but the seed
(and the constant), so two calls with the same seed give identical records. -/
theorem noise_catalog (c : Constants) (s : Nat) :
    get_cave_noise1_params c s
        = { type := .NOISE_PERLIN_CONTOUR, seed := (s + 52534) % 2 ^ 64, octaves := 4,
            persistence := 1 / 2, pos_scale := 50, noise_scale := c.CAVE_NOISE_SCALE } ∧
      get_cave_noise2_params c s
        = { type := .NOISE_PERLIN_CONTOUR_FLIP_YZ, seed := (s + 10325) % 2 ^ 64, octaves := 4,
            persistence := 1 / 2, pos_scale := 50, noise_scale := c.CAVE_NOISE_SCALE } ∧
      get_ground_noise1_params s
        = { type := .NOISE_PERLIN, seed := (s + 983240) % 2 ^ 64, octaves := 4,
            persistence := 55 / 100, pos_scale := 80, noise_scale := 40 } ∧
      get_ground_crumbleness_params s
        = { type := .NOISE_PERLIN, seed := (s + 34413) % 2 ^ 64, octaves := 3,
            persistence := 13 / 10, pos_scale := 20, noise_scale := 1 } ∧
      get_ground_wetness_params s
        = { type := .NOISE_PERLIN, seed := (s + 32474) % 2 ^ 64, octaves := 4,
            persistence := 11 / 10, pos_scale := 40, noise_scale := 1 } ∧
      (∀ s2 : Nat, s2 = s →
        get_cave_noise1_params c s2 = get_cave_noise1_params c s ∧
        get_cave_noise2_params c s2 = get_cave_noise2_params c s ∧
        get_ground_noise1_params s2 = get_ground_noise1_params s ∧
        get_ground_crumbleness_params s2 = get_ground_crumbleness_params s ∧
        get_ground_wetness_params s2 = get_ground_wetness_params s) := by
  have h64 : (2 : Nat) ^ 64 = 18446744073709551616 := by norm_num
  refine ⟨?_, ?_, ?_, ?_, ?_, ?_⟩
  · simp only [get_cave_noise1_params, u64, h64]
  · simp only [get_cave_noise2_params, u64, h64]
  · simp only [get_ground_noise1_params, u64, h64]
  · simp only [get_ground_crumbleness_params, u64, h64]
  · simp only [get_ground_wetness_params, u64, h64]
  · rintro s2 rfl
    exact ⟨rfl, rfl, rfl, rfl, rfl⟩

/-- Witness for C20: seed `2^64 - 1` wraps, so cave-noise-1 gets seed 52533;
seed 42 gives ground-crumbliness (plain, 34455, 3, 1.3, 20, 1). -/
theorem noise_catalog_witness :
    (get_cave_noise1_params sampleConstants 18446744073709551615).seed = 52533 ∧
      get_ground_crumbleness_params 42 = ⟨.NOISE_PERLIN, 34455, 3, 13 / 10, 20, 1⟩ := by
  have h := noise_catalog sampleConstants 18446744073709551615
  have h2 := noise_catalog sampleConstants 42
  refine ⟨?_, ?_⟩
  · rw [h.1]
    norm_num
  · rw [h2.2.2.2.1]
    norm_num

/-! ## C21: the seeds of the noise layers -/

/-- Every entry of `effective_seed` is the seed its function passes on. -/
theorem effective_seed_spec (c : Constants) (eng : NoiseEngine) (data : BlockMakeData)
    (s : Nat) (p : v2s16) :
    (get_cave_noise1_params c s).seed = effective_seed s .cave_noise1 ∧
    (get_cave_noise2_params c s).seed = effective_seed s .cave_noise2 ∧
    (get_ground_noise1_params s).seed = effective_seed s .ground_noise1 ∧
    (get_ground_crumbleness_params s).seed = effective_seed s .ground_crumbleness ∧
    (get_ground_wetness_params s).seed = effective_seed s .ground_wetness ∧
    get_humidity eng s p = humidity_of_noise (eng.noise2d_perlin (roundDouble ((p.X : ℚ) / 500))
      (roundDouble ((p.Y : ℚ) / 500)) (effective_seed s .humidity) 4 (1 / 2)) ∧
    get_ground_height c eng s p = toS16 (roundDouble (((c.WATER_LEVEL + 1 : Int) : ℚ)
      + roundDouble (25 *
      (if eng.noise2d_perlin (roundDouble ((p.X : ℚ) / 200)) (roundDouble ((p.Y : ℚ) / 200))
          (effective_seed s .ground_height) 4 (1 / 2) > 0
        then eng.pow (eng.noise2d_perlin (roundDouble ((p.X : ℚ) / 200))
          (roundDouble ((p.Y : ℚ) / 200)) (effective_seed s .ground_height) 4 (1 / 2)) (19 / 10)
        else eng.noise2d_perlin (roundDouble ((p.X : ℚ) / 200)) (roundDouble ((p.Y : ℚ) / 200))
          (effective_seed s .ground_height) 4 (1 / 2))))) ∧
    get_have_sand eng s p = sand_rule (eng.noise2d_perlin
      (roundDouble (1 / 2 + roundFloat ((p.X : ℚ) / 500)))
      (roundDouble (1 / 2 + roundFloat ((p.Y : ℚ) / 500))) (effective_seed s .sand) 3 (1 / 2)) ∧
    get_tree_density c eng data p = tree_rule c data.biome
      (eng.noise2d_perlin (roundDouble (1 / 2 + roundFloat ((p.X : ℚ) / 125)))
        (roundDouble (1 / 2 + roundFloat ((p.Y : ℚ) / 125)))
        (effective_seed data.seed .vegetation) 4 (66 / 100)) ∧
    get_grass_density c eng data p = grass_rule c data.biome
      (eng.noise2d_perlin (roundDouble (1 / 2 + roundFloat ((p.X : ℚ) / 125)))
        (roundDouble (1 / 2 + roundFloat ((p.Y : ℚ) / 125)))
        (effective_seed data.seed .vegetation) 4 (66 / 100)) ∧
    debris_amount_2d eng s p = debris_rule (eng.noise2d_perlin
      (roundDouble (1 / 2 + roundFloat ((p.X : ℚ) / 125)))
      (roundDouble (1 / 2 + roundFloat ((p.Y : ℚ) / 125))) (effective_seed s .debris) 4 (7 / 10)) ∧
    largestone_amount_2d eng s p = largestone_rule (eng.noise2d_perlin
      (roundDouble (1 / 2 + roundFloat ((p.X : ℚ) / 250)))
      (roundDouble (1 / 2 + roundFloat ((p.Y : ℚ) / 250)))
      (effective_seed s .largestone) 5 (66 / 100)) :=
  ⟨rfl, rfl, rfl, rfl, rfl, rfl, rfl, rfl, rfl, rfl, rfl, rfl⟩

/-- For every world seed, two distinct layers have the same effective seed
only if they are the vegetation field and the debris amount. -/
theorem effective_seed_eq_only (s : Nat)
    (l1 l2 : NoiseLayer) (hne : l1 ≠ l2) (h : effective_seed s l1 = effective_seed s l2) :
    (l1 = .vegetation ∧ l2 = .debris) ∨ (l1 = .debris ∧ l2 = .vegetation) := by
  cases l1 <;> cases l2 <;>
    first
      | exact absurd rfl hne
      | exact Or.inl ⟨rfl, rfl⟩
      | exact Or.inr ⟨rfl, rfl⟩
      | (exfalso; simp only [effective_seed, u64] at h; omega)

/-- C21 (the code at the failing input): for every world seed, the
vegetation field (`get_tree_density`, `get_grass_density`) and the debris
amount (`debris_amount_2d`) are two layers that hand the same seed, `seed+2`,
to the noise engine, at the same sample point; for world seed 0 both pass 2. -/
theorem vegetation_debris_share_seed (c : Constants) (eng : NoiseEngine)
    (data : BlockMakeData) (p : v2s16) :
    get_tree_density c eng data p = tree_rule c data.biome
        (eng.noise2d_perlin (roundDouble (1 / 2 + roundFloat ((p.X : ℚ) / 125)))
          (roundDouble (1 / 2 + roundFloat ((p.Y : ℚ) / 125)))
          (u64 (data.seed + 2)) 4 (66 / 100)) ∧
      debris_amount_2d eng data.seed p = debris_rule
        (eng.noise2d_perlin (roundDouble (1 / 2 + roundFloat ((p.X : ℚ) / 125)))
          (roundDouble (1 / 2 + roundFloat ((p.Y : ℚ) / 125)))
          (u64 (data.seed + 2)) 4 (7 / 10)) ∧
      NoiseLayer.vegetation ≠ NoiseLayer.debris ∧
      effective_seed data.seed .vegetation = effective_seed data.seed .debris ∧
      effective_seed 0 .vegetation = 2 ∧ effective_seed 0 .debris = 2 :=
  ⟨rfl, rfl, by decide, rfl, by decide, by decide⟩

/-! ## C22: the degenerate sector -/

/-- C22: if `get_ground_height` returns one and the same value `h`, with
`-31000 <= h <= 31000`, at every column of the sector's nine-point stencil
(which holds every column the three aggregates sample), then the average, the
maximum and the minimum ground level of the sector are all exactly `h`. -/
theorem degenerate_sector (c : Constants) (eng : NoiseEngine) (data : BlockMakeData)
    (s : v2s16) (h : Int) (h1 : -31000 ≤ h) (h2 : h ≤ 31000)
    (hall : ∀ p ∈ nine_point_stencil c s, get_ground_height c eng data.seed p = h) :
    get_sector_average_ground_level c eng data s = h ∧
      get_sector_maximum_ground_level c eng data s = h ∧
      get_sector_minimum_ground_level c eng data s = h := by
  have h1' : (-31000 : ℚ) ≤ h := by exact_mod_cast h1
  have h2' : (h : ℚ) ≤ 31000 := by exact_mod_cast h2
  have key : ∀ p ∈ nine_point_stencil c s, (get_ground_height c eng data.seed p : ℚ) = h :=
    fun p hp => by rw [hall p hp]
  unfold nine_point_stencil five_point_stencil at key
  simp only [v2s16.ofInts, v2s16.mul, s16_idem, List.cons_append, List.nil_append,
    List.mem_cons, List.mem_singleton, forall_eq_or_imp, forall_eq] at key
  obtain ⟨k1, k2, k3, k4, k5, k6, k7, k8, k9⟩ := key
  refine ⟨?_, ?_, ?_⟩
  · unfold get_sector_average_ground_level
    dsimp only
    rw [sector_node_max]
    simp only [v2s16.ofInts, v2s16.mul, s16_idem, k1, k2, k3, k4, k5]
    ring
  · unfold get_sector_maximum_ground_level
    dsimp only
    rw [sector_node_max]
    simp only [v2s16.ofInts, v2s16.mul, s16_idem, k1, k2, k3, k5, k6, k7, k8, k9, MYMAX,
      max_eq_right h1', max_self]
  · unfold get_sector_minimum_ground_level
    dsimp only
    rw [sector_node_max]
    simp only [v2s16.ofInts, v2s16.mul, s16_idem, k1, k2, k3, k5, k6, k7, k8, k9, MYMIN,
      min_eq_right h2', min_self]

/-- Witness for C22: in the sample environment with noise 0.8 at every column
all nine heights of sector `(0, 0)` are 17, and so are the three aggregates. -/
theorem degenerate_sector_witness :
    get_sector_average_ground_level sampleConstants (sampleEngine (4 / 5) (4 / 5) 0)
        (sampleData 0) ⟨0, 0⟩ = 17 ∧
      get_sector_maximum_ground_level sampleConstants (sampleEngine (4 / 5) (4 / 5) 0)
        (sampleData 0) ⟨0, 0⟩ = 17 ∧
      get_sector_minimum_ground_level sampleConstants (sampleEngine (4 / 5) (4 / 5) 0)
        (sampleData 0) ⟨0, 0⟩ = 17 := by
  have h : ∀ p : v2s16, get_ground_height sampleConstants (sampleEngine (4 / 5) (4 / 5) 0)
      (sampleData 0).seed p = 17 := by
    intro p
    rw [← sampleHeight_080]
    simp [get_ground_height, sampleEngine, sampleHeight, sampleConstants, sampleData]
  exact degenerate_sector sampleConstants (sampleEngine (4 / 5) (4 / 5) 0) (sampleData 0)
    ⟨0, 0⟩ 17 (by norm_num) (by norm_num) (fun p _ => h p)

/-! ## C26: the order of the three aggregates -/

/-- The average of sector `(0, 0)` under a `pointEngine` whose special point
is the corner column `(15, 0)`. -/
theorem point_sector_average (eAt eElse : ℚ) :
    get_sector_average_ground_level sampleConstants (pointEngine (3 / 40) 0 eAt eElse)
      (sampleData 0) ⟨0, 0⟩
      = (4 * (sampleHeight eElse : ℚ) + sampleHeight eAt) / 5 := by
  obtain ⟨f1, f2, f3, f4, f5, f6⟩ := sample_coordinates_cases
  have e : (25 : ℚ)⁻¹ = 1 / 25 := by norm_num
  simp only [get_sector_average_ground_level, point_ground_height]
  norm_num [sampleConstants, sampleData, s16, v2s16.ofInts, v2s16.mul, v2s16.add,
    v2s16.sub, Int.tdiv, e, f1, f2, f3, f4, f5, f6]
  ring

/-- C26 (the code at the failing input): in sector `(0, 0)` with 16-node
blocks, ground height -24 at the corner column `(15, 0)` and 1 at every other
column give average -4 and minimum 1, so the minimum is above the average;
ground height 30 at that corner and 1 elsewhere give average 6.8 and maximum
1, so the average is above the maximum. The average samples the corner
`(max.X, min.Y)`, the maximum and the minimum do not. -/
theorem sector_aggregates_out_of_order :
    (get_sector_average_ground_level sampleConstants (pointEngine (3 / 40) 0 (-1) 0)
        (sampleData 0) ⟨0, 0⟩ = -4 ∧
      get_sector_minimum_ground_level sampleConstants (pointEngine (3 / 40) 0 (-1) 0)
        (sampleData 0) ⟨0, 0⟩ = 1 ∧
      ¬ get_sector_minimum_ground_level sampleConstants (pointEngine (3 / 40) 0 (-1) 0)
          (sampleData 0) ⟨0, 0⟩
        ≤ get_sector_average_ground_level sampleConstants (pointEngine (3 / 40) 0 (-1) 0)
          (sampleData 0) ⟨0, 0⟩) ∧
    (get_sector_average_ground_level sampleConstants (pointEngine (3 / 40) 0 (109 / 100) 0)
        (sampleData 0) ⟨0, 0⟩ = 34 / 5 ∧
      get_sector_maximum_ground_level sampleConstants (pointEngine (3 / 40) 0 (109 / 100) 0)
        (sampleData 0) ⟨0, 0⟩ = 1 ∧
      ¬ get_sector_average_ground_level sampleConstants (pointEngine (3 / 40) 0 (109 / 100) 0)
          (sampleData 0) ⟨0, 0⟩
        ≤ get_sector_maximum_ground_level sampleConstants (pointEngine (3 / 40) 0 (109 / 100) 0)
          (sampleData 0) ⟨0, 0⟩) := by
  have a1 : get_sector_average_ground_level sampleConstants (pointEngine (3 / 40) 0 (-1) 0)
      (sampleData 0) ⟨0, 0⟩ = -4 := by
    rw [point_sector_average, sampleHeight_zero, sampleHeight_neg_one]; norm_num
  have m1 : get_sector_minimum_ground_level sampleConstants (pointEngine (3 / 40) 0 (-1) 0)
      (sampleData 0) ⟨0, 0⟩ = 1 := by
    rw [point_sector_minimum, sampleHeight_zero]; norm_num
  have a2 : get_sector_average_ground_level sampleConstants
      (pointEngine (3 / 40) 0 (109 / 100) 0) (sampleData 0) ⟨0, 0⟩ = 34 / 5 := by
    rw [point_sector_average, sampleHeight_zero, sampleHeight_109]; norm_num
  have m2 : get_sector_maximum_ground_level sampleConstants
      (pointEngine (3 / 40) 0 (109 / 100) 0) (sampleData 0) ⟨0, 0⟩ = 1 := by
    rw [point_sector_maximum, sampleHeight_zero]; norm_num
  refine ⟨⟨a1, m1, ?_⟩, ⟨a2, m2, ?_⟩⟩
  · rw [a1, m1]; norm_num
  · rw [a2, m2]; norm_num

/-! ## C25: the classifier sees the integer part of the average -/

/-- C25: `calc_biome` uses the sector average only through
`T = (int16_t)average`, which is the average truncated toward zero. With `H`
the centre-column humidity, a block that passes the altitude gates gets Ocean
if `T <= -10`; else SnowCap if `T >= 40`; else Beach/Lake (`H < 0.5` / else)
if `T <= 2`; else WoodLands/Forest/Jungle (`H < 0.25` / `< 0.5` / else) if
`T > 30`; else Desert/WoodLands/Forest/Jungle (`H < 0.25` / `< 0.5` /
`< 0.75` / else) if `T > 10`; else Plains/WoodLands/Forest (`H < 0.25` /
`< 0.75` / else). Hence two blocks that pass the gates with the same `T` and
`H` get the same biome, whatever the fractional parts of their averages. -/
theorem calc_biome_integer_part (c : Constants) (eng : NoiseEngine) (data : BlockMakeData)
    (T : Int) (H : ℚ)
    (hmin : node_min_y c data.blockpos < 256) (hmax : node_max_y c data.blockpos > -128)
    (hT : T = toS16 (sector_average c eng data)) (hH : H = centre_humidity c eng data) :
    T = truncate (sector_average c eng data) ∧
    (T ≤ -10 → (calc_biome c eng data).biome = some .BIOME_OCEAN) ∧
    (-10 < T → 40 ≤ T → (calc_biome c eng data).biome = some .BIOME_SNOWCAP) ∧
    (-10 < T → T ≤ 2 →
      (H < 1 / 2 → (calc_biome c eng data).biome = some .BIOME_BEACH) ∧
      (1 / 2 ≤ H → (calc_biome c eng data).biome = some .BIOME_LAKE)) ∧
    (30 < T → T < 40 →
      (H < 1 / 4 → (calc_biome c eng data).biome = some .BIOME_WOODLANDS) ∧
      (1 / 4 ≤ H → H < 1 / 2 → (calc_biome c eng data).biome = some .BIOME_FOREST) ∧
      (1 / 2 ≤ H → (calc_biome c eng data).biome = some .BIOME_JUNGLE)) ∧
    (10 < T → T ≤ 30 →
      (H < 1 / 4 → (calc_biome c eng data).biome = some .BIOME_DESERT) ∧
      (1 / 4 ≤ H → H < 1 / 2 → (calc_biome c eng data).biome = some .BIOME_WOODLANDS) ∧
      (1 / 2 ≤ H → H < 3 / 4 → (calc_biome c eng data).biome = some .BIOME_FOREST) ∧
      (3 / 4 ≤ H → (calc_biome c eng data).biome = some .BIOME_JUNGLE)) ∧
    (2 < T → T ≤ 10 →
      (H < 1 / 4 → (calc_biome c eng data).biome = some .BIOME_PLAINS) ∧
      (1 / 4 ≤ H → H < 3 / 4 → (calc_biome c eng data).biome = some .BIOME_WOODLANDS) ∧
      (3 / 4 ≤ H → (calc_biome c eng data).biome = some .BIOME_FOREST)) ∧
    (∀ (eng2 : NoiseEngine) (data2 : BlockMakeData),
      node_min_y c data2.blockpos < 256 → node_max_y c data2.blockpos > -128 →
      truncate (sector_average c eng2 data2) = T → centre_humidity c eng2 data2 = H →
      (calc_biome c eng2 data2).biome = (calc_biome c eng data).biome) := by
  have g1 : ¬ node_min_y c data.blockpos ≥ 1024 := by omega
  have g2 : ¬ node_min_y c data.blockpos ≥ 256 := by omega
  have g3 : ¬ node_max_y c data.blockpos ≤ -128 := by omega
  have hT' : T = truncate (sector_average c eng data) := by
    rw [hT, average_ground_height_eq]
  have hb : (calc_biome c eng data).biome
      = some (biome_rule (node_min_y c data.blockpos) (node_max_y c data.blockpos) T H) := by
    rw [calc_biome_biome, ← hT', ← hH]
  have z1 : ¬ (0 : Int) ≥ 1024 := by norm_num
  have z2 : ¬ (0 : Int) ≥ 256 := by norm_num
  have z3 : ¬ (0 : Int) ≤ -128 := by norm_num
  have hr : ∀ ymin ymax : Int, ¬ ymin ≥ 1024 → ¬ ymin ≥ 256 → ¬ ymax ≤ -128 →
      biome_rule ymin ymax T H = biome_rule 0 0 T H := by
    intro ymin ymax a1 a2 a3
    unfold biome_rule
    rw [if_neg a1, if_neg a2, if_neg a3, if_neg z1, if_neg z2, if_neg z3]
  rw [hb, hr _ _ g1 g2 g3]
  refine ⟨hT', ?_, ?_, ?_, ?_, ?_, ?_, ?_⟩
  · intro t1
    simp only [biome_rule]
    rw [if_neg z1, if_neg z2, if_neg z3, if_pos t1]
  · intro t1 t2
    simp only [biome_rule]
    rw [if_neg z1, if_neg z2, if_neg z3,
      if_neg (by omega), if_pos (by omega)]
  · intro t1 t2
    simp only [biome_rule]
    rw [if_neg z1, if_neg z2, if_neg z3,
      if_neg (by omega), if_neg (by omega), if_pos t2]
    exact ⟨fun h => by rw [if_pos h], fun h => by rw [if_neg (not_lt.mpr h)]⟩
  · intro t1 t2
    simp only [biome_rule]
    rw [if_neg z1, if_neg z2, if_neg z3,
      if_neg (by omega), if_neg (by omega), if_neg (by omega), if_pos (by omega)]
    refine ⟨fun h => by rw [if_pos h], fun h1 h2 => by rw [if_neg (not_lt.mpr h1), if_pos h2],
      fun h => ?_⟩
    rw [if_neg (not_lt.mpr (le_trans (by norm_num) h)), if_neg (not_lt.mpr h)]
  · intro t1 t2
    simp only [biome_rule]
    rw [if_neg z1, if_neg z2, if_neg z3,
      if_neg (by omega), if_neg (by omega), if_neg (by omega), if_neg (by omega),
      if_pos (by omega)]
    refine ⟨fun h => by rw [if_pos h], fun h1 h2 => by rw [if_neg (not_lt.mpr h1), if_pos h2],
      fun h1 h2 => ?_, fun h => ?_⟩
    · rw [if_neg (not_lt.mpr (le_trans (by norm_num) h1)), if_neg (not_lt.mpr h1), if_pos h2]
    · rw [if_neg (not_lt.mpr (le_trans (by norm_num) h)),
        if_neg (not_lt.mpr (le_trans (by norm_num) h)), if_neg (not_lt.mpr h)]
  · intro t1 t2
    simp only [biome_rule]
    rw [if_neg z1, if_neg z2, if_neg z3,
      if_neg (by omega), if_neg (by omega), if_neg (by omega), if_neg (by omega),
      if_neg (by omega)]
    refine ⟨fun h => by rw [if_pos h], fun h1 h2 => by rw [if_neg (not_lt.mpr h1), if_pos h2],
      fun h => ?_⟩
    rw [if_neg (not_lt.mpr (le_trans (by norm_num) h)), if_neg (not_lt.mpr h)]
  · intro eng2 data2 q1 q2 q3 q4
    have q1a : ¬ node_min_y c data2.blockpos ≥ 1024 := by omega
    have q1b : ¬ node_min_y c data2.blockpos ≥ 256 := by omega
    have q2a : ¬ node_max_y c data2.blockpos ≤ -128 := by omega
    rw [calc_biome_biome, q3, q4, hr _ _ q1a q1b q2a]

/-- Witness for C25: sector averages 2 (all heights 2) and 2.2 (heights 2, 2,
2, 2, 3) have the same integer part 2; with humidity 0.1 (as a `float`) both
blocks get Beach. -/
theorem calc_biome_integer_part_witness :
    sector_average sampleConstants (sampleEngine (1 / 5) (1 / 5) (-4 / 5)) (sampleData 0) = 2 ∧
    sector_average sampleConstants (sampleEngine (1 / 5) (3 / 10) (-4 / 5)) (sampleData 0)
      = 11 / 5 ∧
    (calc_biome sampleConstants (sampleEngine (1 / 5) (1 / 5) (-4 / 5)) (sampleData 0)).biome
      = some .BIOME_BEACH ∧
    (calc_biome sampleConstants (sampleEngine (1 / 5) (3 / 10) (-4 / 5)) (sampleData 0)).biome
      = (calc_biome sampleConstants (sampleEngine (1 / 5) (1 / 5) (-4 / 5))
          (sampleData 0)).biome := by
  have a1 : sector_average sampleConstants (sampleEngine (1 / 5) (1 / 5) (-4 / 5))
      (sampleData 0) = 2 := by
    rw [sample_sector_average, sampleHeight_020]; norm_num
  have a2 : sector_average sampleConstants (sampleEngine (1 / 5) (3 / 10) (-4 / 5))
      (sampleData 0) = 11 / 5 := by
    rw [sample_sector_average, sampleHeight_020, sampleHeight_030]; norm_num
  have t1 : truncate (2 : ℚ) = 2 :=
    truncate_eq_of_nonneg (by norm_num) (by norm_num) (by norm_num)
  have t2 : truncate (11 / 5 : ℚ) = 2 :=
    truncate_eq_of_nonneg (by norm_num) (by norm_num) (by norm_num)
  have hh : ∀ e1 e2 : ℚ, centre_humidity sampleConstants (sampleEngine e1 e2 (-4 / 5))
      (sampleData 0) = humidity_of_noise (-4 / 5) := by
    intro e1 e2
    rw [sample_centre_humidity]
  have hlt : humidity_of_noise (-4 / 5) < 1 / 2 :=
    lt_of_le_of_lt sample_humidity_010.2.2 (by norm_num)
  have f := calc_biome_integer_part sampleConstants (sampleEngine (1 / 5) (1 / 5) (-4 / 5))
    (sampleData 0) 2 (humidity_of_noise (-4 / 5)) (by decide) (by decide)
    (by rw [average_ground_height_eq, a1, t1]) (hh _ _).symm
  refine ⟨a1, a2, (f.2.2.2.1 (by norm_num) (by norm_num)).1 hlt, ?_⟩
  exact f.2.2.2.2.2.2.2 (sampleEngine (1 / 5) (3 / 10) (-4 / 5)) (sampleData 0)
    (by decide) (by decide) (by rw [a2, t2]) (hh _ _)

/-! ## C28: underground blocks are monotone in depth -/

/-- The comparison `block_is_underground` makes, on the value the minimum
aggregate returns. -/
theorem block_is_underground_eq_true_iff (c : Constants) (eng : NoiseEngine)
    (data : BlockMakeData) (blockpos : v3s16) :
    block_is_underground c eng data blockpos = true ↔
      ((blockpos.Y * c.MAP_BLOCKSIZE + c.MAP_BLOCKSIZE : Int) : ℚ)
        ≤ get_sector_minimum_ground_level c eng data ⟨blockpos.X, blockpos.Z⟩ := by
  obtain ⟨m, h1, h2, hm⟩ :=
    get_sector_minimum_ground_level_int c eng data ⟨blockpos.X, blockpos.Z⟩
  unfold block_is_underground
  dsimp only
  rw [hm, toS16_of_truncate_inRange (by rw [truncate_intCast]; exact h1)
    (by rw [truncate_intCast]; omega), truncate_intCast, Int.cast_le]
  split_ifs with h <;> simp [h]

/-- C28: for a block size that is not negative, every seed and every X, Z: if
the block at `(X, Y, Z)` is underground, then so is the block at `(X, Y2, Z)`
for every `Y2 <= Y`. -/
theorem block_is_underground_monotone (c : Constants) (eng : NoiseEngine)
    (data : BlockMakeData) (X Y Y2 Z : Int) (hB : 0 ≤ c.MAP_BLOCKSIZE) (hY : Y2 ≤ Y)
    (h : block_is_underground c eng data ⟨X, Y, Z⟩ = true) :
    block_is_underground c eng data ⟨X, Y2, Z⟩ = true := by
  rw [block_is_underground_eq_true_iff] at h ⊢
  refine le_trans ?_ h
  have : Y2 * c.MAP_BLOCKSIZE ≤ Y * c.MAP_BLOCKSIZE := Int.mul_le_mul_of_nonneg_right hY hB
  exact_mod_cast (by omega : Y2 * c.MAP_BLOCKSIZE + c.MAP_BLOCKSIZE
    ≤ Y * c.MAP_BLOCKSIZE + c.MAP_BLOCKSIZE)

/-- Witness for C28: with minimum ground level 17 in sector `(0, 0)` the block
at Y = 0 is underground, hence so is the block at Y = -5. -/
theorem block_is_underground_monotone_witness :
    block_is_underground sampleConstants (sampleEngine (4 / 5) (4 / 5) 0) (sampleData 0)
        ⟨0, 0, 0⟩ = true ∧
      block_is_underground sampleConstants (sampleEngine (4 / 5) (4 / 5) 0) (sampleData 0)
        ⟨0, -5, 0⟩ = true := by
  have m17 : get_sector_minimum_ground_level sampleConstants (sampleEngine (4 / 5) (4 / 5) 0)
      (sampleData 0) ⟨0, 0⟩ = 17 := by
    rw [sample_sector_minimum, sampleHeight_080]; norm_num
  have h0 : block_is_underground sampleConstants (sampleEngine (4 / 5) (4 / 5) 0)
      (sampleData 0) ⟨0, 0, 0⟩ = true :=
    (block_is_underground_eq_true_iff _ _ _ _).mpr (by rw [m17]; norm_num [sampleConstants])
  exact ⟨h0, block_is_underground_monotone sampleConstants (sampleEngine (4 / 5) (4 / 5) 0)
    (sampleData 0) 0 0 (-5) 0 (by decide) (by decide) h0⟩

/-! ## C27: the range of the height field -/

theorem truncate_mono_int_le (q : ℚ) (k : Int) (h : q ≤ k) : truncate q ≤ k := by
  unfold truncate
  split_ifs with h0
  · exact Int.floor_le_iff.mpr (by linarith)
  · exact Int.ceil_le.mpr h

theorem truncate_mono_int_ge (q : ℚ) (k : Int) (h : (k : ℚ) ≤ q) : k ≤ truncate q := by
  unfold truncate
  split_ifs with h0
  · exact Int.le_floor.mpr h
  · exact Int.le_ceil_iff.mpr (by linarith)

/-- The bounds on one ground height when its noise value lies in `[-1, 1]`. -/
theorem get_ground_height_bounds (c : Constants) (eng : NoiseEngine) (seed : Nat) (p : v2s16)
    (hWL1 : -31000 ≤ c.WATER_LEVEL) (hWL2 : c.WATER_LEVEL ≤ 31000)
    (hpow : ∀ e : ℚ, 0 < e → e ≤ 1 → 0 ≤ eng.pow e (19 / 10) ∧ eng.pow e (19 / 10) ≤ 1)
    (hn : -1 ≤ eng.noise2d_perlin (roundDouble ((p.X : ℚ) / 200))
        (roundDouble ((p.Y : ℚ) / 200)) seed 4 (1 / 2) ∧
      eng.noise2d_perlin (roundDouble ((p.X : ℚ) / 200))
        (roundDouble ((p.Y : ℚ) / 200)) seed 4 (1 / 2) ≤ 1) :
    c.WATER_LEVEL - 24 ≤ get_ground_height c eng seed p ∧
      get_ground_height c eng seed p ≤ c.WATER_LEVEL + 26 := by
  unfold get_ground_height
  dsimp only
  generalize eng.noise2d_perlin (roundDouble ((p.X : ℚ) / 200))
    (roundDouble ((p.Y : ℚ) / 200)) seed 4 (1 / 2) = e at hn
  have he2 : -1 ≤ (if e > 0 then eng.pow e (19 / 10) else e) ∧
      (if e > 0 then eng.pow e (19 / 10) else e) ≤ 1 := by
    split_ifs with h
    · obtain ⟨a, b⟩ := hpow e h hn.2
      exact ⟨by linarith, b⟩
    · exact hn
  generalize (if e > 0 then eng.pow e (19 / 10) else e) = e2 at he2
  have hw1 : (-31000 : ℚ) ≤ c.WATER_LEVEL := by exact_mod_cast hWL1
  have hw2 : (c.WATER_LEVEL : ℚ) ≤ 31000 := by exact_mod_cast hWL2
  have p1 : ((-25 : Int) : ℚ) ≤ roundDouble (25 * e2) :=
    int_le_roundDouble (by norm_num) (by push_cast; linarith [he2.1])
  have p2 : roundDouble (25 * e2) ≤ ((25 : Int) : ℚ) :=
    roundDouble_le_int (by norm_num) (by push_cast; linarith [he2.2])
  have k1 : |c.WATER_LEVEL - 24| ≤ 2 ^ 53 := by
    rw [abs_le]
    constructor <;> omega
  have k2 : |c.WATER_LEVEL + 26| ≤ 2 ^ 53 := by
    rw [abs_le]
    constructor <;> omega
  have q1 : ((c.WATER_LEVEL - 24 : Int) : ℚ)
      ≤ roundDouble (((c.WATER_LEVEL + 1 : Int) : ℚ) + roundDouble (25 * e2)) :=
    int_le_roundDouble k1 (by push_cast at p1 ⊢; linarith)
  have q2 : roundDouble (((c.WATER_LEVEL + 1 : Int) : ℚ) + roundDouble (25 * e2))
      ≤ ((c.WATER_LEVEL + 26 : Int) : ℚ) :=
    roundDouble_le_int k2 (by push_cast at p2 ⊢; linarith)
  have lo := truncate_mono_int_ge _ _ q1
  have hi := truncate_mono_int_le _ _ q2
  rw [toS16_of_truncate_inRange (by omega) (by omega)]
  exact ⟨lo, hi⟩

/-- C27: for a water level between -31000 and 31000 and a `pow` that maps
`(0, 1]` into `[0, 1]` at exponent 1.9: if the raw noise value of a column lies
in `[-1, 1]`, `get_ground_height` lies between `WATER_LEVEL-24` and
`WATER_LEVEL+26` inclusive; and if that holds at every column, the average,
the maximum and the minimum ground level of every sector lie in that range
too. -/
theorem ground_height_range (c : Constants) (eng : NoiseEngine) (seed : Nat)
    (hWL1 : -31000 ≤ c.WATER_LEVEL) (hWL2 : c.WATER_LEVEL ≤ 31000)
    (hpow : ∀ e : ℚ, 0 < e → e ≤ 1 → 0 ≤ eng.pow e (19 / 10) ∧ eng.pow e (19 / 10) ≤ 1) :
    (∀ p : v2s16,
      (-1 ≤ eng.noise2d_perlin (roundDouble ((p.X : ℚ) / 200))
          (roundDouble ((p.Y : ℚ) / 200)) seed 4 (1 / 2) ∧
        eng.noise2d_perlin (roundDouble ((p.X : ℚ) / 200))
          (roundDouble ((p.Y : ℚ) / 200)) seed 4 (1 / 2) ≤ 1) →
      c.WATER_LEVEL - 24 ≤ get_ground_height c eng seed p ∧
        get_ground_height c eng seed p ≤ c.WATER_LEVEL + 26) ∧
    ((∀ x y : ℚ, -1 ≤ eng.noise2d_perlin x y seed 4 (1 / 2) ∧
        eng.noise2d_perlin x y seed 4 (1 / 2) ≤ 1) →
      ∀ (data : BlockMakeData) (s : v2s16), data.seed = seed →
        (((c.WATER_LEVEL - 24 : Int) : ℚ) ≤ get_sector_average_ground_level c eng data s ∧
          get_sector_average_ground_level c eng data s ≤ ((c.WATER_LEVEL + 26 : Int) : ℚ)) ∧
        (((c.WATER_LEVEL - 24 : Int) : ℚ) ≤ get_sector_maximum_ground_level c eng data s ∧
          get_sector_maximum_ground_level c eng data s ≤ ((c.WATER_LEVEL + 26 : Int) : ℚ)) ∧
        (((c.WATER_LEVEL - 24 : Int) : ℚ) ≤ get_sector_minimum_ground_level c eng data s ∧
          get_sector_minimum_ground_level c eng data s
            ≤ ((c.WATER_LEVEL + 26 : Int) : ℚ))) := by
  refine ⟨fun p hn => get_ground_height_bounds c eng seed p hWL1 hWL2 hpow hn, ?_⟩
  intro hall data s hseed
  have hw1 : (-31000 : ℚ) ≤ c.WATER_LEVEL := by exact_mod_cast hWL1
  have hw2 : (c.WATER_LEVEL : ℚ) ≤ 31000 := by exact_mod_cast hWL2
  have hb : ∀ p : v2s16,
      ((c.WATER_LEVEL - 24 : Int) : ℚ) ≤ (get_ground_height c eng data.seed p : ℚ) ∧
        (get_ground_height c eng data.seed p : ℚ) ≤ ((c.WATER_LEVEL + 26 : Int) : ℚ) := by
    intro p
    rw [hseed]
    obtain ⟨a, b⟩ := get_ground_height_bounds c eng seed p hWL1 hWL2 hpow (hall _ _)
    exact ⟨by exact_mod_cast a, by exact_mod_cast b⟩
  have stepmax : ∀ (a : ℚ) (p : v2s16),
      (a = -31000 ∨ (((c.WATER_LEVEL - 24 : Int) : ℚ) ≤ a ∧
        a ≤ ((c.WATER_LEVEL + 26 : Int) : ℚ))) →
      ((c.WATER_LEVEL - 24 : Int) : ℚ) ≤ MYMAX a (get_ground_height c eng data.seed p) ∧
        MYMAX a (get_ground_height c eng data.seed p) ≤ ((c.WATER_LEVEL + 26 : Int) : ℚ) := by
    intro a p ha
    obtain ⟨b1, b2⟩ := hb p
    unfold MYMAX
    push_cast at b1 b2 ha ⊢
    rcases ha with ha | ⟨ha1, ha2⟩
    · exact ⟨le_trans b1 (le_max_right _ _), max_le (by rw [ha]; linarith) b2⟩
    · exact ⟨le_trans b1 (le_max_right _ _), max_le ha2 b2⟩
  have stepmin : ∀ (a : ℚ) (p : v2s16),
      (a = 31000 ∨ (((c.WATER_LEVEL - 24 : Int) : ℚ) ≤ a ∧
        a ≤ ((c.WATER_LEVEL + 26 : Int) : ℚ))) →
      ((c.WATER_LEVEL - 24 : Int) : ℚ) ≤ MYMIN a (get_ground_height c eng data.seed p) ∧
        MYMIN a (get_ground_height c eng data.seed p) ≤ ((c.WATER_LEVEL + 26 : Int) : ℚ) := by
    intro a p ha
    obtain ⟨b1, b2⟩ := hb p
    unfold MYMIN
    push_cast at b1 b2 ha ⊢
    rcases ha with ha | ⟨ha1, ha2⟩
    · exact ⟨le_min (by rw [ha]; linarith) b1, le_trans (min_le_right _ _) b2⟩
    · exact ⟨le_min ha1 b1, le_trans (min_le_right _ _) b2⟩
  refine ⟨?_, ?_, ?_⟩
  · unfold get_sector_average_ground_level
    dsimp only
    generalize v2s16.ofInts (s.mul c.MAP_BLOCKSIZE).X (s.mul c.MAP_BLOCKSIZE).Y = p1
    generalize v2s16.ofInts (s.mul c.MAP_BLOCKSIZE).X
      (((s.add ⟨1, 1⟩).mul c.MAP_BLOCKSIZE).sub ⟨1, 1⟩).Y = p2
    generalize v2s16.ofInts (((s.add ⟨1, 1⟩).mul c.MAP_BLOCKSIZE).sub ⟨1, 1⟩).X
      (((s.add ⟨1, 1⟩).mul c.MAP_BLOCKSIZE).sub ⟨1, 1⟩).Y = p3
    generalize v2s16.ofInts (((s.add ⟨1, 1⟩).mul c.MAP_BLOCKSIZE).sub ⟨1, 1⟩).X
      (s.mul c.MAP_BLOCKSIZE).Y = p4
    generalize v2s16.ofInts ((s.mul c.MAP_BLOCKSIZE).X + c.MAP_BLOCKSIZE.tdiv 2)
      ((s.mul c.MAP_BLOCKSIZE).Y + c.MAP_BLOCKSIZE.tdiv 2) = p5
    obtain ⟨a1, b1⟩ := hb p1
    obtain ⟨a2, b2⟩ := hb p2
    obtain ⟨a3, b3⟩ := hb p3
    obtain ⟨a4, b4⟩ := hb p4
    obtain ⟨a5, b5⟩ := hb p5
    constructor
    · rw [le_div_iff₀ (by norm_num)]
      linarith
    · rw [div_le_iff₀ (by norm_num)]
      linarith
  · unfold get_sector_maximum_ground_level
    dsimp only
    apply stepmax
    iterate 8 refine Or.inr (stepmax _ _ ?_)
    exact Or.inl rfl
  · unfold get_sector_minimum_ground_level
    dsimp only
    apply stepmin
    iterate 8 refine Or.inr (stepmin _ _ ?_)
    exact Or.inl rfl

theorem samplePow_unit (e : ℚ) (h0 : 0 < e) (h1 : e ≤ 1) :
    0 ≤ samplePow e (19 / 10) ∧ samplePow e (19 / 10) ≤ 1 := by
  unfold samplePow
  by_cases a0 : e = 1 / 5
  · rw [if_pos a0]
    constructor <;> norm_num
  rw [if_neg a0]
  by_cases a1 : e = 3 / 10
  · rw [if_pos a1]
    constructor <;> norm_num
  rw [if_neg a1]
  by_cases a2 : e = 1 / 2
  · rw [if_pos a2]
    constructor <;> norm_num
  rw [if_neg a2]
  by_cases a3 : e = 3 / 5
  · rw [if_pos a3]
    constructor <;> norm_num
  rw [if_neg a3]
  by_cases a4 : e = 63 / 100
  · rw [if_pos a4]
    constructor <;> norm_num
  rw [if_neg a4]
  by_cases a5 : e = 4 / 5
  · rw [if_pos a5]
    constructor <;> norm_num
  rw [if_neg a5]
  by_cases a6 : e = 109 / 100
  · exfalso
    rw [a6] at h1
    norm_num at h1
  rw [if_neg a6]
  by_cases a7 : e = 111 / 100
  · exfalso
    rw [a7] at h1
    norm_num at h1
  rw [if_neg a7]
  by_cases a8 : e = 118 / 100
  · exfalso
    rw [a8] at h1
    norm_num at h1
  rw [if_neg a8]
  by_cases a9 : e = 127 / 100
  · exfalso
    rw [a9] at h1
    norm_num at h1
  rw [if_neg a9]
  exact ⟨h0.le, h1⟩

/-- Witness for C27: water level 0, noise value 0.5 at the corners and 0.8 at
the centre of sector `(0, 0)`: the corner height is 7, and the three
aggregates lie between -24 and 26. -/
theorem ground_height_range_witness :
    (-24 ≤ get_ground_height sampleConstants (sampleEngine (1 / 2) (4 / 5) 0) 42 ⟨0, 0⟩ ∧
      get_ground_height sampleConstants (sampleEngine (1 / 2) (4 / 5) 0) 42 ⟨0, 0⟩ ≤ 26) ∧
    ((-24 : ℚ) ≤ get_sector_average_ground_level sampleConstants
        (sampleEngine (1 / 2) (4 / 5) 0) (sampleData 0) ⟨0, 0⟩ ∧
      get_sector_maximum_ground_level sampleConstants
        (sampleEngine (1 / 2) (4 / 5) 0) (sampleData 0) ⟨0, 0⟩ ≤ 26) := by
  have f := ground_height_range sampleConstants (sampleEngine (1 / 2) (4 / 5) 0) 42
    (by decide) (by decide) samplePow_unit
  have hn : ∀ x y : ℚ, -1 ≤ (sampleEngine (1 / 2) (4 / 5) 0).noise2d_perlin x y 42 4 (1 / 2) ∧
      (sampleEngine (1 / 2) (4 / 5) 0).noise2d_perlin x y 42 4 (1 / 2) ≤ 1 := by
    intro x y
    simp only [sampleEngine]
    split_ifs <;> norm_num
  have g := f.2 hn (sampleData 0) ⟨0, 0⟩ rfl
  refine ⟨f.1 ⟨0, 0⟩ (hn _ _), ?_, ?_⟩
  · have := g.1.1
    norm_num [sampleConstants] at this
    exact this
  · have := g.2.1.2
    norm_num [sampleConstants] at this
    exact this

end mapgen

namespace mapblock

/-! ## C23: `getNode` and `getNodeNoEx` -/

/-- The position check written out. -/
theorem isValidPosition_iff {Node : Type} (c : mapgen.Constants) (b : MapBlock Node)
    (x y z : Int) :
    b.isValidPosition c x y z = true ↔
      (b.isDummy = false ∧ 0 ≤ x ∧ x < c.MAP_BLOCKSIZE ∧ 0 ≤ y ∧ y < c.MAP_BLOCKSIZE
        ∧ 0 ≤ z ∧ z < c.MAP_BLOCKSIZE) := by
  unfold MapBlock.isValidPosition MapBlock.isDummy
  cases hd : b.data.isNone
  · simp [and_assoc]
  · simp

/-- The index written with the square of the block size. -/
theorem node_index_eq (c : mapgen.Constants) (x y z : Int) :
    node_index c x y z = z * c.MAP_BLOCKSIZE ^ 2 + y * c.MAP_BLOCKSIZE + x := by
  unfold node_index
  ring

/-- C23: `getNode(x, y, z, valid_position)` returns a node and a flag and
throws nothing. The flag is true if and only if the block is not a dummy and
`0 <= x, y, z < MAP_BLOCKSIZE`; when the flag is false the node is
`MapNode(CONTENT_IGNORE)`, when it is true the node is the one stored at index
`z*MAP_BLOCKSIZE^2 + y*MAP_BLOCKSIZE + x`. `getNodeNoEx` returns the same
node. -/
theorem getNode_spec {Node : Type} (c : mapgen.Constants) (content_ignore : Node)
    (b : MapBlock Node) (x y z : Int) :
    ((b.getNode c content_ignore x y z).2 = true ↔
        (b.isDummy = false ∧ 0 ≤ x ∧ x < c.MAP_BLOCKSIZE ∧ 0 ≤ y ∧ y < c.MAP_BLOCKSIZE
          ∧ 0 ≤ z ∧ z < c.MAP_BLOCKSIZE)) ∧
      ((b.getNode c content_ignore x y z).2 = false →
        (b.getNode c content_ignore x y z).1 = content_ignore) ∧
      ((b.getNode c content_ignore x y z).2 = true →
        ∃ d : Int → Node, b.data = some d ∧
          (b.getNode c content_ignore x y z).1
            = d (z * c.MAP_BLOCKSIZE ^ 2 + y * c.MAP_BLOCKSIZE + x)) ∧
      b.getNodeNoEx c content_ignore ⟨x, y, z⟩ = (b.getNode c content_ignore x y z).1 := by
  have hflag : (b.getNode c content_ignore x y z).2 = b.isValidPosition c x y z := by
    unfold MapBlock.getNode
    dsimp only
    cases b.isValidPosition c x y z <;> rfl
  refine ⟨?_, ?_, ?_, ?_⟩
  · rw [hflag]
    exact isValidPosition_iff c b x y z
  · intro h
    rw [hflag] at h
    unfold MapBlock.getNode
    dsimp only
    rw [h]
    rfl
  · intro h
    rw [hflag] at h
    have hd : b.isDummy = false := ((isValidPosition_iff c b x y z).mp h).1
    unfold MapBlock.isDummy at hd
    cases hdata : b.data with
    | none => rw [hdata] at hd; exact absurd hd (by simp)
    | some d =>
      refine ⟨d, rfl, ?_⟩
      unfold MapBlock.getNode
      dsimp only
      rw [h, ← node_index_eq]
      simp [MapBlock.dataRead, hdata]
  · unfold MapBlock.getNodeNoEx
    dsimp only
    cases hv : (b.getNode c content_ignore x y z).2
    · rw [hflag] at hv
      unfold MapBlock.getNode
      dsimp only
      rw [hv]
      rfl
    · rfl

/-- Witness for C23: in a block of 16-node edge whose node at index `i` is
`i`, position `(1, 2, 3)` is valid and holds node `3*256 + 2*16 + 1 = 801`;
position `(16, 2, 3)` is not valid, and no position of a dummy block is. -/
theorem getNode_spec_witness :
    (sampleBlock 0).getNode mapgen.sampleConstants (-1) 1 2 3 = (801, true) ∧
      (sampleBlock 0).getNode mapgen.sampleConstants (-1) 16 2 3 = (-1, false) ∧
      (dummyBlock 0).getNode mapgen.sampleConstants (-1) 1 2 3 = (-1, false) ∧
      (sampleBlock 0).getNodeNoEx mapgen.sampleConstants (-1) ⟨1, 2, 3⟩ = 801 := by
  have f := getNode_spec mapgen.sampleConstants (-1 : Int) (sampleBlock 0) 1 2 3
  have g := getNode_spec mapgen.sampleConstants (-1 : Int) (sampleBlock 0) 16 2 3
  have k := getNode_spec mapgen.sampleConstants (-1 : Int) (dummyBlock 0) 1 2 3
  have v1 : ((sampleBlock 0).getNode mapgen.sampleConstants (-1) 1 2 3).2 = true :=
    f.1.mpr (by decide)
  have v2 : ((sampleBlock 0).getNode mapgen.sampleConstants (-1) 16 2 3).2 = false := by
    cases hv : ((sampleBlock 0).getNode mapgen.sampleConstants (-1) 16 2 3).2
    · rfl
    · exact absurd (g.1.mp hv).2.2.1 (by decide)
  have v3 : ((dummyBlock 0).getNode mapgen.sampleConstants (-1) 1 2 3).2 = false := by
    cases hv : ((dummyBlock 0).getNode mapgen.sampleConstants (-1) 1 2 3).2
    · rfl
    · exact absurd (k.1.mp hv).1 (by decide)
  obtain ⟨d, hd, hn⟩ := f.2.2.1 v1
  have hd' : d = fun i => i := by
    have : (sampleBlock 0).data = some (fun i => i) := rfl
    rw [this] at hd
    exact (Option.some.inj hd).symm
  have n1 : ((sampleBlock 0).getNode mapgen.sampleConstants (-1) 1 2 3).1 = 801 := by
    rw [hn, hd']
    decide
  refine ⟨Prod.ext n1 v1, Prod.ext (g.2.1 v2) v2, Prod.ext (k.2.1 v3) v3, ?_⟩
  rw [f.2.2.2, n1]

/-! ## C29: `setNode` followed by `getNode` -/

theorem digits_unique (B a k a2 k2 : Int) (ha : 0 ≤ a) (ha' : a < B) (ha2 : 0 ≤ a2)
    (ha2' : a2 < B) (h : a + k * B = a2 + k2 * B) : a = a2 ∧ k = k2 := by
  have hB : B ≠ 0 := by omega
  have e1 : (a + k * B) % B = a := by
    rw [Int.add_mul_emod_self, Int.emod_eq_of_lt ha ha']
  have e2 : (a2 + k2 * B) % B = a2 := by
    rw [Int.add_mul_emod_self, Int.emod_eq_of_lt ha2 ha2']
  have ea : a = a2 := by rw [← e1, ← e2, h]
  refine ⟨ea, ?_⟩
  rw [ea] at h
  exact mul_right_cancel₀ hB (add_left_cancel h)

/-- The index is injective on the positions inside the block. -/
theorem node_index_injective (c : mapgen.Constants) (x y z x2 y2 z2 : Int)
    (hx : 0 ≤ x ∧ x < c.MAP_BLOCKSIZE) (hy : 0 ≤ y ∧ y < c.MAP_BLOCKSIZE)
    (hx2 : 0 ≤ x2 ∧ x2 < c.MAP_BLOCKSIZE) (hy2 : 0 ≤ y2 ∧ y2 < c.MAP_BLOCKSIZE)
    (h : node_index c x y z = node_index c x2 y2 z2) : x = x2 ∧ y = y2 ∧ z = z2 := by
  have e : ∀ a b d : Int, node_index c a b d
      = a + (b + d * c.MAP_BLOCKSIZE) * c.MAP_BLOCKSIZE := by
    intro a b d
    unfold node_index
    ring
  rw [e, e] at h
  obtain ⟨h1, h2⟩ := digits_unique _ _ _ _ _ hx.1 hx.2 hx2.1 hx2.2 h
  obtain ⟨h3, h4⟩ := digits_unique _ _ _ _ _ hy.1 hy.2 hy2.1 hy2.2 h2
  exact ⟨h1, h3, h4⟩

theorem isValidPosition_setNode {Node : Type} (c : mapgen.Constants) (b : MapBlock Node)
    (i : Int) (n : Node) (m : Nat) (x y z : Int) :
    ((b.dataWrite i n).raiseModified m).isValidPosition c x y z
      = b.isValidPosition c x y z := by
  unfold MapBlock.isValidPosition MapBlock.raiseModified MapBlock.dataWrite
  cases b.data <;> rfl

/-- C29: for a block that is not a dummy and a position with
`0 <= x, y, z < MAP_BLOCKSIZE`, `setNode(x, y, z, n)` returns normally, after
it `getNode(x, y, z)` gives `n` with the flag true, and `getNode` at every
other position inside the block gives what it gave before; the index
`z*MAP_BLOCKSIZE^2 + y*MAP_BLOCKSIZE + x` is injective on the positions inside
the block. On a dummy block or a position outside the block `setNode` throws
`InvalidPositionException` and leaves the block as it was. -/
theorem setNode_getNode {Node : Type} (c : mapgen.Constants) (content_ignore : Node)
    (b : MapBlock Node) (x y z : Int) (n : Node) :
    (b.isDummy = false → 0 ≤ x → x < c.MAP_BLOCKSIZE → 0 ≤ y → y < c.MAP_BLOCKSIZE →
      0 ≤ z → z < c.MAP_BLOCKSIZE →
      (b.setNode c x y z n).1 = .ok () ∧
      (b.setNode c x y z n).2.getNode c content_ignore x y z = (n, true) ∧
      (∀ x2 y2 z2 : Int, 0 ≤ x2 → x2 < c.MAP_BLOCKSIZE → 0 ≤ y2 → y2 < c.MAP_BLOCKSIZE →
        0 ≤ z2 → z2 < c.MAP_BLOCKSIZE → (x2, y2, z2) ≠ (x, y, z) →
        (b.setNode c x y z n).2.getNode c content_ignore x2 y2 z2
          = b.getNode c content_ignore x2 y2 z2) ∧
      (∀ x2 y2 z2 : Int, 0 ≤ x2 → x2 < c.MAP_BLOCKSIZE → 0 ≤ y2 → y2 < c.MAP_BLOCKSIZE →
        0 ≤ z2 → z2 < c.MAP_BLOCKSIZE →
        z2 * c.MAP_BLOCKSIZE ^ 2 + y2 * c.MAP_BLOCKSIZE + x2
          = z * c.MAP_BLOCKSIZE ^ 2 + y * c.MAP_BLOCKSIZE + x →
        (x2, y2, z2) = (x, y, z))) ∧
    ((b.isDummy = true ∨ ¬ (0 ≤ x ∧ x < c.MAP_BLOCKSIZE ∧ 0 ≤ y ∧ y < c.MAP_BLOCKSIZE
        ∧ 0 ≤ z ∧ z < c.MAP_BLOCKSIZE)) →
      b.setNode c x y z n = (.error .InvalidPositionException, b)) := by
  constructor
  · intro hd hx hx' hy hy' hz hz'
    have hv : b.isValidPosition c x y z = true :=
      (isValidPosition_iff c b x y z).mpr ⟨hd, hx, hx', hy, hy', hz, hz'⟩
    have hs : b.setNode c x y z n = (.ok (),
        (b.dataWrite (node_index c x y z) n).raiseModified MOD_STATE_WRITE_NEEDED) := by
      unfold MapBlock.setNode
      rw [hv]
      rfl
    obtain ⟨d, hdata⟩ : ∃ d, b.data = some d := by
      unfold MapBlock.isDummy at hd
      cases hdata : b.data with
      | none => rw [hdata] at hd; exact absurd hd (by simp)
      | some d => exact ⟨d, rfl⟩
    have hget : ∀ x2 y2 z2 : Int, b.isValidPosition c x2 y2 z2 = true →
        ((b.dataWrite (node_index c x y z) n).raiseModified
            MOD_STATE_WRITE_NEEDED).getNode c content_ignore x2 y2 z2
          = (if node_index c x2 y2 z2 = node_index c x y z then n
              else d (node_index c x2 y2 z2), true) := by
      intro x2 y2 z2 hv2
      unfold MapBlock.getNode
      dsimp only
      rw [isValidPosition_setNode, hv2]
      simp [MapBlock.dataRead, MapBlock.dataWrite, MapBlock.raiseModified, hdata]
    have hold : ∀ x2 y2 z2 : Int, b.isValidPosition c x2 y2 z2 = true →
        b.getNode c content_ignore x2 y2 z2 = (d (node_index c x2 y2 z2), true) := by
      intro x2 y2 z2 hv2
      unfold MapBlock.getNode
      dsimp only
      rw [hv2]
      simp [MapBlock.dataRead, hdata]
    rw [hs]
    refine ⟨rfl, ?_, ?_, ?_⟩
    · rw [hget x y z hv, if_pos rfl]
    · intro x2 y2 z2 a1 a2 a3 a4 a5 a6 hne
      have hv2 : b.isValidPosition c x2 y2 z2 = true :=
        (isValidPosition_iff c b x2 y2 z2).mpr ⟨hd, a1, a2, a3, a4, a5, a6⟩
      have hidx : node_index c x2 y2 z2 ≠ node_index c x y z := by
        intro h
        obtain ⟨e1, e2, e3⟩ := node_index_injective c x2 y2 z2 x y z ⟨a1, a2⟩ ⟨a3, a4⟩
          ⟨hx, hx'⟩ ⟨hy, hy'⟩ h
        exact hne (by rw [e1, e2, e3])
      rw [hget x2 y2 z2 hv2, if_neg hidx, hold x2 y2 z2 hv2]
    · intro x2 y2 z2 a1 a2 a3 a4 _ _ h
      rw [← node_index_eq, ← node_index_eq] at h
      obtain ⟨e1, e2, e3⟩ := node_index_injective c x2 y2 z2 x y z ⟨a1, a2⟩ ⟨a3, a4⟩
        ⟨hx, hx'⟩ ⟨hy, hy'⟩ h
      rw [e1, e2, e3]
  · intro h
    have hv : b.isValidPosition c x y z = false := by
      cases hv : b.isValidPosition c x y z
      · rfl
      · have := (isValidPosition_iff c b x y z).mp hv
        rcases h with h | h
        · rw [this.1] at h
          exact absurd h (by decide)
        · exact absurd this.2 h
    unfold MapBlock.setNode
    rw [hv]
    rfl

/-- Witness for C29: in the sample block, writing node 77 at `(1, 2, 3)` makes
`getNode(1, 2, 3)` give 77 and leaves `getNode(2, 2, 3)` at 802; `setNode` at
`(16, 2, 3)` and on a dummy block throws and leaves the block as it was. -/
theorem setNode_getNode_witness :
    ((sampleBlock 0).setNode mapgen.sampleConstants 1 2 3 77).2.getNode
        mapgen.sampleConstants (-1) 1 2 3 = (77, true) ∧
      ((sampleBlock 0).setNode mapgen.sampleConstants 1 2 3 77).2.getNode
        mapgen.sampleConstants (-1) 2 2 3
        = (sampleBlock 0).getNode mapgen.sampleConstants (-1) 2 2 3 ∧
      (sampleBlock 0).setNode mapgen.sampleConstants 16 2 3 77
        = (.error .InvalidPositionException, sampleBlock 0) ∧
      (dummyBlock 0).setNode mapgen.sampleConstants 1 2 3 77
        = (.error .InvalidPositionException, dummyBlock 0) := by
  have f := (setNode_getNode mapgen.sampleConstants (-1 : Int) (sampleBlock 0) 1 2 3 77).1
    rfl (by decide) (by decide) (by decide) (by decide) (by decide) (by decide)
  refine ⟨f.2.1, f.2.2.1 2 2 3 (by decide) (by decide) (by decide) (by decide) (by decide)
    (by decide) (by decide), ?_, ?_⟩
  · exact (setNode_getNode mapgen.sampleConstants (-1 : Int) (sampleBlock 0) 16 2 3 77).2
      (Or.inr (by decide))
  · exact (setNode_getNode mapgen.sampleConstants (-1 : Int) (dummyBlock 0) 1 2 3 77).2
      (Or.inl rfl)

/-! ## C30: the modification state -/

/-- C30: `raiseModified(mod)` sets `m_modified` to the greater of its old value
and `mod`; every mutator (`setNode`, `setNodeNoCheck`, `setIsUnderground`,
`setLightingExpired`, `setGenerated`, `setTimestamp`,
`setTimestampNoChangedFlag`, `setChangedFlag`) leaves `m_modified` at least
at its previous value, also when it throws; `setTimestamp` on a block in state
`MOD_STATE_WRITE_NEEDED` leaves it there; `resetModified` and
`resetChangedFlag` set it to `MOD_STATE_CLEAN`. -/
theorem modified_never_lowered {Node : Type} (c : mapgen.Constants) (b : MapBlock Node)
    (mod time : Nat) (flag : Bool) (x y z : Int) (n : Node) :
    (b.raiseModified mod).m_modified = max b.m_modified mod ∧
      b.m_modified ≤ (b.setNode c x y z n).2.m_modified ∧
      b.m_modified ≤ (b.setNodeNoCheck c x y z n).2.m_modified ∧
      b.m_modified ≤ (b.setIsUnderground flag).m_modified ∧
      b.m_modified ≤ (b.setLightingExpired flag).m_modified ∧
      b.m_modified ≤ (b.setGenerated flag).m_modified ∧
      b.m_modified ≤ (b.setTimestamp time).m_modified ∧
      b.m_modified ≤ (b.setTimestampNoChangedFlag time).m_modified ∧
      b.m_modified ≤ b.setChangedFlag.m_modified ∧
      (b.m_modified = MOD_STATE_WRITE_NEEDED →
        (b.setTimestamp time).m_modified = MOD_STATE_WRITE_NEEDED) ∧
      b.resetModified.m_modified = MOD_STATE_CLEAN ∧
      b.resetChangedFlag.m_modified = MOD_STATE_CLEAN := by
  refine ⟨rfl, ?_, ?_, ?_, ?_, ?_, ?_, ?_, ?_, ?_, rfl, rfl⟩
  · unfold MapBlock.setNode
    cases b.isValidPosition c x y z
    · exact le_refl _
    · exact le_max_left _ _
  · unfold MapBlock.setNodeNoCheck
    cases b.data.isNone
    · exact le_max_left _ _
    · exact le_refl _
  · exact le_max_left _ _
  · unfold MapBlock.setLightingExpired
    split_ifs
    · exact le_max_left _ _
    · exact le_refl _
  · unfold MapBlock.setGenerated
    split_ifs
    · exact le_max_left _ _
    · exact le_refl _
  · exact le_max_left _ _
  · exact le_refl _
  · exact le_max_left _ _
  · intro h
    show max b.m_modified MOD_STATE_WRITE_AT_UNLOAD = MOD_STATE_WRITE_NEEDED
    rw [h]
    decide

/-- Witness for C30: a block in state `MOD_STATE_WRITE_NEEDED` (4) stays there
under `setTimestamp`, and a clean block is raised to
`MOD_STATE_WRITE_AT_UNLOAD` (2) by `setTimestamp`. -/
theorem modified_never_lowered_witness :
    ((sampleBlock 4).setTimestamp 9).m_modified = 4 ∧
      ((sampleBlock 0).setTimestamp 9).m_modified = 2 ∧
      (sampleBlock 4).resetModified.m_modified = 0 :=
  ⟨(modified_never_lowered mapgen.sampleConstants (sampleBlock 4) 0 9 true 0 0 0 0).2.2.2.2.2.2.2.2.2.1
      rfl,
    by decide,
    (modified_never_lowered mapgen.sampleConstants (sampleBlock 4) 0 9 true 0 0 0 0).2.2.2.2.2.2.2.2.2.2.1⟩

end mapblock

namespace tile

/-! ## C24: named colours with an alpha suffix -/

theorem lookup_some_mem (k : List Char) (l : List (List Char × Nat)) (v : Nat)
    (h : l.lookup k = some v) : (k, v) ∈ l := by
  induction l with
  | nil => simp at h
  | cons e t ih =>
    obtain ⟨a, b⟩ := e
    rw [List.lookup_cons] at h
    by_cases hk : k = a
    · subst hk
      simp at h
      rw [h]
      exact List.mem_cons_self _ _
    · have : (k == a) = false := by simpa using hk
      rw [this] at h
      exact List.mem_cons_of_mem _ (ih h)

set_option maxRecDepth 100000 in
/-- No name of the table contains a `#`, and no name is empty or starts with
a `#`. -/
theorem named_colors_no_hash :
    ∀ e ∈ named_colors, '#' ∉ e.1 ∧ e.1.headD (Char.ofNat 0) ≠ '#' ∧ e.1 ≠ [] := by
  decide

/-- With a `lowercase` that keeps every `#`, `parseNamedColorString` rejects
every string that contains a `#`: the table is searched for the whole
lower-cased string, suffix included. -/
theorem parseNamedColorString_hash (lib : StringLib)
    (hl : ∀ v : List Char, '#' ∈ v → '#' ∈ lib.lowercase v)
    (value : List Char) (color : Nat) (h : '#' ∈ value) :
    parseNamedColorString lib value color = (false, color) := by
  have hnone : named_colors.lookup (lib.lowercase value) = none := by
    cases hlk : named_colors.lookup (lib.lowercase value) with
    | none => rfl
    | some v =>
      exact absurd (hl value h) (named_colors_no_hash _ (lookup_some_mem _ _ _ hlk)).1
  unfold parseNamedColorString
  dsimp only
  rw [hnone]

theorem asciiLib_keeps_hash (v : List Char) (h : '#' ∈ v) : '#' ∈ asciiLib.lowercase v := by
  show '#' ∈ v.map Char.toLower
  exact List.mem_map.mpr ⟨'#', h, by decide⟩

/-- C24 (the code at the failing input): `red` is in the table with value
`0xff0000`, yet `parseColorString` rejects `red#08` and leaves the colour as
it was, because `parseNamedColorString` looks up `lowercase(value)`, the
whole string with its suffix, instead of the name before the `#`. The same
happens for every name of the table and every two characters after the `#`.
Without a suffix the name is accepted and the colour is opaque
(`0xffff0000`). -/
theorem named_colour_alpha_suffix_rejected :
    named_colors.lookup "red".toList = some 0xff0000 ∧
    asciiLib.hex_digit_decode '0' = some 0 ∧ asciiLib.hex_digit_decode '8' = some 8 ∧
    parseColorString asciiLib "red#08".toList 0 false = (false, 0) ∧
    (∀ e ∈ named_colors, ∀ (a b : Char) (color : Nat),
      parseColorString asciiLib (e.1 ++ ['#', a, b]) color false = (false, color)) ∧
    parseColorString asciiLib "red".toList 0 false = (true, 0xffff0000) := by
  refine ⟨by decide, by decide, by decide, by decide, ?_, by decide⟩
  intro e he a b color
  obtain ⟨-, h2, h3⟩ := named_colors_no_hash e he
  have hhead : (e.1 ++ ['#', a, b]).headD (Char.ofNat 0) = e.1.headD (Char.ofNat 0) := by
    cases h : e.1 with
    | nil => exact absurd h h3
    | cons x xs => rfl
  unfold parseColorString
  rw [hhead, if_neg h2]
  exact parseNamedColorString_hash asciiLib asciiLib_keeps_hash _ _ (by simp)

end tile
